import Mathlib

/-!
# CrossChain-Bridge: swap record projection and admin command channel

A shallow embedding of

* `internal/swapapi/converts.go` (projection of swap records to `SwapInfo`),
* `params/config.go` (`HasAdmin`, `IsAdmin`),
* `rpc/rpcapi/adminapi.go` (`AdminCall`, `doCall` and the nine handlers),
* `tokens/eth/buildswapintx.go` (`buildSwapinTxInput`),
* `tokens/colx/colxAddressToBtc.go` (`ConvertCOLXAddress`).

Go `error` values are modelled by `Option Error` (`none` is `nil`), strings by
Lean strings, `uint64` by `Nat` with explicit reduction modulo `2 ^ 64`.
Collaborators that live outside these files (the mongodb store, the worker,
the bridges, the admin transaction codec) are parameters of the embedding.
-/

set_option autoImplicit false

namespace CrossChain

/-! ## Swap record projection (`internal/swapapi/converts.go`) -/

/-- An error value: the message of a Go `error`. -/
abbrev Error := String

/-- The resulted swap record `mongodb.MgoSwapResult`, with the fields read by the projection. -/
structure MgoSwapResult where
  PairID : String
  TxID : String
  TxTo : String
  TxHeight : Nat
  TxTime : Nat
  From : String
  To : String
  Bind : String
  Value : String
  ForNative : Bool
  ForUnderlying : Bool
  Token : String
  Path : List String
  AmountOutMin : String
  FromChainID : String
  ToChainID : String
  LogIndex : Int
  SwapTx : String
  SwapHeight : Nat
  SwapTime : Nat
  SwapValue : String
  SwapType : Nat
  SwapNonce : Nat
  Status : Nat
  Timestamp : Int
  Memo : String
  deriving DecidableEq, Repr

/-- The outward view `swapapi.SwapInfo`. -/
structure SwapInfo where
  PairID : String := ""
  TxID : String := ""
  TxTo : String := ""
  TxHeight : Nat := 0
  TxTime : Nat := 0
  From : String := ""
  To : String := ""
  Bind : String := ""
  Value : String := ""
  ForNative : Bool := false
  ForUnderlying : Bool := false
  Token : String := ""
  Path : List String := []
  AmountOutMin : String := ""
  FromChainID : String := ""
  ToChainID : String := ""
  LogIndex : Int := 0
  SwapTx : String := ""
  SwapHeight : Nat := 0
  SwapTime : Nat := 0
  SwapValue : String := ""
  SwapType : Nat := 0
  SwapNonce : Nat := 0
  Status : Nat := 0
  StatusMsg : String := ""
  Timestamp : Int := 0
  Memo : String := ""
  Confirmations : Nat := 0
  deriving DecidableEq, Repr

/-- What the projection reads from package `tokens`: the three swap type
constants used as `case` labels, the two cached heights, the live height
lookup of the bridge registered for a chain id (a value and an error, as in
`GetLatestBlockNumber`), and the string rendering of a swap status. -/
structure TokensEnv where
  SwapinType : Nat
  SwapoutType : Nat
  RouterSwapType : Nat
  DstLatestBlockHeight : Nat
  SrcLatestBlockHeight : Nat
  GetLatestBlockNumberByChainID : String → Nat × Option Error
  StatusString : Nat → String

/-- The modulus of `uint64` arithmetic. -/
def u64 : Nat := 2 ^ 64

/-- Subtraction of two `uint64` values as the machine does it (wrapping). -/
def subU64 (a b : Nat) : Nat := (a + u64 - b % u64) % u64

/-- The `switch mr.SwapType` of `ConvertMgoSwapResultToSwapInfo`: `latest`
starts at zero and is assigned in the matching case; the error of the live
lookup is dropped (`latest, _ = ...`). -/
def latestBySwapType (T : TokensEnv) (mr : MgoSwapResult) : Nat :=
  if mr.SwapType = T.SwapinType then T.DstLatestBlockHeight
  else if mr.SwapType = T.SwapoutType then T.SrcLatestBlockHeight
  else if mr.SwapType = T.RouterSwapType then (T.GetLatestBlockNumberByChainID mr.ToChainID).1
  else 0

/-- The local `confirmations` computed at the head of `ConvertMgoSwapResultToSwapInfo`. -/
def confirmationsOf (T : TokensEnv) (mr : MgoSwapResult) : Nat :=
  if mr.SwapHeight ≠ 0 then
    let latest := latestBySwapType T mr
    if latest > mr.SwapHeight then subU64 latest mr.SwapHeight else 0
  else 0

/-- The function `ConvertMgoSwapResultToSwapInfo`. -/
def ConvertMgoSwapResultToSwapInfo (T : TokensEnv) (mr : MgoSwapResult) : SwapInfo :=
  { PairID := mr.PairID
    TxID := mr.TxID
    TxTo := mr.TxTo
    TxHeight := mr.TxHeight
    TxTime := mr.TxTime
    From := mr.From
    To := mr.To
    Bind := mr.Bind
    Value := mr.Value
    ForNative := mr.ForNative
    ForUnderlying := mr.ForUnderlying
    Token := mr.Token
    Path := mr.Path
    AmountOutMin := mr.AmountOutMin
    FromChainID := mr.FromChainID
    ToChainID := mr.ToChainID
    LogIndex := mr.LogIndex
    SwapTx := mr.SwapTx
    SwapHeight := mr.SwapHeight
    SwapTime := mr.SwapTime
    SwapValue := mr.SwapValue
    SwapType := mr.SwapType
    SwapNonce := mr.SwapNonce
    Status := mr.Status
    StatusMsg := T.StatusString mr.Status
    Timestamp := mr.Timestamp
    Memo := mr.Memo
    Confirmations := confirmationsOf T mr }

/-- The function `ConvertMgoSwapResultsToSwapInfos`. -/
def ConvertMgoSwapResultsToSwapInfos (T : TokensEnv) (mrSlice : List MgoSwapResult) :
    List SwapInfo :=
  mrSlice.map (ConvertMgoSwapResultToSwapInfo T)

/-- The pending swap record `mongodb.MgoSwap`, with the fields read by the projection. -/
structure MgoSwap where
  PairID : String
  TxID : String
  TxTo : String
  Bind : String
  ForNative : Bool
  ForUnderlying : Bool
  Token : String
  Path : List String
  AmountOutMin : String
  FromChainID : String
  ToChainID : String
  LogIndex : Int
  Status : Nat
  Timestamp : Int
  Memo : String
  deriving DecidableEq, Repr

/-- The function `ConvertMgoSwapToSwapInfo`: the fields that the composite
literal does not name keep their zero value. -/
def ConvertMgoSwapToSwapInfo (T : TokensEnv) (ms : MgoSwap) : SwapInfo :=
  { PairID := ms.PairID
    TxID := ms.TxID
    TxTo := ms.TxTo
    Bind := ms.Bind
    ForNative := ms.ForNative
    ForUnderlying := ms.ForUnderlying
    Token := ms.Token
    Path := ms.Path
    AmountOutMin := ms.AmountOutMin
    FromChainID := ms.FromChainID
    ToChainID := ms.ToChainID
    LogIndex := ms.LogIndex
    Status := ms.Status
    StatusMsg := T.StatusString ms.Status
    Timestamp := ms.Timestamp
    Memo := ms.Memo }

/-- The function `ConvertMgoSwapsToSwapInfos`. -/
def ConvertMgoSwapsToSwapInfos (T : TokensEnv) (msSlice : List MgoSwap) : List SwapInfo :=
  msSlice.map (ConvertMgoSwapToSwapInfo T)

/-- A sample pending record. -/
def sampleSwap : MgoSwap :=
  { PairID := "btc", TxID := "0xaa", TxTo := "0xbb", Bind := "0xcc"
    ForNative := false, ForUnderlying := true, Token := "0xee", Path := ["0x01", "0x02"]
    AmountOutMin := "5", FromChainID := "1", ToChainID := "56", LogIndex := 3
    Status := 0, Timestamp := 13, Memo := "note" }

/-- The case labels of a Go `switch` are pairwise different constants. -/
def TokensEnv.distinctSwapTypes (T : TokensEnv) : Prop :=
  T.SwapinType ≠ T.SwapoutType ∧ T.SwapinType ≠ T.RouterSwapType ∧
    T.SwapoutType ≠ T.RouterSwapType

/-- The heights held by package `tokens` are `uint64` values. -/
def TokensEnv.heightsInRange (T : TokensEnv) : Prop :=
  T.DstLatestBlockHeight < u64 ∧ T.SrcLatestBlockHeight < u64 ∧
    ∀ chainID, (T.GetLatestBlockNumberByChainID chainID).1 < u64

/-- A sample environment and record used to exercise the projection. -/
def sampleTokensEnv : TokensEnv :=
  { SwapinType := 1
    SwapoutType := 2
    RouterSwapType := 3
    DstLatestBlockHeight := 120
    SrcLatestBlockHeight := 80
    GetLatestBlockNumberByChainID := fun id => if id = "56" then (500, none) else (0, some "no bridge")
    StatusString := fun s => if s = 0 then "TxNotStable" else "Unknown" }

/-- A sample resulted record: a swap-in executed at height 100. -/
def sampleSwapResult : MgoSwapResult :=
  { PairID := "btc", TxID := "0xaa", TxTo := "0xbb", TxHeight := 10, TxTime := 11
    From := "f", To := "t", Bind := "0xcc", Value := "1000"
    ForNative := false, ForUnderlying := false, Token := "", Path := []
    AmountOutMin := "", FromChainID := "1", ToChainID := "56", LogIndex := 0
    SwapTx := "0xdd", SwapHeight := 100, SwapTime := 12, SwapValue := "990"
    SwapType := 1, SwapNonce := 7, Status := 0, Timestamp := 13, Memo := "" }

/-! ## Authority set (`params/config.go`) -/

/-- Go's `strings.EqualFold`: the two strings are compared rune by rune, two
runes being equal when they lie in the same orbit of Unicode simple case
folding. `fold` sends a rune to the representative of its orbit. -/
def EqualFold (fold : Char → Char) (s t : String) : Bool :=
  s.toList.map fold == t.toList.map fold

/-- The function `HasAdmin`: `len(serverConfig.Admins) != 0`. -/
def HasAdmin (Admins : List String) : Bool :=
  Admins.length != 0

/-- The function `IsAdmin`: the `range` loop over `serverConfig.Admins`. -/
def IsAdmin (fold : Char → Char) : List String → String → Bool
  | [], _ => false
  | admin :: rest, account =>
    if EqualFold fold account admin then true else IsAdmin fold rest account

/-- Upper-casing of the ASCII letters of a string. -/
def upperCased (s : String) : String := String.mk (s.toList.map Char.toUpper)

/-- Lower-casing of the ASCII letters of a string. -/
def lowerCased (s : String) : String := String.mk (s.toList.map Char.toLower)

/-- A fold that identifies exactly the two cases of each ASCII letter. -/
def asciiFold (c : Char) : Char := c.toLower

/-! ## Admin command channel (`rpc/rpcapi/adminapi.go`) -/

/-- The decoded payload `admin.CallArgs`. -/
structure CallArgs where
  Method : String
  Params : List String
  deriving DecidableEq, Repr

/-- The fields of `tokens.TokenConfig` that the sources read or write. -/
structure TokenConfig where
  ContractAddress : String
  IsDelegateContract : Bool
  DelegateToken : String
  DisableSwap : Bool
  deriving DecidableEq, Repr

/-- The record `tokens.TokenPairConfig`: a pair id and its two token configurations. -/
structure TokenPairConfig where
  PairID : String
  SrcToken : TokenConfig
  DestToken : TokenConfig
  deriving DecidableEq, Repr

/-- The table of configured token pairs, keyed by pair id. -/
abbrev PairTable := List (String × TokenPairConfig)

/-- Modelled from the spec: `tokens.GetTokenPairConfig` is not among the
sources; it is the per-pair token configuration lookup, `none` standing for
the `nil` returned for an unknown pair id. -/
def GetTokenPairConfig : PairTable → String → Option TokenPairConfig
  | [], _ => none
  | (k, cfg) :: rest, pairID => if k = pairID then some cfg else GetTokenPairConfig rest pairID

/-- Modelled from the spec: `tokens.GetAllPairIDs` is not among the sources;
it lists the ids of every configured pair. -/
def GetAllPairIDs (tbl : PairTable) : List String :=
  tbl.map Prod.fst

/-- A write through the pointer returned by `GetTokenPairConfig`: the entry
that the lookup of `pairID` finds is replaced. -/
def storeTokenPairConfig : PairTable → String → TokenPairConfig → PairTable
  | [], _, _ => []
  | (k, cfg) :: rest, pairID, new =>
    if k = pairID then (k, new) :: rest else (k, cfg) :: storeTokenPairConfig rest pairID new

/-- The two bridges held by package `tokens`. -/
inductive BridgeSide where
  | Src
  | Dst
  deriving DecidableEq, Repr

/-- A bridge: whether its dynamic type implements `tokens.NonceSetter`, and
its internal state. -/
structure Bridge (β : Type) where
  isNonceSetter : Bool
  state : β

/-- The calls that leave `adminapi.go`, in the order they are made. -/
inductive Call where
  | DecodeTransaction (rawTx : String)
  | VerifyTransaction
  | AddToBlacklist (address pairID : String)
  | RemoveFromBlacklist (address pairID : String)
  | QueryBlacklist (address pairID : String)
  | PassSwapinBigValue (txid pairID bind : String)
  | PassSwapoutBigValue (txid pairID bind : String)
  | ReverifySwapin (txid pairID bind : String)
  | ReverifySwapout (txid pairID bind : String)
  | Reswapin (txid pairID bind forceOpt : String)
  | Reswapout (txid pairID bind forceOpt : String)
  | ReplaceSwapin (txid pairID bind gasPrice : String)
  | ReplaceSwapout (txid pairID bind gasPrice : String)
  | ManualManageSwap (txid pairID bind memo : String) (isSwapin isPass : Bool)
  | SetNonce (side : BridgeSide) (pairID : String) (nonce : Nat)
  | AddPairConfig (configFile : String)
  | AddSwapJob (pairConfig : TokenPairConfig)
  deriving DecidableEq, Repr

/-- Everything an admin call can read or write: the configured admins, the
pair table, the two bridges, the state `ext` of the mongodb store and of the
worker, the string behind the `result` pointer, and the record of the calls
made so far. -/
structure World (σ β : Type) where
  Admins : List String
  tokenPairsConfig : PairTable
  SrcBridge : Bridge β
  DstBridge : Bridge β
  ext : σ
  result : String
  trace : List Call

/-- The collaborators of `adminapi.go` that are outside the sources, each
with an arbitrary behaviour: the transaction codec of package `admin` (the
sender is given by its `String()` rendering), `common.GetUint64FromStr`, the
operations of packages `mongodb` and `worker` on the state `σ`,
`NonceSetter.SetNonce` on a bridge state, and `tokens.AddPairConfig`. -/
structure External (σ β τ : Type) where
  simpleFold : Char → Char
  DecodeTransaction : String → Except Error τ
  VerifyTransaction : τ → Except Error (String × CallArgs)
  GetUint64FromStr : String → Except Error Nat
  AddToBlacklist : String → String → σ → Option Error × σ
  RemoveFromBlacklist : String → String → σ → Option Error × σ
  QueryBlacklist : String → String → σ → (Bool × Option Error) × σ
  PassSwapinBigValue : String → String → String → σ → Option Error × σ
  PassSwapoutBigValue : String → String → String → σ → Option Error × σ
  ReverifySwapin : String → String → String → σ → Option Error × σ
  ReverifySwapout : String → String → String → σ → Option Error × σ
  Reswapin : String → String → String → String → σ → Option Error × σ
  Reswapout : String → String → String → String → σ → Option Error × σ
  ReplaceSwapin : String → String → String → String → σ → Option Error × σ
  ReplaceSwapout : String → String → String → String → σ → Option Error × σ
  ManualManageSwap : String → String → String → String → Bool → Bool → σ → Option Error × σ
  SetNonce : String → Nat → β → β
  AddPairConfig : String → PairTable → σ → Except Error TokenPairConfig × PairTable × σ
  AddSwapJob : TokenPairConfig → σ → σ

variable {σ β τ : Type}

/-- The command names of the `const` block. -/
def blacklistCmd : String := "blacklist"
def bigvalueCmd : String := "bigvalue"
def passbigvalueCmd : String := "passbigvalue"
def maintainCmd : String := "maintain"
def reverifyCmd : String := "reverify"
def reswapCmd : String := "reswap"
def replaceswapCmd : String := "replaceswap"
def manualCmd : String := "manual"
def setnonceCmd : String := "setnonce"
def addpairCmd : String := "addpair"

/-- The result and operation tokens of the `const` block. -/
def successReuslt : String := "Success"
def swapinOp : String := "swapin"
def swapoutOp : String := "swapout"
def passSwapinOp : String := "passswapin"
def passSwapoutOp : String := "passswapout"
def failSwapinOp : String := "failswapin"
def failSwapoutOp : String := "failswapout"
def forceFlag : String := "--force"

/-- The error `fmt.Errorf("wrong number of params, have %v want <want>", n)`. -/
def wrongNumberOfParams (n : Nat) (want : String) : Error :=
  "wrong number of params, have " ++ toString n ++ " want " ++ want

/-- The error `fmt.Errorf("unknown operation '%v'", operation)`. -/
def unknownOperation (operation : String) : Error :=
  "unknown operation '" ++ operation ++ "'"

/-- The error `fmt.Errorf("unknown direction '%v'", direction)`. -/
def unknownDirection (direction : String) : Error :=
  "unknown direction '" ++ direction ++ "'"

/-- The error `fmt.Errorf("unknown admin method '%v'", args.Method)`. -/
def unknownAdminMethod (method : String) : Error :=
  "unknown admin method '" ++ method ++ "'"

/-- The error `fmt.Errorf("wrong force flag %v, must be %v", forceOpt, forceFlag)`. -/
def wrongForceFlag (forceOpt : String) : Error :=
  "wrong force flag " ++ forceOpt ++ ", must be " ++ forceFlag

/-- The element `args.Params[i]`, read after the length check. -/
def CallArgs.param (args : CallArgs) (i : Nat) : String :=
  args.Params.getD i ""

/-- Appends a call to the record of calls. -/
def World.log (w : World σ β) (c : Call) : World σ β :=
  { w with trace := w.trace ++ [c] }

/-- A call of an operation of package `mongodb` or `worker` that returns an `error`. -/
def World.callExt (w : World σ β) (c : Call) (op : σ → Option Error × σ) :
    Option Error × World σ β :=
  ((op w.ext).1, { w with ext := (op w.ext).2, trace := w.trace ++ [c] })

/-- The tail shared by the mutating handlers: `if err != nil { return err }`,
then `*result = successReuslt; return nil`. -/
def succeedOrFail (r : Option Error × World σ β) : Option Error × World σ β :=
  match r.1 with
  | some err => (some err, r.2)
  | none => (none, { r.2 with result := successReuslt })

/-- The tail of `blacklist`: the error of the store is returned first; a
query writes one of the two status lines, the other operations `Success`. -/
def blacklistFinish (err : Option Error) (isQuery isBlacked : Bool) (w : World σ β) :
    Option Error × World σ β :=
  match err with
  | some e => (some e, w)
  | none =>
    if isQuery then
      if isBlacked then (none, { w with result := "is in blacklist" })
      else (none, { w with result := "is not in blacklist" })
    else (none, { w with result := successReuslt })

/-- The handler `blacklist`. -/
def blacklist (E : External σ β τ) (args : CallArgs) (w : World σ β) :
    Option Error × World σ β :=
  if args.Params.length ≠ 3 then
    (some (wrongNumberOfParams args.Params.length "3"), w)
  else
    let operation := args.param 0
    let address := args.param 1
    let pairID := args.param 2
    if operation = "add" then
      let r := w.callExt (Call.AddToBlacklist address pairID) (E.AddToBlacklist address pairID)
      blacklistFinish r.1 false false r.2
    else if operation = "remove" then
      let r := w.callExt (Call.RemoveFromBlacklist address pairID)
        (E.RemoveFromBlacklist address pairID)
      blacklistFinish r.1 false false r.2
    else if operation = "query" then
      let q := E.QueryBlacklist address pairID w.ext
      blacklistFinish q.1.2 true q.1.1
        { w with ext := q.2, trace := w.trace ++ [Call.QueryBlacklist address pairID] }
    else (some (unknownOperation operation), w)

/-- The handler `bigvalue`. -/
def bigvalue (E : External σ β τ) (args : CallArgs) (w : World σ β) :
    Option Error × World σ β :=
  if args.Params.length ≠ 4 then
    (some (wrongNumberOfParams args.Params.length "4"), w)
  else
    let operation := args.param 0
    let txid := args.param 1
    let pairID := args.param 2
    let bind := args.param 3
    if operation = passSwapinOp then
      succeedOrFail (w.callExt (Call.PassSwapinBigValue txid pairID bind)
        (E.PassSwapinBigValue txid pairID bind))
    else if operation = passSwapoutOp then
      succeedOrFail (w.callExt (Call.PassSwapoutBigValue txid pairID bind)
        (E.PassSwapoutBigValue txid pairID bind))
    else (some (unknownOperation operation), w)

/-- Go's `strings.Split(s, ",")` on the runes of `s`: the pieces between
the commas, a single empty piece for the empty string. -/
def splitComma : List Char → List (List Char)
  | [] => [[]]
  | c :: cs =>
    if c = ',' then [] :: splitComma cs
    else
      match splitComma cs with
      | [] => [[c]]
      | piece :: pieces => (c :: piece) :: pieces

/-- The call `strings.Split(pairIDs, ",")`. -/
def Split (pairIDs : String) : List String :=
  (splitComma pairIDs.toList).map String.mk

/-- The two assignments in the loop body of `maintain`. -/
def setDisableSwap (newDisableFlag isDeposit isWithdraw : Bool) (pairCfg : TokenPairConfig) :
    TokenPairConfig :=
  let c1 := if isDeposit then
      { pairCfg with SrcToken := { pairCfg.SrcToken with DisableSwap := newDisableFlag } }
    else pairCfg
  if isWithdraw then
    { c1 with DestToken := { c1.DestToken with DisableSwap := newDisableFlag } }
  else c1

/-- The `range` loop of `maintain` over `pairIDSlice`; the state threaded
through it is the pair table and the two strings `successPairs`, `failedPairs`. -/
def maintainLoop (newDisableFlag isDeposit isWithdraw : Bool) :
    List String → PairTable → String → String → PairTable × String × String
  | [], tbl, successPairs, failedPairs => (tbl, successPairs, failedPairs)
  | pairID :: rest, tbl, successPairs, failedPairs =>
    match GetTokenPairConfig tbl pairID with
    | none =>
      maintainLoop newDisableFlag isDeposit isWithdraw rest tbl successPairs
        (failedPairs ++ (" " ++ pairID))
    | some pairCfg =>
      maintainLoop newDisableFlag isDeposit isWithdraw rest
        (storeTokenPairConfig tbl pairID
          (setDisableSwap newDisableFlag isDeposit isWithdraw pairCfg))
        (successPairs ++ (" " ++ pairID)) failedPairs

/-- The slice `pairIDSlice` of `maintain`: every configured pair when
`pairIDs` equals `all` in any letter case, the comma separated pieces otherwise. -/
def pairIDSlice (E : External σ β τ) (pairIDs : String) (w : World σ β) : List String :=
  if EqualFold E.simpleFold pairIDs "all" then GetAllPairIDs w.tokenPairsConfig
  else Split pairIDs

/-- The part of `maintain` after the two `switch` statements. -/
def maintainRun (E : External σ β τ) (newDisableFlag isDeposit isWithdraw : Bool)
    (pairIDs : String) (w : World σ β) : Option Error × World σ β :=
  let r := maintainLoop newDisableFlag isDeposit isWithdraw (pairIDSlice E pairIDs w)
    w.tokenPairsConfig "" ""
  let resultStr := "success: " ++ r.2.1
  let resultStr := if r.2.2 ≠ "" then resultStr ++ (", failed: " ++ r.2.2) else resultStr
  (none, { w with tokenPairsConfig := r.1, result := resultStr })

/-- The second `switch` of `maintain`, on the direction. -/
def maintainDirection (E : External σ β τ) (newDisableFlag : Bool) (direction pairIDs : String)
    (w : World σ β) : Option Error × World σ β :=
  if direction = "deposit" then maintainRun E newDisableFlag true false pairIDs w
  else if direction = "withdraw" then maintainRun E newDisableFlag false true pairIDs w
  else if direction = "both" then maintainRun E newDisableFlag true true pairIDs w
  else (some (unknownDirection direction), w)

/-- The handler `maintain`. -/
def maintain (E : External σ β τ) (args : CallArgs) (w : World σ β) :
    Option Error × World σ β :=
  if args.Params.length ≠ 3 then
    (some (wrongNumberOfParams args.Params.length "3"), w)
  else
    let operation := args.param 0
    let direction := args.param 1
    let pairIDs := args.param 2
    if operation = "open" then maintainDirection E false direction pairIDs w
    else if operation = "close" then maintainDirection E true direction pairIDs w
    else (some (unknownOperation operation), w)

/-- The values returned by `getOpTxAndPairID` when its error is `nil`. -/
structure OpTx where
  operation : String
  txid : String
  pairID : String
  bind : String
  forceOpt : String
  deriving DecidableEq, Repr

/-- The function `getOpTxAndPairID`. -/
def getOpTxAndPairID (args : CallArgs) : Except Error OpTx :=
  if ¬ (args.Params.length = 4 ∨ args.Params.length = 5) then
    Except.error (wrongNumberOfParams args.Params.length "4 or 5")
  else
    let operation := args.param 0
    let txid := args.param 1
    let pairID := args.param 2
    let bind := args.param 3
    if args.Params.length > 4 then
      let forceOpt := args.param 4
      if forceOpt ≠ forceFlag then Except.error (wrongForceFlag forceOpt)
      else Except.ok ⟨operation, txid, pairID, bind, forceOpt⟩
    else Except.ok ⟨operation, txid, pairID, bind, ""⟩

/-- The handler `reverify`. -/
def reverify (E : External σ β τ) (args : CallArgs) (w : World σ β) :
    Option Error × World σ β :=
  match getOpTxAndPairID args with
  | Except.error err => (some err, w)
  | Except.ok a =>
    if a.operation = swapinOp then
      succeedOrFail (w.callExt (Call.ReverifySwapin a.txid a.pairID a.bind)
        (E.ReverifySwapin a.txid a.pairID a.bind))
    else if a.operation = swapoutOp then
      succeedOrFail (w.callExt (Call.ReverifySwapout a.txid a.pairID a.bind)
        (E.ReverifySwapout a.txid a.pairID a.bind))
    else (some (unknownOperation a.operation), w)

/-- The handler `reswap`. -/
def reswap (E : External σ β τ) (args : CallArgs) (w : World σ β) :
    Option Error × World σ β :=
  match getOpTxAndPairID args with
  | Except.error err => (some err, w)
  | Except.ok a =>
    if a.operation = swapinOp then
      succeedOrFail (w.callExt (Call.Reswapin a.txid a.pairID a.bind a.forceOpt)
        (E.Reswapin a.txid a.pairID a.bind a.forceOpt))
    else if a.operation = swapoutOp then
      succeedOrFail (w.callExt (Call.Reswapout a.txid a.pairID a.bind a.forceOpt)
        (E.Reswapout a.txid a.pairID a.bind a.forceOpt))
    else (some (unknownOperation a.operation), w)

/-- The handler `replaceswap`. -/
def replaceswap (E : External σ β τ) (args : CallArgs) (w : World σ β) :
    Option Error × World σ β :=
  if args.Params.length ≠ 5 then
    (some (wrongNumberOfParams args.Params.length "5"), w)
  else
    let operation := args.param 0
    let txid := args.param 1
    let pairID := args.param 2
    let bind := args.param 3
    let gasPrice := args.param 4
    if operation = swapinOp then
      succeedOrFail (w.callExt (Call.ReplaceSwapin txid pairID bind gasPrice)
        (E.ReplaceSwapin txid pairID bind gasPrice))
    else if operation = swapoutOp then
      succeedOrFail (w.callExt (Call.ReplaceSwapout txid pairID bind gasPrice)
        (E.ReplaceSwapout txid pairID bind gasPrice))
    else (some (unknownOperation operation), w)

/-- The call of `mongodb.ManualManageSwap` and the tail of `manual`. -/
def manualManage (E : External σ β τ) (txid pairID bind memo : String) (isSwapin isPass : Bool)
    (w : World σ β) : Option Error × World σ β :=
  succeedOrFail (w.callExt (Call.ManualManageSwap txid pairID bind memo isSwapin isPass)
    (E.ManualManageSwap txid pairID bind memo isSwapin isPass))

/-- The handler `manual`. -/
def manual (E : External σ β τ) (args : CallArgs) (w : World σ β) :
    Option Error × World σ β :=
  if ¬ (args.Params.length = 4 ∨ args.Params.length = 5) then
    (some (wrongNumberOfParams args.Params.length "4 or 5"), w)
  else
    let operation := args.param 0
    let txid := args.param 1
    let pairID := args.param 2
    let bind := args.param 3
    let memo := if args.Params.length > 4 then args.param 4 else ""
    if operation = passSwapinOp then manualManage E txid pairID bind memo true true w
    else if operation = failSwapinOp then manualManage E txid pairID bind memo true false w
    else if operation = passSwapoutOp then manualManage E txid pairID bind memo false true w
    else if operation = failSwapoutOp then manualManage E txid pairID bind memo false false w
    else (some (unknownOperation operation), w)

/-- The bridge held by package `tokens` for a side. -/
def World.bridge (w : World σ β) : BridgeSide → Bridge β
  | BridgeSide.Src => w.SrcBridge
  | BridgeSide.Dst => w.DstBridge

/-- The call `nonceSetter.SetNonce(pairID, nonce)` on the bridge of a side. -/
def World.setNonceOn (E : External σ β τ) (w : World σ β) (side : BridgeSide)
    (pairID : String) (nonce : Nat) : World σ β :=
  match side with
  | BridgeSide.Src =>
    { w with SrcBridge := { w.SrcBridge with state := E.SetNonce pairID nonce w.SrcBridge.state },
             trace := w.trace ++ [Call.SetNonce BridgeSide.Src pairID nonce] }
  | BridgeSide.Dst =>
    { w with DstBridge := { w.DstBridge with state := E.SetNonce pairID nonce w.DstBridge.state },
             trace := w.trace ++ [Call.SetNonce BridgeSide.Dst pairID nonce] }

/-- The part of `setnonce` after the bridge is selected: the type assertion
`bridge.(tokens.NonceSetter)`, the call of `SetNonce`, and the result. -/
def setnonceOn (E : External σ β τ) (side : BridgeSide) (pairID : String) (nonce : Nat)
    (w : World σ β) : Option Error × World σ β :=
  if ¬ (w.bridge side).isNonceSetter then (some "nonce setter not supported", w)
  else (none, { w.setNonceOn E side pairID nonce with result := successReuslt })

/-- The handler `setnonce`. -/
def setnonce (E : External σ β τ) (args : CallArgs) (w : World σ β) :
    Option Error × World σ β :=
  if args.Params.length ≠ 3 then
    (some (wrongNumberOfParams args.Params.length "3"), w)
  else
    let operation := args.param 0
    match E.GetUint64FromStr (args.param 1) with
    | Except.error err => (some ("wrong nonce value, " ++ err), w)
    | Except.ok nonce =>
      let pairID := args.param 2
      if operation = swapinOp then setnonceOn E BridgeSide.Dst pairID nonce w
      else if operation = swapoutOp then setnonceOn E BridgeSide.Src pairID nonce w
      else (some (unknownOperation operation), w)

/-- The handler `addpair`. -/
def addpair (E : External σ β τ) (args : CallArgs) (w : World σ β) :
    Option Error × World σ β :=
  if args.Params.length ≠ 1 then
    (some (wrongNumberOfParams args.Params.length "1"), w)
  else
    let configFile := args.param 0
    let r := E.AddPairConfig configFile w.tokenPairsConfig w.ext
    let w1 : World σ β :=
      { w with tokenPairsConfig := r.2.1, ext := r.2.2,
               trace := w.trace ++ [Call.AddPairConfig configFile] }
    match r.1 with
    | Except.error err => (some err, w1)
    | Except.ok pairConfig =>
      (none, { w1 with ext := E.AddSwapJob pairConfig w1.ext,
                       trace := w1.trace ++ [Call.AddSwapJob pairConfig],
                       result := successReuslt })

/-- The function `doCall`. -/
def doCall (E : External σ β τ) (args : CallArgs) (w : World σ β) :
    Option Error × World σ β :=
  if args.Method = blacklistCmd then blacklist E args w
  else if args.Method = bigvalueCmd then bigvalue E args w
  else if args.Method = maintainCmd then maintain E args w
  else if args.Method = reverifyCmd then reverify E args w
  else if args.Method = reswapCmd then reswap E args w
  else if args.Method = replaceswapCmd then replaceswap E args w
  else if args.Method = manualCmd then manual E args w
  else if args.Method = setnonceCmd then setnonce E args w
  else if args.Method = addpairCmd then addpair E args w
  else (some (unknownAdminMethod args.Method), w)

/-- The method `AdminCall`. -/
def AdminCall (E : External σ β τ) (rawTx : String) (w : World σ β) :
    Option Error × World σ β :=
  if ¬ HasAdmin w.Admins then (some "no admin is configed", w)
  else
    let w1 := w.log (Call.DecodeTransaction rawTx)
    match E.DecodeTransaction rawTx with
    | Except.error err => (some err, w1)
    | Except.ok tx =>
      let w2 := w1.log Call.VerifyTransaction
      match E.VerifyTransaction tx with
      | Except.error err => (some err, w2)
      | Except.ok (sender, args) =>
        if ¬ IsAdmin E.simpleFold w2.Admins sender then
          (some ("sender " ++ sender ++ " is not admin"), w2)
        else doCall E args w2

/-- The ids of a list in order, each preceded by a space: the shape of
`successPairs` and `failedPairs` in the result of `maintain`. -/
def spacedIDs : List String → String
  | [] => ""
  | pairID :: rest => (" " ++ pairID) ++ spacedIDs rest

/-- Go's `strings.Join(pieces, ",")` on rune lists, used to state what
`strings.Split` returns. -/
def joinComma : List (List Char) → List Char
  | [] => []
  | [piece] => piece
  | piece :: next :: rest => piece ++ ',' :: joinComma (next :: rest)

/-- The listed ids that `GetTokenPairConfig` finds in a table, in input order. -/
def knownIDs (tbl : PairTable) (ids : List String) : List String :=
  ids.filter (fun pairID => (GetTokenPairConfig tbl pairID).isSome)

/-- The listed ids that `GetTokenPairConfig` does not find in a table, in input order. -/
def unknownIDs (tbl : PairTable) (ids : List String) : List String :=
  ids.filter (fun pairID => (GetTokenPairConfig tbl pairID).isNone)

/-! ## Sample collaborators and states -/

/-- A sample store: the blacklist as a list of `(address, pairID)` keys. -/
abbrev SampleStore := List (String × String)

/-- A sample bridge state: the nonces set so far. -/
abbrev SampleBridge := List (String × Nat)

/-- Sample collaborators: the codec recovers a given sender and call, the
blacklist is a list of keys, every other store operation succeeds, and no
pair configuration file can be loaded. -/
def sampleExternal (sender : String) (args : CallArgs) :
    External SampleStore SampleBridge String :=
  { simpleFold := asciiFold
    DecodeTransaction := fun raw => if raw = "" then Except.error "empty" else Except.ok raw
    VerifyTransaction := fun tx =>
      if tx = "unsigned" then Except.error "bad signature" else Except.ok (sender, args)
    GetUint64FromStr := fun str =>
      if str = "42" then Except.ok 42 else Except.error ("invalid uint64: " ++ str)
    AddToBlacklist := fun a p st => (none, (a, p) :: st)
    RemoveFromBlacklist := fun a p st => (none, st.filter (fun k => k ≠ (a, p)))
    QueryBlacklist := fun a p st => ((st.contains (a, p), none), st)
    PassSwapinBigValue := fun _ _ _ st => (none, st)
    PassSwapoutBigValue := fun _ _ _ st => (none, st)
    ReverifySwapin := fun _ _ _ st => (none, st)
    ReverifySwapout := fun _ _ _ st => (none, st)
    Reswapin := fun _ _ _ _ st => (none, st)
    Reswapout := fun _ _ _ _ st => (none, st)
    ReplaceSwapin := fun _ _ _ _ st => (none, st)
    ReplaceSwapout := fun _ _ _ _ st => (none, st)
    ManualManageSwap := fun _ _ _ _ _ _ st => (none, st)
    SetNonce := fun pairID nonce b => (pairID, nonce) :: b
    AddPairConfig := fun _ tbl st => (Except.error "no such file", tbl, st)
    AddSwapJob := fun _ st => st }

/-- A sample token configuration. -/
def sampleToken (contract : String) (disable : Bool) : TokenConfig :=
  { ContractAddress := contract, IsDelegateContract := false, DelegateToken := "",
    DisableSwap := disable }

/-- A sample pair table with two pairs. -/
def samplePairs : PairTable :=
  [("btc", { PairID := "btc", SrcToken := sampleToken "" false,
             DestToken := sampleToken "0xb1" true }),
   ("ltc", { PairID := "ltc", SrcToken := sampleToken "" true,
             DestToken := sampleToken "0xb2" false })]

/-- A sample world: the given admins, two pairs, a destination bridge that
can set nonces and a source bridge that cannot. -/
def sampleWorld (Admins : List String) : World SampleStore SampleBridge :=
  { Admins := Admins
    tokenPairsConfig := samplePairs
    SrcBridge := { isNonceSetter := false, state := [] }
    DstBridge := { isNonceSetter := true, state := [] }
    ext := []
    result := ""
    trace := [] }

/-- The result contract of a handler that only reports `Success`: without
an error the result string is `Success`, with an error it is the one the
handler was given. -/
def successOrUnchanged (w : World σ β) (r : Option Error × World σ β) : Prop :=
  (r.1 = none → r.2.result = "Success") ∧ (r.1 ≠ none → r.2.result = w.result)

/-! ## The blacklist store -/

/-- The command `blacklist <op> <address> <pairID>` sent through `doCall`. -/
def runBlacklist (E : External σ β τ) (op address pairID : String) (w : World σ β) :
    Option Error × World σ β :=
  doCall E ⟨blacklistCmd, [op, address, pairID]⟩ w

/-- Modelled from the spec: package `mongodb` is not among the sources; the
blacklist store is a set of `(address, pairID)` keys, here the list of the
keys it holds. -/
abbrev BlacklistStore := List (String × String)

/-- Modelled from the spec: `mongodb.AddToBlacklist` is not among the
sources; it adds the key `(address, pairID)` to the set and returns no error. -/
def AddToBlacklist (address pairID : String) (st : BlacklistStore) :
    Option Error × BlacklistStore :=
  (none, (address, pairID) :: st)

/-- Modelled from the spec: `mongodb.RemoveFromBlacklist` is not among the
sources; it removes the key `(address, pairID)` from the set and returns no error. -/
def RemoveFromBlacklist (address pairID : String) (st : BlacklistStore) :
    Option Error × BlacklistStore :=
  (none, st.filter (fun k => k ≠ (address, pairID)))

/-- Modelled from the spec: `mongodb.QueryBlacklist` is not among the
sources; it answers whether the key `(address, pairID)` is in the set, leaves
the set as it is and returns no error. -/
def QueryBlacklist (address pairID : String) (st : BlacklistStore) :
    (Bool × Option Error) × BlacklistStore :=
  ((decide ((address, pairID) ∈ st), none), st)

/-- The collaborators whose blacklist operations are those of the set model. -/
def External.hasSetBlacklist (E : External BlacklistStore β τ) : Prop :=
  E.AddToBlacklist = CrossChain.AddToBlacklist ∧
    E.RemoveFromBlacklist = CrossChain.RemoveFromBlacklist ∧
    E.QueryBlacklist = CrossChain.QueryBlacklist

/-! ## Swap-in transaction input (`tokens/eth/buildswapintx.go`) -/

/-- The fields of `tokens.BuildTxArgs` that `buildSwapinTxInput` reads or
writes; `Input` is the pointer `*[]byte`, `none` when it is `nil`. -/
structure BuildTxArgs where
  PairID : String
  SwapID : String
  Bind : String
  OriginValue : Int
  Input : Option (List Nat)
  To : String
  deriving DecidableEq, Repr

/-- The errors that `buildSwapinTxInput` returns: the two error values of
package `tokens`, the error made by `errors.New("can not swapin to empty or
invalid address")`, and an error returned by `checkBalance`. -/
inductive BuildError where
  | ErrBuildSwapTxInWrongEndpoint
  | ErrUnknownPairID
  | emptyOrInvalidAddress
  | balance (err : Error)
  deriving DecidableEq, Repr

/-- The calls that `buildSwapinTxInput` makes besides pure conversions. -/
inductive EthCall where
  | logWarn (msg address : String)
  | CalcSwappedValue (pairID : String) (value : Int) (isSwapin : Bool)
  | checkBalance (token account : String) (amount : Int)
  deriving DecidableEq, Repr

/-- The bridge `b` and the functions outside `buildswapintx.go` that the
builder uses: the per-pair token configuration lookup of the bridge
(`none` for `nil`), the function selector, the conversions of package
`common` (hashes and addresses are byte lists), `tokens.CalcSwappedValue`,
the packing of the call data, and the balance check of the bridge. -/
structure EthBridge where
  IsSrc : Bool
  GetTokenConfig : String → Option TokenConfig
  getSwapinFuncHash : List Nat
  HexToHash : String → List Nat
  HexToAddress : String → List Nat
  IsHexAddress : String → Bool
  CalcSwappedValue : String → Int → Bool → Int
  PackDataWithFuncHash : List Nat → List Nat → List Nat → Int → List Nat
  checkBalance : String → String → Int → Option Error

/-- The zero value `common.Address{}`: twenty zero bytes. -/
def zeroAddress : List Nat := List.replicate 20 0

/-- The method `buildSwapinTxInput`; the state threaded through it is the
record `args` and the list of calls made so far. -/
def buildSwapinTxInput (b : EthBridge) (args : BuildTxArgs) (calls : List EthCall) :
    Option BuildError × BuildTxArgs × List EthCall :=
  if b.IsSrc then (some BuildError.ErrBuildSwapTxInWrongEndpoint, args, calls)
  else
    let pairID := args.PairID
    match b.GetTokenConfig pairID with
    | none => (some BuildError.ErrUnknownPairID, args, calls)
    | some token =>
      let funcHash := b.getSwapinFuncHash
      let txHash := b.HexToHash args.SwapID
      let address := b.HexToAddress args.Bind
      if address = zeroAddress ∨ ¬ b.IsHexAddress args.Bind then
        (some BuildError.emptyOrInvalidAddress, args,
          calls ++ [EthCall.logWarn "swapin to wrong address" args.Bind])
      else
        let amount := b.CalcSwappedValue pairID args.OriginValue true
        let calls1 := calls ++ [EthCall.CalcSwappedValue pairID args.OriginValue true]
        let input := b.PackDataWithFuncHash funcHash txHash address amount
        let args1 := { args with Input := some input, To := token.ContractAddress }
        if ¬ token.IsDelegateContract then (none, args1, calls1)
        else
          ((b.checkBalance token.DelegateToken token.ContractAddress amount).map
              BuildError.balance,
            args1,
            calls1 ++ [EthCall.checkBalance token.DelegateToken token.ContractAddress amount])

/-- A sample destination bridge with one plain token `btc` and one delegate
token `usdt` whose delegate lacks balance; an address is valid when it has
42 characters, and every valid address other than `0x00…00` decodes to
twenty bytes `1`. -/
def sampleEthBridge (isSrc : Bool) : EthBridge :=
  { IsSrc := isSrc
    GetTokenConfig := fun pairID =>
      if pairID = "btc" then
        some { ContractAddress := "0xb1", IsDelegateContract := false, DelegateToken := "",
               DisableSwap := false }
      else if pairID = "usdt" then
        some { ContractAddress := "0xb2", IsDelegateContract := true, DelegateToken := "0xd2",
               DisableSwap := false }
      else none
    getSwapinFuncHash := [0xec, 0x12, 0x6c, 0x77]
    HexToHash := fun str => [str.length]
    HexToAddress := fun str =>
      if str = "0x0000000000000000000000000000000000000000" then zeroAddress
      else if str.length = 42 then List.replicate 20 1 else zeroAddress
    IsHexAddress := fun str => str.length = 42
    CalcSwappedValue := fun _ value _ => value - 1
    PackDataWithFuncHash := fun funcHash txHash address amount =>
      funcHash ++ txHash ++ address ++ [amount.toNat]
    checkBalance := fun _ _ _ => some "not enough balance" }

/-- A sample build request for pair `btc`. -/
def sampleBuildTxArgs (pairID bind : String) : BuildTxArgs :=
  { PairID := pairID, SwapID := "0xaa", Bind := bind, OriginValue := 1000, Input := none,
    To := "" }

/-! ## Address conversion (`tokens/colx/colxAddressToBtc.go`) -/

/-- The bytes of a Go string: the UTF-8 encoding of its characters. -/
def utf8Bytes (s : String) : List Nat :=
  (s.toList.flatMap String.utf8EncodeChar).map UInt8.toNat

/-- The fields of `chaincfg.Params` that the conversion reads. -/
structure ChainParams where
  Name : String
  PubKeyHashAddrID : Nat
  ScriptHashAddrID : Nat
  deriving DecidableEq, Repr

/-- The library value `chaincfg.MainNetParams`. -/
def MainNetParams : ChainParams :=
  { Name := "mainnet", PubKeyHashAddrID := 0x00, ScriptHashAddrID := 0x05 }

/-- The library value `chaincfg.TestNet3Params`. -/
def TestNet3Params : ChainParams :=
  { Name := "testnet3", PubKeyHashAddrID := 0x6f, ScriptHashAddrID := 0xc4 }

/-- The three kinds of `btcutil.Address` that the conversion returns, each
with the network id that its constructor takes from the parameters. -/
inductive Address where
  | PubKey (serializedPubKey : List Nat) (pubKeyHashID : Nat)
  | PubKeyHash (hash : List Nat) (netID : Nat)
  | ScriptHash (hash : List Nat) (netID : Nat)
  deriving DecidableEq, Repr

/-- The errors of `base58.CheckDecode`. -/
inductive Base58Error where
  | ErrChecksum
  | ErrInvalidFormat
  deriving DecidableEq, Repr

/-- The errors of `hex.DecodeString`. -/
inductive HexError where
  | InvalidByteError (b : Nat)
  | ErrLength
  deriving DecidableEq, Repr

/-- The errors that `ConvertCOLXAddress` returns: the error of the hex
decoder, an error of an address constructor of `btcutil`, the three error
values of `btcutil`, and the two errors made by `errors.New` (`decoded
address is of unknown format`, `decoded address is of unknown size`). -/
inductive ConvertError where
  | hexDecode (errf : HexError)
  | newAddress (err : Error)
  | ErrChecksumMismatch
  | unknownFormat
  | ErrAddressCollision
  | ErrUnknownAddressType
  | unknownSize
  deriving DecidableEq, Repr

/-- The library functions that `ConvertCOLXAddress` calls and that are
taken with an arbitrary behaviour: `hex.DecodeString`, `base58.CheckDecode`
(the payload and the version byte; `none` when the call panics instead of
returning) and `btcutil.NewAddressPubKey`. -/
structure ColxLibs where
  DecodeString : String → Except HexError (List Nat)
  CheckDecode : String → Option (Except Base58Error (List Nat × Nat))
  NewAddressPubKey : List Nat → ChainParams → Except Error Address

/-- The library function `btcutil.NewAddressPubKeyHash`: the hash must have
20 bytes, the network id is `net.PubKeyHashAddrID`. -/
def NewAddressPubKeyHash (pkHash : List Nat) (net : ChainParams) : Except Error Address :=
  if pkHash.length ≠ 20 then Except.error "pkHash must be 20 bytes"
  else Except.ok (Address.PubKeyHash pkHash net.PubKeyHashAddrID)

/-- The library function `btcutil.NewAddressScriptHashFromHash`: the hash
must have 20 bytes, the network id is `net.ScriptHashAddrID`. -/
def NewAddressScriptHashFromHash (scriptHash : List Nat) (net : ChainParams) :
    Except Error Address :=
  if scriptHash.length ≠ 20 then Except.error "scriptHash must be 20 bytes"
  else Except.ok (Address.ScriptHash scriptHash net.ScriptHashAddrID)

/-- Equality of two returns `(value, error)` is decidable. -/
instance decEqExcept {ε α : Type} [DecidableEq ε] [DecidableEq α] : DecidableEq (Except ε α)
  | Except.error a, Except.error b =>
    if h : a = b then isTrue (congrArg Except.error h)
    else isFalse (fun h2 => h (Except.error.inj h2))
  | Except.ok a, Except.ok b =>
    if h : a = b then isTrue (congrArg Except.ok h)
    else isFalse (fun h2 => h (Except.ok.inj h2))
  | Except.error _, Except.ok _ => isFalse (fun h => Except.noConfusion h)
  | Except.ok _, Except.error _ => isFalse (fun h => Except.noConfusion h)

/-- The return of an address constructor of `btcutil` as a return of `ConvertCOLXAddress`. -/
def returnAddress (r : Except Error Address) : Except ConvertError Address :=
  match r with
  | Except.error err => Except.error (ConvertError.newAddress err)
  | Except.ok address => Except.ok address

set_option linter.unusedVariables false in
/-- The method `ConvertCOLXAddress`; `cchainConfig` is `b.GetChainParams()`.
The argument `net` is not used by the body. The method has no `recover`:
when `base58.CheckDecode` panics it does not return, which is `none`. -/
def ConvertCOLXAddress (L : ColxLibs) (cchainConfig : ChainParams) (addr net : String) :
    Option (Except ConvertError Address) :=
  let bchainConfig := MainNetParams
  if (utf8Bytes addr).length = 130 ∨ (utf8Bytes addr).length = 66 then
    match L.DecodeString addr with
    | Except.error errf => some (Except.error (ConvertError.hexDecode errf))
    | Except.ok serializedPubKey =>
      some (returnAddress (L.NewAddressPubKey serializedPubKey bchainConfig))
  else
    match L.CheckDecode addr with
    | none => none
    | some (Except.error err) =>
      if err = Base58Error.ErrChecksum then some (Except.error ConvertError.ErrChecksumMismatch)
      else some (Except.error ConvertError.unknownFormat)
    | some (Except.ok (decoded, netID)) =>
      if decoded.length = 20 then
        let isP2PKH := netID = cchainConfig.PubKeyHashAddrID
        let isP2SH := netID = cchainConfig.ScriptHashAddrID
        if isP2PKH ∧ isP2SH then some (Except.error ConvertError.ErrAddressCollision)
        else if isP2PKH then some (returnAddress (NewAddressPubKeyHash decoded bchainConfig))
        else if isP2SH then
          some (returnAddress (NewAddressScriptHashFromHash decoded bchainConfig))
        else some (Except.error ConvertError.ErrUnknownAddressType)
      else some (Except.error ConvertError.unknownSize)

/-! ### The libraries on concrete inputs

`encoding/hex`, `crypto/sha256` and the base58 decoder of `btcutil`, written
out so that the conversion can be run on concrete address strings. -/

/-- The function `fromHexChar` of `encoding/hex`. -/
def fromHexChar (c : Nat) : Option Nat :=
  if 48 ≤ c ∧ c ≤ 57 then some (c - 48)
  else if 97 ≤ c ∧ c ≤ 102 then some (c - 97 + 10)
  else if 65 ≤ c ∧ c ≤ 70 then some (c - 65 + 10)
  else none

/-- The function `hex.Decode`, on the bytes of the source. -/
def hexDecode : List Nat → Except HexError (List Nat)
  | [] => Except.ok []
  | [p] =>
    if fromHexChar p = none then Except.error (HexError.InvalidByteError p)
    else Except.error HexError.ErrLength
  | p :: q :: rest =>
    match fromHexChar p with
    | none => Except.error (HexError.InvalidByteError p)
    | some a =>
      match fromHexChar q with
      | none => Except.error (HexError.InvalidByteError q)
      | some b =>
        match hexDecode rest with
        | Except.error e => Except.error e
        | Except.ok bytes => Except.ok ((a * 16 + b) :: bytes)

/-- The function `hex.DecodeString`. -/
def hexDecodeString (s : String) : Except HexError (List Nat) :=
  hexDecode (utf8Bytes s)

/-- The round constants of SHA-256: the first 32 bits of the fractional
parts of the cube roots of the first 64 primes. -/
def sha256K : List Nat :=
  [1116352408, 1899447441, 3049323471, 3921009573, 961987163, 1508970993,
   2453635748, 2870763221, 3624381080, 310598401, 607225278, 1426881987,
   1925078388, 2162078206, 2614888103, 3248222580, 3835390401, 4022224774,
   264347078, 604807628, 770255983, 1249150122, 1555081692, 1996064986,
   2554220882, 2821834349, 2952996808, 3210313671, 3336571891, 3584528711,
   113926993, 338241895, 666307205, 773529912, 1294757372, 1396182291,
   1695183700, 1986661051, 2177026350, 2456956037, 2730485921, 2820302411,
   3259730800, 3345764771, 3516065817, 3600352804, 4094571909, 275423344,
   430227734, 506948616, 659060556, 883997877, 958139571, 1322822218,
   1537002063, 1747873779, 1955562222, 2024104815, 2227730452, 2361852424,
   2428436474, 2756734187, 3204031479, 3329325298]

/-- The initial hash value of SHA-256: the first 32 bits of the fractional
parts of the square roots of the first 8 primes. -/
def sha256H0 : List Nat :=
  [1779033703, 3144134277, 1013904242, 2773480762,
   1359893119, 2600822924, 528734635, 1541459225]

/-- The modulus of 32-bit words. -/
def w32 : Nat := 2 ^ 32

/-- Rotation of a 32-bit word to the right. -/
def rotr (x n : Nat) : Nat := ((x >>> n) ||| (x <<< (32 - n))) % w32

/-- The four sigma functions, choice and majority of SHA-256. -/
def bigSigma0 (x : Nat) : Nat := rotr x 2 ^^^ rotr x 13 ^^^ rotr x 22
def bigSigma1 (x : Nat) : Nat := rotr x 6 ^^^ rotr x 11 ^^^ rotr x 25
def smallSigma0 (x : Nat) : Nat := rotr x 7 ^^^ rotr x 18 ^^^ (x >>> 3)
def smallSigma1 (x : Nat) : Nat := rotr x 17 ^^^ rotr x 19 ^^^ (x >>> 10)
def sha256Ch (x y z : Nat) : Nat := (x &&& y) ^^^ ((w32 - 1 - x) &&& z)
def sha256Maj (x y z : Nat) : Nat := (x &&& y) ^^^ (x &&& z) ^^^ (y &&& z)

/-- The padding of a message: the byte `0x80`, zero bytes up to 56 modulo
64, and the bit length on eight bytes. -/
def sha256Pad (msg : List Nat) : List Nat :=
  let bits := 8 * msg.length
  msg ++ [0x80] ++ List.replicate ((119 - msg.length % 64) % 64) 0 ++
    [(bits >>> 56) % 256, (bits >>> 48) % 256, (bits >>> 40) % 256, (bits >>> 32) % 256,
     (bits >>> 24) % 256, (bits >>> 16) % 256, (bits >>> 8) % 256, bits % 256]

/-- The big-endian 32-bit words of a byte list. -/
def wordsOfBytes : List Nat → List Nat
  | a :: b :: c :: d :: rest => (a * 16777216 + b * 65536 + c * 256 + d) :: wordsOfBytes rest
  | _ => []

/-- The message schedule: `n` more words, the list holding the latest word first. -/
def sha256Schedule : Nat → List Nat → List Nat
  | 0, rev => rev
  | n + 1, rev =>
    sha256Schedule n
      (((smallSigma1 (rev.getD 1 0) + rev.getD 6 0 + smallSigma0 (rev.getD 14 0) +
        rev.getD 15 0) % w32) :: rev)

/-- The eight working variables of SHA-256. -/
structure Sha256State where
  a : Nat
  b : Nat
  c : Nat
  d : Nat
  e : Nat
  f : Nat
  g : Nat
  h : Nat

/-- One round of the compression function. -/
def sha256Round (s : Sha256State) (k w : Nat) : Sha256State :=
  let t1 := (s.h + bigSigma1 s.e + sha256Ch s.e s.f s.g + k + w) % w32
  let t2 := (bigSigma0 s.a + sha256Maj s.a s.b s.c) % w32
  ⟨(t1 + t2) % w32, s.a, s.b, s.c, (s.d + t1) % w32, s.e, s.f, s.g⟩

/-- The rounds of the compression function over constants and schedule. -/
def sha256Rounds : Sha256State → List Nat → List Nat → Sha256State
  | s, k :: ks, w :: ws => sha256Rounds (sha256Round s k w) ks ws
  | s, _, _ => s

/-- The compression of one 64-byte block into the hash value. -/
def sha256Compress (h : List Nat) (block : List Nat) : List Nat :=
  let ws := (sha256Schedule 48 (wordsOfBytes block).reverse).reverse
  let s0 : Sha256State :=
    ⟨h.getD 0 0, h.getD 1 0, h.getD 2 0, h.getD 3 0, h.getD 4 0, h.getD 5 0, h.getD 6 0,
      h.getD 7 0⟩
  let s := sha256Rounds s0 sha256K ws
  [(s0.a + s.a) % w32, (s0.b + s.b) % w32, (s0.c + s.c) % w32, (s0.d + s.d) % w32,
   (s0.e + s.e) % w32, (s0.f + s.f) % w32, (s0.g + s.g) % w32, (s0.h + s.h) % w32]

/-- The compression of `n` successive blocks. -/
def sha256Blocks : Nat → List Nat → List Nat → List Nat
  | 0, h, _ => h
  | n + 1, h, bytes => sha256Blocks n (sha256Compress h (bytes.take 64)) (bytes.drop 64)

/-- The four big-endian bytes of a 32-bit word. -/
def bytesOfWord (w : Nat) : List Nat :=
  [(w >>> 24) % 256, (w >>> 16) % 256, (w >>> 8) % 256, w % 256]

/-- The function `sha256.Sum256`. -/
def Sum256 (msg : List Nat) : List Nat :=
  (sha256Blocks ((sha256Pad msg).length / 64) sha256H0 (sha256Pad msg)).flatMap bytesOfWord

/-- The alphabet of base58, as bytes. -/
def base58Alphabet : List Nat :=
  utf8Bytes "123456789ABCDEFGHJKLMNPQRSTUVWXYZabcdefghijkmnopqrstuvwxyz"

/-- The table `b58` of the decoder at an index below 256: the digit of the
byte, `none` for the entry 255. -/
def b58 (c : Nat) : Option Nat :=
  if base58Alphabet.indexOf c < 58 then some (base58Alphabet.indexOf c) else none

/-- The outcome of the digit loop of `base58.Decode`: the number read so
far, a rune whose table entry is 255 (`Decode` returns the empty slice), or
a rune of 256 or more, which indexes outside the 256-entry table `b58` (the
run-time panic `index out of range`). -/
inductive DigitsOutcome where
  | number (value : Nat)
  | notDigit
  | indexPanic
  deriving DecidableEq, Repr

/-- The inner loop `for _, v := range t[:n]` of `base58.Decode` on the
bytes of a chunk: `range` decodes one rune at a time. A byte below 128 is
its own rune and `total = total*58 + b58[v]` in `uint64`; the bytes `0xC2`
or `0xC3` followed by a continuation byte are a rune between U+0080 and
U+00FF, whose table entry is 255; every other sequence is a rune of 256 or
more (a wider rune, or `utf8.RuneError` for a sequence that is cut or not
valid). -/
def base58Chunk : List Nat → Nat → DigitsOutcome
  | [], total => DigitsOutcome.number total
  | v :: rest, total =>
    if v < 128 then
      match b58 v with
      | none => DigitsOutcome.notDigit
      | some tmp => base58Chunk rest ((total * 58 + tmp) % u64)
    else if (v = 194 ∨ v = 195) ∧ 128 ≤ rest.headD 0 ∧ rest.headD 0 ≤ 191 then
      DigitsOutcome.notDigit
    else DigitsOutcome.indexPanic

/-- The outer loop `for t := b; len(t) > 0; ` of `base58.Decode`: chunks of
at most ten bytes, `answer = answer * 58^n + total`. The first argument
bounds the number of chunks; the length of `t` is enough. -/
def base58Chunks : Nat → List Nat → Nat → DigitsOutcome
  | 0, _, answer => DigitsOutcome.number answer
  | fuel + 1, t, answer =>
    if t = [] then DigitsOutcome.number answer
    else
      match base58Chunk (t.take (min t.length 10)) 0 with
      | DigitsOutcome.indexPanic => DigitsOutcome.indexPanic
      | DigitsOutcome.notDigit => DigitsOutcome.notDigit
      | DigitsOutcome.number total =>
        base58Chunks fuel (t.drop (min t.length 10))
          (answer * 58 ^ (min t.length 10) + total)

/-- The bytes `answer.Bytes()` of a big integer: big-endian, without leading zero. -/
def bigIntBytes : Nat → Nat → List Nat → List Nat
  | 0, _, acc => acc
  | fuel + 1, n, acc =>
    if n = 0 then acc else bigIntBytes fuel (n / 256) ((n % 256) :: acc)

/-- The function `base58.Decode`: `none` when the table is indexed with a
rune of 256 or more (the call panics), the empty result for a string with a
rune that is not a digit, else one zero byte for each leading `1` followed
by the bytes of the number. -/
def base58Decode (b : String) : Option (List Nat) :=
  match base58Chunks (utf8Bytes b).length (utf8Bytes b) 0 with
  | DigitsOutcome.indexPanic => none
  | DigitsOutcome.notDigit => some []
  | DigitsOutcome.number answer =>
    some (List.replicate ((utf8Bytes b).takeWhile (fun c => c = 49)).length 0 ++
      bigIntBytes (utf8Bytes b).length answer [])

/-- The function `checksum` of the base58 package: the first four bytes of
the double SHA-256. -/
def base58Checksum (input : List Nat) : List Nat :=
  (Sum256 (Sum256 input)).take 4

/-- The function `base58.CheckDecode`; `none` when `Decode` panics. -/
def base58CheckDecode (input : String) : Option (Except Base58Error (List Nat × Nat)) :=
  match base58Decode input with
  | none => none
  | some decoded =>
    if decoded.length < 5 then some (Except.error Base58Error.ErrInvalidFormat)
    else
      let version := decoded.headD 0
      let cksum := decoded.drop (decoded.length - 4)
      if base58Checksum (decoded.take (decoded.length - 4)) ≠ cksum then
        some (Except.error Base58Error.ErrChecksum)
      else some (Except.ok ((decoded.take (decoded.length - 4)).drop 1, version))

/-- The libraries on concrete inputs; the public key constructor accepts a
serialized key by its length alone (the curve checks of `btcec` are left out). -/
def stdColxLibs : ColxLibs :=
  { DecodeString := hexDecodeString
    CheckDecode := base58CheckDecode
    NewAddressPubKey := fun serializedPubKey net =>
      if serializedPubKey.length = 33 ∨ serializedPubKey.length = 65 then
        Except.ok (Address.PubKey serializedPubKey net.PubKeyHashAddrID)
      else Except.error "invalid pub key length" }

/-- Sample chain parameters of the bridge: version byte 30 for
pay-to-pubkey-hash and 13 for pay-to-script-hash. -/
def sampleColxParams : ChainParams :=
  { Name := "colx", PubKeyHashAddrID := 30, ScriptHashAddrID := 13 }

/-- The parameters that a network name designates in `chaincfg`, used to
state what a target network would select. -/
def chainParamsNamed (net : String) : Option ChainParams :=
  if net = MainNetParams.Name then some MainNetParams
  else if net = TestNet3Params.Name then some TestNet3Params
  else none

/-- The twenty bytes 1, 2, …, 20. -/
def samplePayload20 : List Nat := (List.range 20).map (fun i => i + 1)

/-- The forty-three bytes 1, 2, …, 43. -/
def samplePayload43 : List Nat := (List.range 43).map (fun i => i + 1)

/-- The base58Check encoding of version byte 30 and `samplePayload20`. -/
def sampleColxAddress : String := "D5ERdEN1gsouFSs7zsq7VYJxyWP6dP28H1"

/-- The base58Check encoding, 66 bytes long, of version byte 30 and `samplePayload43`. -/
def sampleLongAddress : String :=
  "26qUzGbVjSaD6HxeV8Gh2Db5KRTLZQ2kTULJxHywj1JEe12ypeFQvcpav2WJJoaAXb"

/-- A string of 66 letters `z`: base58 digits with a wrong checksum. -/
def sampleBadChecksum : String := String.mk (List.replicate 66 'z')

/-- A string of 66 letters `O`, which is neither a base58 digit nor a hex digit. -/
def sampleNotBase58 : String := String.mk (List.replicate 66 'O')

/-! ## Theorems -/

theorem subU64_of_le {a b : Nat} (ha : a < u64) (hb : b ≤ a) : subU64 a b = a - b := by
  unfold subU64
  have hb' : b % u64 = b := Nat.mod_eq_of_lt (lt_of_le_of_lt hb ha)
  rw [hb']
  have : a + u64 - b = (a - b) + u64 := by omega
  rw [this, Nat.add_mod_right]
  exact Nat.mod_eq_of_lt (lt_of_le_of_lt (Nat.sub_le a b) ha)

theorem latestBySwapType_lt (T : TokensEnv) (hR : T.heightsInRange) (mr : MgoSwapResult) :
    latestBySwapType T mr < u64 := by
  unfold latestBySwapType
  obtain ⟨h1, h2, h3⟩ := hR
  split_ifs
  · exact h1
  · exact h2
  · exact h3 _
  · decide

/-- C1: for every resulted swap record, the projection reports zero
confirmations when `SwapHeight` is zero; otherwise, for `latest` the height
selected by the swap type (destination height for swap-in, source height for
swap-out, the looked-up height of chain `ToChainID` for router swap), it
reports `latest - SwapHeight` when `latest ≥ SwapHeight` and zero when
`latest < SwapHeight`, the `uint64` subtraction never wrapping. -/
theorem convertMgoSwapResult_confirmations (T : TokensEnv) (mr : MgoSwapResult)
    (hD : T.distinctSwapTypes) (hR : T.heightsInRange) :
    (mr.SwapHeight = 0 → (ConvertMgoSwapResultToSwapInfo T mr).Confirmations = 0) ∧
    (mr.SwapHeight ≠ 0 → ∀ latest : Nat,
      ((mr.SwapType = T.SwapinType ∧ latest = T.DstLatestBlockHeight) ∨
       (mr.SwapType = T.SwapoutType ∧ latest = T.SrcLatestBlockHeight) ∨
       (mr.SwapType = T.RouterSwapType ∧
          latest = (T.GetLatestBlockNumberByChainID mr.ToChainID).1)) →
      (latest ≥ mr.SwapHeight →
        (ConvertMgoSwapResultToSwapInfo T mr).Confirmations = latest - mr.SwapHeight) ∧
      (latest < mr.SwapHeight →
        (ConvertMgoSwapResultToSwapInfo T mr).Confirmations = 0)) := by
  obtain ⟨h12, h13, h23⟩ := hD
  have hlt := latestBySwapType_lt T hR mr
  refine ⟨?_, ?_⟩
  · intro h0
    simp [ConvertMgoSwapResultToSwapInfo, confirmationsOf, h0]
  · intro h0 latest hsel
    have hlatest : latestBySwapType T mr = latest := by
      unfold latestBySwapType
      rcases hsel with ⟨ht, hl⟩ | ⟨ht, hl⟩ | ⟨ht, hl⟩
      · rw [if_pos ht, hl]
      · have hne : mr.SwapType ≠ T.SwapinType := by rw [ht]; exact fun h => h12 h.symm
        rw [if_neg hne, if_pos ht, hl]
      · have hne1 : mr.SwapType ≠ T.SwapinType := by rw [ht]; exact fun h => h13 h.symm
        have hne2 : mr.SwapType ≠ T.SwapoutType := by rw [ht]; exact fun h => h23 h.symm
        rw [if_neg hne1, if_neg hne2, if_pos ht, hl]
    rw [hlatest] at hlt
    have hconf : (ConvertMgoSwapResultToSwapInfo T mr).Confirmations =
        if latest > mr.SwapHeight then subU64 latest mr.SwapHeight else 0 := by
      simp only [ConvertMgoSwapResultToSwapInfo, confirmationsOf, hlatest]
      rw [if_pos h0]
    refine ⟨?_, ?_⟩
    · intro hge
      rw [hconf]
      by_cases hgt : latest > mr.SwapHeight
      · rw [if_pos hgt, subU64_of_le hlt hge]
      · rw [if_neg hgt]; omega
    · intro hlt'
      rw [hconf, if_neg (by omega)]

theorem sampleTokensEnv_distinct : sampleTokensEnv.distinctSwapTypes := by
  refine ⟨?_, ?_, ?_⟩ <;> decide

theorem sampleTokensEnv_inRange : sampleTokensEnv.heightsInRange := by
  refine ⟨by decide, by decide, ?_⟩
  intro chainID
  show (if chainID = "56" then ((500 : Nat), (none : Option Error))
    else (0, some "no bridge")).1 < u64
  split_ifs <;> decide

/-- Witness of C1 on the sample record: a swap-in at height 100 seen from
destination height 120 has 20 confirmations. -/
theorem convertMgoSwapResult_confirmations_witness :
    sampleTokensEnv.distinctSwapTypes ∧ sampleTokensEnv.heightsInRange ∧
    (ConvertMgoSwapResultToSwapInfo sampleTokensEnv sampleSwapResult).Confirmations
      = 120 - 100 :=
  ⟨sampleTokensEnv_distinct, sampleTokensEnv_inRange,
    ((convertMgoSwapResult_confirmations sampleTokensEnv sampleSwapResult
      sampleTokensEnv_distinct sampleTokensEnv_inRange).2 (by decide) 120
      (Or.inl ⟨rfl, rfl⟩)).1 (by decide)⟩

/-! ### Authority set -/

theorem toNat_ofNat_small (m : Nat) (h : m < 55296) : (Char.ofNat m).toNat = m := by
  have hv : m.isValidChar := Or.inl h
  simp only [Char.ofNat, dif_pos hv, Char.toNat, Char.ofNatAux]
  simp [UInt32.toNat]

theorem toLower_toUpper (c : Char) : c.toUpper.toLower = c.toLower := by
  by_cases h : c.toNat ≥ 97 ∧ c.toNat ≤ 122
  · have h1 : c.toUpper = Char.ofNat (c.toNat - 32) := by simp [Char.toUpper, h]
    have h2 : (Char.ofNat (c.toNat - 32)).toNat = c.toNat - 32 :=
      toNat_ofNat_small _ (by omega)
    have h3 : c.toLower = c := by
      simp only [Char.toLower]
      rw [if_neg (by omega)]
    rw [h1, h3]
    simp only [Char.toLower, h2]
    rw [if_pos (by omega)]
    have : c.toNat - 32 + 32 = c.toNat := by omega
    rw [this, Char.ofNat_toNat]
  · have h1 : c.toUpper = c := by
      simp only [Char.toUpper]
      rw [if_neg h]
    rw [h1]

theorem toLower_toLower (c : Char) : c.toLower.toLower = c.toLower := by
  by_cases h : c.toNat ≥ 65 ∧ c.toNat ≤ 90
  · have h1 : c.toLower = Char.ofNat (c.toNat + 32) := by simp [Char.toLower, h]
    have h2 : (Char.ofNat (c.toNat + 32)).toNat = c.toNat + 32 :=
      toNat_ofNat_small _ (by omega)
    rw [h1]
    simp only [Char.toLower, h2]
    rw [if_neg (by omega)]
  · have h1 : c.toLower = c := by
      simp only [Char.toLower]
      rw [if_neg h]
    rw [h1, h1]

theorem asciiFold_cases (c : Char) :
    asciiFold c.toUpper = asciiFold c ∧ asciiFold c.toLower = asciiFold c :=
  ⟨toLower_toUpper c, toLower_toLower c⟩

theorem equalFold_upperCased (fold : Char → Char) (hU : ∀ c : Char, fold c.toUpper = fold c)
    (s t : String) : EqualFold fold (upperCased s) t = EqualFold fold s t := by
  have h : (s.toList.map Char.toUpper).map fold = s.toList.map fold := by
    rw [List.map_map]
    exact List.map_congr_left (fun c _ => hU c)
  simp only [String.toList] at h
  simp only [EqualFold, upperCased, String.toList]
  rw [h]

theorem equalFold_lowerCased (fold : Char → Char) (hL : ∀ c : Char, fold c.toLower = fold c)
    (s t : String) : EqualFold fold (lowerCased s) t = EqualFold fold s t := by
  have h : (s.toList.map Char.toLower).map fold = s.toList.map fold := by
    rw [List.map_map]
    exact List.map_congr_left (fun c _ => hL c)
  simp only [String.toList] at h
  simp only [EqualFold, lowerCased, String.toList]
  rw [h]

theorem isAdmin_congr (fold : Char → Char) (a b : String)
    (h : ∀ t, EqualFold fold a t = EqualFold fold b t) (Admins : List String) :
    IsAdmin fold Admins a = IsAdmin fold Admins b := by
  induction Admins with
  | nil => rfl
  | cons admin rest ih => simp only [IsAdmin, h admin, ih]

theorem isAdmin_iff_exists (fold : Char → Char) (Admins : List String) (account : String) :
    IsAdmin fold Admins account = true ↔
      ∃ admin ∈ Admins, EqualFold fold account admin = true := by
  induction Admins with
  | nil => simp [IsAdmin]
  | cons admin rest ih =>
    simp only [IsAdmin, List.mem_cons, exists_eq_or_imp]
    by_cases h : EqualFold fold account admin = true
    · simp [h]
    · rw [if_neg h, ih]
      simp [h]

/-- C3: `IsAdmin(account)` is true exactly when `HasAdmin()` is true and some
member of the admin list equals `account` under case-insensitive comparison;
it is false for every account when the list is empty, and its value does not
change when the letters of `account` are upper-cased or lower-cased (the
comparison identifying the two cases of a letter). -/
theorem isAdmin_iff_hasAdmin_and_member (fold : Char → Char) (Admins : List String)
    (account : String)
    (hfold : ∀ c : Char, fold c.toUpper = fold c ∧ fold c.toLower = fold c) :
    (IsAdmin fold Admins account = true ↔
      (HasAdmin Admins = true ∧ ∃ admin ∈ Admins, EqualFold fold account admin = true)) ∧
    IsAdmin fold [] account = false ∧
    IsAdmin fold Admins (upperCased account) = IsAdmin fold Admins account ∧
    IsAdmin fold Admins (lowerCased account) = IsAdmin fold Admins account := by
  refine ⟨?_, rfl, ?_, ?_⟩
  · rw [isAdmin_iff_exists]
    constructor
    · rintro ⟨admin, hmem, heq⟩
      refine ⟨?_, admin, hmem, heq⟩
      cases Admins with
      | nil => cases hmem
      | cons a rest => simp [HasAdmin]
    · exact fun h => h.2
  · exact isAdmin_congr fold _ _
      (equalFold_upperCased fold (fun c => (hfold c).1) account) Admins
  · exact isAdmin_congr fold _ _
      (equalFold_lowerCased fold (fun c => (hfold c).2) account) Admins

/-- Witness of C3: with admin `0xAbCd`, the accounts `0xabcd`, `0XABCD` and
`0xabcd` lower-cased are all admins. -/
theorem isAdmin_iff_hasAdmin_and_member_witness :
    IsAdmin asciiFold ["0xAbCd"] "0xabcd" = true ∧
    IsAdmin asciiFold ["0xAbCd"] (upperCased "0xabcd") = IsAdmin asciiFold ["0xAbCd"] "0xabcd" ∧
    IsAdmin asciiFold ["0xAbCd"] (lowerCased "0xabcd") = IsAdmin asciiFold ["0xAbCd"] "0xabcd" :=
  ⟨by decide,
    (isAdmin_iff_hasAdmin_and_member asciiFold ["0xAbCd"] "0xabcd" asciiFold_cases).2.2.1,
    (isAdmin_iff_hasAdmin_and_member asciiFold ["0xAbCd"] "0xabcd" asciiFold_cases).2.2.2⟩

/-! ### The call entry point -/

/-- C2: with an empty admin list, `AdminCall` returns the error
`no admin is configed` for every raw envelope, whatever the codec would make
of it; nothing is decoded, verified or dispatched (the record of calls is
unchanged) and the result string and the whole state are unchanged. -/
theorem adminCall_no_admin (E : External σ β τ) (rawTx : String) (w : World σ β)
    (h : w.Admins = []) :
    AdminCall E rawTx w = (some "no admin is configed", w) := by
  simp [AdminCall, HasAdmin, h]

/-- Witness of C2: a well-formed envelope from the sender `0xabcd` is refused
when no admin is configured. -/
theorem adminCall_no_admin_witness :
    (sampleWorld []).Admins = [] ∧
    AdminCall (sampleExternal "0xabcd" ⟨"maintain", ["close", "both", "all"]⟩) "raw"
      (sampleWorld []) = (some "no admin is configed", sampleWorld []) :=
  ⟨rfl, adminCall_no_admin _ "raw" (sampleWorld []) rfl⟩

/-- C4: with a non-empty admin list, `AdminCall` decodes, verifies,
authorizes and dispatches in that order. A decode error is returned after
the decode call alone; a verify error after the decode and verify calls
alone; a sender that is not an admin is refused with an error naming it. In
these three cases nothing is dispatched and the result string, the store,
the bridges and the configuration are unchanged. Otherwise the outcome is
that of `doCall` on the verified call arguments. -/
theorem adminCall_stages (E : External σ β τ) (rawTx : String) (w : World σ β)
    (h : w.Admins ≠ []) :
    (∀ err, E.DecodeTransaction rawTx = Except.error err →
      AdminCall E rawTx w =
        (some err, { w with trace := w.trace ++ [Call.DecodeTransaction rawTx] })) ∧
    (∀ tx err, E.DecodeTransaction rawTx = Except.ok tx →
      E.VerifyTransaction tx = Except.error err →
      AdminCall E rawTx w =
        (some err, { w with trace := w.trace ++ [Call.DecodeTransaction rawTx] ++
          [Call.VerifyTransaction] })) ∧
    (∀ tx sender args, E.DecodeTransaction rawTx = Except.ok tx →
      E.VerifyTransaction tx = Except.ok (sender, args) →
      IsAdmin E.simpleFold w.Admins sender = false →
      AdminCall E rawTx w =
        (some ("sender " ++ sender ++ " is not admin"),
          { w with trace := w.trace ++ [Call.DecodeTransaction rawTx] ++
            [Call.VerifyTransaction] })) ∧
    (∀ tx sender args, E.DecodeTransaction rawTx = Except.ok tx →
      E.VerifyTransaction tx = Except.ok (sender, args) →
      IsAdmin E.simpleFold w.Admins sender = true →
      AdminCall E rawTx w =
        doCall E args { w with trace := w.trace ++ [Call.DecodeTransaction rawTx] ++
          [Call.VerifyTransaction] }) := by
  have hA : HasAdmin w.Admins = true := by
    cases hw : w.Admins with
    | nil => exact absurd hw h
    | cons a rest => simp [HasAdmin]
  refine ⟨?_, ?_, ?_, ?_⟩
  · intro err hd
    simp [AdminCall, hA, hd, World.log]
  · intro tx err hd hv
    simp [AdminCall, hA, hd, hv, World.log]
  · intro tx sender args hd hv hna
    simp [AdminCall, hA, hd, hv, hna, World.log]
  · intro tx sender args hd hv ha
    simp [AdminCall, hA, hd, hv, ha, World.log]

/-- Witness of C4: a sender that is not in the admin list is refused by name
and only the decode and verify calls are made. -/
theorem adminCall_stages_witness :
    (sampleWorld ["0xAbCd"]).Admins ≠ [] ∧
    AdminCall (sampleExternal "0xffff" ⟨"maintain", ["close", "both", "all"]⟩) "raw"
      (sampleWorld ["0xAbCd"]) =
      (some "sender 0xffff is not admin",
        { sampleWorld ["0xAbCd"] with
          trace := [Call.DecodeTransaction "raw", Call.VerifyTransaction] }) :=
  ⟨by decide,
    (adminCall_stages (sampleExternal "0xffff" ⟨"maintain", ["close", "both", "all"]⟩) "raw"
      (sampleWorld ["0xAbCd"]) (by decide)).2.2.1 "raw" "0xffff"
      ⟨"maintain", ["close", "both", "all"]⟩ rfl rfl (by decide)⟩

/-! ### Dispatch and validation -/

theorem wrongNumberOfParams_eq (n : Nat) (want lit : String) (h : " want " ++ want = lit) :
    wrongNumberOfParams n want = "wrong number of params, have " ++ toString n ++ lit := by
  subst h
  simp [wrongNumberOfParams, String.append_assoc]

/-- C5: for a method that is none of the nine registered command names,
`doCall` returns the error `unknown admin method '<method>'`, which contains
the method string, runs no handler and leaves the result string and the
state unchanged; for each of the nine names it returns what the handler of
that name returns. -/
theorem doCall_dispatch (E : External σ β τ) (params : List String) (w : World σ β) :
    (∀ method : String,
      method ∉ ["blacklist", "bigvalue", "maintain", "reverify", "reswap", "replaceswap",
        "manual", "setnonce", "addpair"] →
      doCall E ⟨method, params⟩ w = (some ("unknown admin method '" ++ method ++ "'"), w)) ∧
    doCall E ⟨"blacklist", params⟩ w = blacklist E ⟨"blacklist", params⟩ w ∧
    doCall E ⟨"bigvalue", params⟩ w = bigvalue E ⟨"bigvalue", params⟩ w ∧
    doCall E ⟨"maintain", params⟩ w = maintain E ⟨"maintain", params⟩ w ∧
    doCall E ⟨"reverify", params⟩ w = reverify E ⟨"reverify", params⟩ w ∧
    doCall E ⟨"reswap", params⟩ w = reswap E ⟨"reswap", params⟩ w ∧
    doCall E ⟨"replaceswap", params⟩ w = replaceswap E ⟨"replaceswap", params⟩ w ∧
    doCall E ⟨"manual", params⟩ w = manual E ⟨"manual", params⟩ w ∧
    doCall E ⟨"setnonce", params⟩ w = setnonce E ⟨"setnonce", params⟩ w ∧
    doCall E ⟨"addpair", params⟩ w = addpair E ⟨"addpair", params⟩ w := by
  refine ⟨?_, ?_, ?_, ?_, ?_, ?_, ?_, ?_, ?_, ?_⟩
  · intro method hm
    simp only [List.mem_cons, List.mem_singleton, List.not_mem_nil, or_false, not_or] at hm
    obtain ⟨h1, h2, h3, h4, h5, h6, h7, h8, h9⟩ := hm
    simp [doCall, blacklistCmd, bigvalueCmd, maintainCmd, reverifyCmd, reswapCmd,
      replaceswapCmd, manualCmd, setnonceCmd, addpairCmd, unknownAdminMethod,
      h1, h2, h3, h4, h5, h6, h7, h8, h9]
  all_goals
    simp [doCall, blacklistCmd, bigvalueCmd, maintainCmd, reverifyCmd, reswapCmd,
      replaceswapCmd, manualCmd, setnonceCmd, addpairCmd]

/-- Witness of C5: the name `passbigvalue`, which the `const` block declares
but `doCall` does not dispatch, is an unknown method. -/
theorem doCall_dispatch_witness :
    doCall (sampleExternal "0xabcd" ⟨"", []⟩) ⟨"passbigvalue", ["passswapin"]⟩
      (sampleWorld ["0xAbCd"]) =
      (some "unknown admin method 'passbigvalue'", sampleWorld ["0xAbCd"]) :=
  (doCall_dispatch (sampleExternal "0xabcd" ⟨"", []⟩) ["passswapin"]
    (sampleWorld ["0xAbCd"])).1 "passbigvalue" (by decide)

/-- C6: a handler called with a number `n` of parameters that it does not
accept returns the error `wrong number of params, have n want <expected>`
(3 for blacklist, 4 for bigvalue, 3 for maintain, `4 or 5` for reverify,
reswap and manual, 5 for replaceswap, 3 for setnonce, 1 for addpair) before
any store, bridge, worker or pair-configuration operation, leaving the
result string and the state unchanged. -/
theorem handlers_wrong_arity (E : External σ β τ) (method : String) (params : List String)
    (w : World σ β) :
    (params.length ≠ 3 → blacklist E ⟨method, params⟩ w =
      (some ("wrong number of params, have " ++ toString params.length ++ " want 3"), w)) ∧
    (params.length ≠ 4 → bigvalue E ⟨method, params⟩ w =
      (some ("wrong number of params, have " ++ toString params.length ++ " want 4"), w)) ∧
    (params.length ≠ 3 → maintain E ⟨method, params⟩ w =
      (some ("wrong number of params, have " ++ toString params.length ++ " want 3"), w)) ∧
    (¬ (params.length = 4 ∨ params.length = 5) → reverify E ⟨method, params⟩ w =
      (some ("wrong number of params, have " ++ toString params.length ++ " want 4 or 5"),
        w)) ∧
    (¬ (params.length = 4 ∨ params.length = 5) → reswap E ⟨method, params⟩ w =
      (some ("wrong number of params, have " ++ toString params.length ++ " want 4 or 5"),
        w)) ∧
    (params.length ≠ 5 → replaceswap E ⟨method, params⟩ w =
      (some ("wrong number of params, have " ++ toString params.length ++ " want 5"), w)) ∧
    (¬ (params.length = 4 ∨ params.length = 5) → manual E ⟨method, params⟩ w =
      (some ("wrong number of params, have " ++ toString params.length ++ " want 4 or 5"),
        w)) ∧
    (params.length ≠ 3 → setnonce E ⟨method, params⟩ w =
      (some ("wrong number of params, have " ++ toString params.length ++ " want 3"), w)) ∧
    (params.length ≠ 1 → addpair E ⟨method, params⟩ w =
      (some ("wrong number of params, have " ++ toString params.length ++ " want 1"), w)) := by
  refine ⟨?_, ?_, ?_, ?_, ?_, ?_, ?_, ?_, ?_⟩
  · intro h
    simp only [blacklist]
    rw [if_pos h, wrongNumberOfParams_eq _ _ " want 3" rfl]
  · intro h
    simp only [bigvalue]
    rw [if_pos h, wrongNumberOfParams_eq _ _ " want 4" rfl]
  · intro h
    simp only [maintain]
    rw [if_pos h, wrongNumberOfParams_eq _ _ " want 3" rfl]
  · intro h
    simp only [reverify, getOpTxAndPairID]
    rw [if_pos h, wrongNumberOfParams_eq _ _ " want 4 or 5" rfl]
  · intro h
    simp only [reswap, getOpTxAndPairID]
    rw [if_pos h, wrongNumberOfParams_eq _ _ " want 4 or 5" rfl]
  · intro h
    simp only [replaceswap]
    rw [if_pos h, wrongNumberOfParams_eq _ _ " want 5" rfl]
  · intro h
    simp only [manual]
    rw [if_pos h, wrongNumberOfParams_eq _ _ " want 4 or 5" rfl]
  · intro h
    simp only [setnonce]
    rw [if_pos h, wrongNumberOfParams_eq _ _ " want 3" rfl]
  · intro h
    simp only [addpair]
    rw [if_pos h, wrongNumberOfParams_eq _ _ " want 1" rfl]

/-- Witness of C6: `reswap` with three parameters reports `have 3 want 4 or 5`. -/
theorem handlers_wrong_arity_witness :
    reswap (sampleExternal "0xabcd" ⟨"", []⟩) ⟨"reswap", ["swapin", "0xaa", "btc"]⟩
      (sampleWorld ["0xAbCd"]) =
      (some "wrong number of params, have 3 want 4 or 5", sampleWorld ["0xAbCd"]) :=
  (handlers_wrong_arity (sampleExternal "0xabcd" ⟨"", []⟩) "reswap" ["swapin", "0xaa", "btc"]
    (sampleWorld ["0xAbCd"])).2.2.2.2.1 (by decide)

/-- C7: a handler that takes an operation parameter, called with an accepted
number of otherwise well-formed parameters (a fifth parameter of reverify or
reswap is the force flag, the nonce of setnonce parses) but an operation
token it does not accept, returns the error `unknown operation '<token>'`;
maintain with an accepted operation and an unknown direction returns
`unknown direction '<token>'`. The message contains the token, and the
result string, the record of calls and the whole state are unchanged. -/
theorem handlers_unknown_operation (E : External σ β τ) (method op : String) (w : World σ β) :
    (∀ address pairID, op ∉ ["add", "remove", "query"] →
      blacklist E ⟨method, [op, address, pairID]⟩ w =
        (some ("unknown operation '" ++ op ++ "'"), w)) ∧
    (∀ txid pairID bind, op ∉ ["passswapin", "passswapout"] →
      bigvalue E ⟨method, [op, txid, pairID, bind]⟩ w =
        (some ("unknown operation '" ++ op ++ "'"), w)) ∧
    (∀ direction pairIDs, op ∉ ["open", "close"] →
      maintain E ⟨method, [op, direction, pairIDs]⟩ w =
        (some ("unknown operation '" ++ op ++ "'"), w)) ∧
    (∀ direction pairIDs, op ∈ ["open", "close"] →
      direction ∉ ["deposit", "withdraw", "both"] →
      maintain E ⟨method, [op, direction, pairIDs]⟩ w =
        (some ("unknown direction '" ++ direction ++ "'"), w)) ∧
    (∀ txid pairID bind, op ∉ ["swapin", "swapout"] →
      reverify E ⟨method, [op, txid, pairID, bind]⟩ w =
        (some ("unknown operation '" ++ op ++ "'"), w) ∧
      reverify E ⟨method, [op, txid, pairID, bind, "--force"]⟩ w =
        (some ("unknown operation '" ++ op ++ "'"), w)) ∧
    (∀ txid pairID bind, op ∉ ["swapin", "swapout"] →
      reswap E ⟨method, [op, txid, pairID, bind]⟩ w =
        (some ("unknown operation '" ++ op ++ "'"), w) ∧
      reswap E ⟨method, [op, txid, pairID, bind, "--force"]⟩ w =
        (some ("unknown operation '" ++ op ++ "'"), w)) ∧
    (∀ txid pairID bind gasPrice, op ∉ ["swapin", "swapout"] →
      replaceswap E ⟨method, [op, txid, pairID, bind, gasPrice]⟩ w =
        (some ("unknown operation '" ++ op ++ "'"), w)) ∧
    (∀ txid pairID bind memo,
      op ∉ ["passswapin", "failswapin", "passswapout", "failswapout"] →
      manual E ⟨method, [op, txid, pairID, bind]⟩ w =
        (some ("unknown operation '" ++ op ++ "'"), w) ∧
      manual E ⟨method, [op, txid, pairID, bind, memo]⟩ w =
        (some ("unknown operation '" ++ op ++ "'"), w)) ∧
    (∀ nonceStr nonce pairID, E.GetUint64FromStr nonceStr = Except.ok nonce →
      op ∉ ["swapin", "swapout"] →
      setnonce E ⟨method, [op, nonceStr, pairID]⟩ w =
        (some ("unknown operation '" ++ op ++ "'"), w)) := by
  refine ⟨?_, ?_, ?_, ?_, ?_, ?_, ?_, ?_, ?_⟩
  · intro address pairID h
    simp only [List.mem_cons, List.mem_singleton, List.not_mem_nil, or_false, not_or] at h
    simp [blacklist, CallArgs.param, unknownOperation, h]
  · intro txid pairID bind h
    simp only [List.mem_cons, List.mem_singleton, List.not_mem_nil, or_false, not_or] at h
    simp [bigvalue, CallArgs.param, unknownOperation, passSwapinOp, passSwapoutOp, h]
  · intro direction pairIDs h
    simp only [List.mem_cons, List.mem_singleton, List.not_mem_nil, or_false, not_or] at h
    simp [maintain, CallArgs.param, unknownOperation, h]
  · intro direction pairIDs hop h
    simp only [List.mem_cons, List.mem_singleton, List.not_mem_nil, or_false, not_or] at h hop
    rcases hop with hop | hop <;> subst hop <;>
      simp [maintain, maintainDirection, CallArgs.param, unknownDirection, h]
  · intro txid pairID bind h
    simp only [List.mem_cons, List.mem_singleton, List.not_mem_nil, or_false, not_or] at h
    constructor <;>
      simp [reverify, getOpTxAndPairID, CallArgs.param, unknownOperation, swapinOp, swapoutOp,
        forceFlag, h]
  · intro txid pairID bind h
    simp only [List.mem_cons, List.mem_singleton, List.not_mem_nil, or_false, not_or] at h
    constructor <;>
      simp [reswap, getOpTxAndPairID, CallArgs.param, unknownOperation, swapinOp, swapoutOp,
        forceFlag, h]
  · intro txid pairID bind gasPrice h
    simp only [List.mem_cons, List.mem_singleton, List.not_mem_nil, or_false, not_or] at h
    simp [replaceswap, CallArgs.param, unknownOperation, swapinOp, swapoutOp, h]
  · intro txid pairID bind memo h
    simp only [List.mem_cons, List.mem_singleton, List.not_mem_nil, or_false, not_or] at h
    constructor <;>
      simp [manual, CallArgs.param, unknownOperation, passSwapinOp, passSwapoutOp,
        failSwapinOp, failSwapoutOp, h]
  · intro nonceStr nonce pairID hn h
    simp only [List.mem_cons, List.mem_singleton, List.not_mem_nil, or_false, not_or] at h
    simp [setnonce, CallArgs.param, unknownOperation, swapinOp, swapoutOp, hn, h]

/-- Witness of C7: `bigvalue` does not accept the token `pass-swapin`. -/
theorem handlers_unknown_operation_witness :
    bigvalue (sampleExternal "0xabcd" ⟨"", []⟩)
      ⟨"bigvalue", ["pass-swapin", "0xaa", "btc", "0xcc"]⟩ (sampleWorld ["0xAbCd"]) =
      (some "unknown operation 'pass-swapin'", sampleWorld ["0xAbCd"]) :=
  (handlers_unknown_operation (sampleExternal "0xabcd" ⟨"", []⟩) "bigvalue" "pass-swapin"
    (sampleWorld ["0xAbCd"])).2.1 "0xaa" "btc" "0xcc" (by decide)

/-! ### The maintain command -/

theorem getTokenPairConfig_store (tbl : PairTable) (k : String) (new : TokenPairConfig)
    (pairID : String) :
    GetTokenPairConfig (storeTokenPairConfig tbl k new) pairID =
      if pairID = k then (GetTokenPairConfig tbl k).map (fun _ => new)
      else GetTokenPairConfig tbl pairID := by
  induction tbl with
  | nil => simp [storeTokenPairConfig, GetTokenPairConfig]
  | cons entry rest ih =>
    obtain ⟨k0, c0⟩ := entry
    by_cases hk : k0 = k
    · subst hk
      by_cases hid : pairID = k0
      · subst hid
        simp [storeTokenPairConfig, GetTokenPairConfig]
      · have hid' : ¬ k0 = pairID := fun h => hid h.symm
        simp [storeTokenPairConfig, GetTokenPairConfig, hid, hid']
    · by_cases hid : k0 = pairID
      · subst hid
        simp [storeTokenPairConfig, GetTokenPairConfig, hk]
      · simp [storeTokenPairConfig, GetTokenPairConfig, hk, hid, ih]

theorem getAllPairIDs_store (tbl : PairTable) (k : String) (new : TokenPairConfig) :
    GetAllPairIDs (storeTokenPairConfig tbl k new) = GetAllPairIDs tbl := by
  induction tbl with
  | nil => rfl
  | cons entry rest ih =>
    obtain ⟨k0, c0⟩ := entry
    by_cases hk : k0 = k
    · simp [storeTokenPairConfig, GetAllPairIDs, hk]
    · simp only [GetAllPairIDs] at ih
      simp [storeTokenPairConfig, GetAllPairIDs, hk, ih]

theorem setDisableSwap_idem (f d wd : Bool) (c : TokenPairConfig) :
    setDisableSwap f d wd (setDisableSwap f d wd c) = setDisableSwap f d wd c := by
  cases d <;> cases wd <;> simp [setDisableSwap]

theorem spacedIDs_eq_empty (ids : List String) : spacedIDs ids = "" ↔ ids = [] := by
  cases ids with
  | nil => simp [spacedIDs]
  | cons a rest =>
    simp only [spacedIDs, reduceCtorEq, iff_false]
    intro h
    have h2 := congrArg String.data h
    simp at h2

theorem maintainLoop_spec (f d wd : Bool) :
    ∀ (ids : List String) (tbl : PairTable) (s fl : String),
      (∀ pairID, GetTokenPairConfig (maintainLoop f d wd ids tbl s fl).1 pairID =
        if pairID ∈ ids then (GetTokenPairConfig tbl pairID).map (setDisableSwap f d wd)
        else GetTokenPairConfig tbl pairID) ∧
      (maintainLoop f d wd ids tbl s fl).2.1 = s ++ spacedIDs (knownIDs tbl ids) ∧
      (maintainLoop f d wd ids tbl s fl).2.2 = fl ++ spacedIDs (unknownIDs tbl ids) ∧
      GetAllPairIDs (maintainLoop f d wd ids tbl s fl).1 = GetAllPairIDs tbl := by
  intro ids
  induction ids with
  | nil =>
    intro tbl s fl
    simp [maintainLoop, knownIDs, unknownIDs, spacedIDs]
  | cons id0 rest ih =>
    intro tbl s fl
    cases h0 : GetTokenPairConfig tbl id0 with
    | none =>
      obtain ⟨ha, hb, hc, hd⟩ := ih tbl s (fl ++ (" " ++ id0))
      simp only [maintainLoop, h0]
      refine ⟨?_, ?_, ?_, hd⟩
      · intro pairID
        rw [ha pairID]
        by_cases hp : pairID = id0
        · subst hp
          simp [h0]
        · simp [hp]
      · rw [hb]
        simp [knownIDs, List.filter_cons, h0]
      · rw [hc]
        simp [unknownIDs, List.filter_cons, h0, spacedIDs, String.append_assoc]
    | some c =>
      obtain ⟨ha, hb, hc, hd⟩ := ih (storeTokenPairConfig tbl id0 (setDisableSwap f d wd c))
        (s ++ (" " ++ id0)) fl
      have hsome : ∀ pairID,
          (GetTokenPairConfig (storeTokenPairConfig tbl id0 (setDisableSwap f d wd c))
            pairID).isSome = (GetTokenPairConfig tbl pairID).isSome := by
        intro pairID
        rw [getTokenPairConfig_store]
        by_cases hp : pairID = id0
        · subst hp
          simp [h0]
        · simp [hp]
      have hnone : ∀ pairID,
          (GetTokenPairConfig (storeTokenPairConfig tbl id0 (setDisableSwap f d wd c))
            pairID).isNone = (GetTokenPairConfig tbl pairID).isNone := by
        intro pairID
        have := hsome pairID
        cases h1 : GetTokenPairConfig (storeTokenPairConfig tbl id0
          (setDisableSwap f d wd c)) pairID <;>
          cases h2 : GetTokenPairConfig tbl pairID <;> simp_all
      simp only [maintainLoop, h0]
      refine ⟨?_, ?_, ?_, ?_⟩
      · intro pairID
        rw [ha pairID, getTokenPairConfig_store]
        by_cases hp : pairID = id0
        · subst hp
          simp [h0, setDisableSwap_idem]
        · simp [hp]
      · rw [hb]
        simp [knownIDs, List.filter_cons, h0, hsome, spacedIDs, String.append_assoc]
      · rw [hc]
        simp [unknownIDs, List.filter_cons, h0, hnone]
      · rw [hd, getAllPairIDs_store]

theorem maintainRun_spec (E : External σ β τ) (f d wd : Bool) (pairIDs : String)
    (w : World σ β) :
    (maintainRun E f d wd pairIDs w).1 = none ∧
    (∀ pairID, GetTokenPairConfig (maintainRun E f d wd pairIDs w).2.tokenPairsConfig pairID =
      if pairID ∈ pairIDSlice E pairIDs w then
        (GetTokenPairConfig w.tokenPairsConfig pairID).map (setDisableSwap f d wd)
      else GetTokenPairConfig w.tokenPairsConfig pairID) ∧
    (unknownIDs w.tokenPairsConfig (pairIDSlice E pairIDs w) = [] →
      (maintainRun E f d wd pairIDs w).2.result =
        "success: " ++ spacedIDs (knownIDs w.tokenPairsConfig (pairIDSlice E pairIDs w))) ∧
    (unknownIDs w.tokenPairsConfig (pairIDSlice E pairIDs w) ≠ [] →
      (maintainRun E f d wd pairIDs w).2.result =
        "success: " ++ spacedIDs (knownIDs w.tokenPairsConfig (pairIDSlice E pairIDs w)) ++
          ", failed: " ++ spacedIDs (unknownIDs w.tokenPairsConfig (pairIDSlice E pairIDs w))) ∧
    (maintainRun E f d wd pairIDs w).2 =
      { w with tokenPairsConfig := (maintainRun E f d wd pairIDs w).2.tokenPairsConfig,
               result := (maintainRun E f d wd pairIDs w).2.result } ∧
    GetAllPairIDs (maintainRun E f d wd pairIDs w).2.tokenPairsConfig =
      GetAllPairIDs w.tokenPairsConfig := by
  obtain ⟨ha, hb, hc, hd⟩ :=
    maintainLoop_spec f d wd (pairIDSlice E pairIDs w) w.tokenPairsConfig "" ""
  rw [String.empty_append] at hb hc
  refine ⟨rfl, ?_, ?_, ?_, rfl, ?_⟩
  · intro pairID
    simp only [maintainRun]
    exact ha pairID
  · intro hu
    simp only [maintainRun]
    rw [hc, hb, hu]
    simp [spacedIDs]
  · intro hu
    have hne : spacedIDs (unknownIDs w.tokenPairsConfig (pairIDSlice E pairIDs w)) ≠ "" :=
      fun h => hu ((spacedIDs_eq_empty _).1 h)
    simp only [maintainRun]
    rw [hc, hb, if_pos hne, String.append_assoc, String.append_assoc, String.append_assoc]
  · simp only [maintainRun]
    exact hd

theorem maintain_eq_maintainRun (E : External σ β τ) (method op direction pairIDs : String)
    (w : World σ β) (hop : op = "open" ∨ op = "close")
    (hdir : direction = "deposit" ∨ direction = "withdraw" ∨ direction = "both") :
    ∃ f d wd : Bool,
      maintain E ⟨method, [op, direction, pairIDs]⟩ w = maintainRun E f d wd pairIDs w ∧
      f = decide (op = "close") ∧
      d = decide (direction = "deposit" ∨ direction = "both") ∧
      wd = decide (direction = "withdraw" ∨ direction = "both") := by
  rcases hop with hop | hop <;> rcases hdir with hdir | hdir | hdir <;> subst hop hdir
  · exact ⟨false, true, false, by simp [maintain, maintainDirection, CallArgs.param],
      by decide, by decide, by decide⟩
  · exact ⟨false, false, true, by simp [maintain, maintainDirection, CallArgs.param],
      by decide, by decide, by decide⟩
  · exact ⟨false, true, true, by simp [maintain, maintainDirection, CallArgs.param],
      by decide, by decide, by decide⟩
  · exact ⟨true, true, false, by simp [maintain, maintainDirection, CallArgs.param],
      by decide, by decide, by decide⟩
  · exact ⟨true, false, true, by simp [maintain, maintainDirection, CallArgs.param],
      by decide, by decide, by decide⟩
  · exact ⟨true, true, true, by simp [maintain, maintainDirection, CallArgs.param],
      by decide, by decide, by decide⟩

theorem maintain_on_slice (E : External σ β τ) (method op direction pairIDs : String)
    (w : World σ β) (hop : op = "open" ∨ op = "close")
    (hdir : direction = "deposit" ∨ direction = "withdraw" ∨ direction = "both") :
    (maintain E ⟨method, [op, direction, pairIDs]⟩ w).1 = none ∧
    (∀ pairID ∈ pairIDSlice E pairIDs w, ∀ cfg,
      GetTokenPairConfig w.tokenPairsConfig pairID = some cfg →
      GetTokenPairConfig
          (maintain E ⟨method, [op, direction, pairIDs]⟩ w).2.tokenPairsConfig pairID =
        some { cfg with
          SrcToken := { cfg.SrcToken with
            DisableSwap := if direction = "deposit" ∨ direction = "both"
              then decide (op = "close") else cfg.SrcToken.DisableSwap }
          DestToken := { cfg.DestToken with
            DisableSwap := if direction = "withdraw" ∨ direction = "both"
              then decide (op = "close") else cfg.DestToken.DisableSwap } }) ∧
    (∀ pairID, pairID ∉ pairIDSlice E pairIDs w →
      GetTokenPairConfig
          (maintain E ⟨method, [op, direction, pairIDs]⟩ w).2.tokenPairsConfig pairID =
        GetTokenPairConfig w.tokenPairsConfig pairID) ∧
    (unknownIDs w.tokenPairsConfig (pairIDSlice E pairIDs w) = [] →
      (maintain E ⟨method, [op, direction, pairIDs]⟩ w).2.result =
        "success: " ++ spacedIDs (knownIDs w.tokenPairsConfig (pairIDSlice E pairIDs w))) ∧
    (unknownIDs w.tokenPairsConfig (pairIDSlice E pairIDs w) ≠ [] →
      (maintain E ⟨method, [op, direction, pairIDs]⟩ w).2.result =
        "success: " ++ spacedIDs (knownIDs w.tokenPairsConfig (pairIDSlice E pairIDs w)) ++
          ", failed: " ++ spacedIDs (unknownIDs w.tokenPairsConfig (pairIDSlice E pairIDs w))) ∧
    (maintain E ⟨method, [op, direction, pairIDs]⟩ w).2 =
      { w with
        tokenPairsConfig :=
          (maintain E ⟨method, [op, direction, pairIDs]⟩ w).2.tokenPairsConfig
        result := (maintain E ⟨method, [op, direction, pairIDs]⟩ w).2.result } := by
  obtain ⟨f, d, wd, hrun, hf, hd, hwd⟩ := maintain_eq_maintainRun E method op direction pairIDs w
    hop hdir
  obtain ⟨h1, h2, h3, h4, h5, _⟩ := maintainRun_spec E f d wd pairIDs w
  rw [hrun]
  refine ⟨h1, ?_, ?_, h3, h4, h5⟩
  · intro pairID hmem cfg hcfg
    rw [h2 pairID, if_pos hmem, hcfg]
    subst hf hd hwd
    by_cases hD : direction = "deposit" ∨ direction = "both" <;>
      by_cases hW : direction = "withdraw" ∨ direction = "both" <;>
        simp [setDisableSwap, hD, hW]
  · intro pairID hmem
    rw [h2 pairID, if_neg hmem]

theorem maintainRun_preserves (E : External σ β τ) (f d wd : Bool) (pairIDs : String)
    (w : World σ β) :
    (∀ p, pairIDSlice E p (maintainRun E f d wd pairIDs w).2 = pairIDSlice E p w) ∧
    (∀ ids, knownIDs (maintainRun E f d wd pairIDs w).2.tokenPairsConfig ids =
      knownIDs w.tokenPairsConfig ids) ∧
    (∀ ids, unknownIDs (maintainRun E f d wd pairIDs w).2.tokenPairsConfig ids =
      unknownIDs w.tokenPairsConfig ids) := by
  obtain ⟨_, h2, _, _, _, h6⟩ := maintainRun_spec E f d wd pairIDs w
  have hsome : ∀ pairID,
      (GetTokenPairConfig (maintainRun E f d wd pairIDs w).2.tokenPairsConfig pairID).isSome =
        (GetTokenPairConfig w.tokenPairsConfig pairID).isSome := by
    intro pairID
    rw [h2 pairID]
    by_cases hm : pairID ∈ pairIDSlice E pairIDs w
    · rw [if_pos hm]
      cases GetTokenPairConfig w.tokenPairsConfig pairID <;> rfl
    · rw [if_neg hm]
  have hnone : ∀ pairID,
      (GetTokenPairConfig (maintainRun E f d wd pairIDs w).2.tokenPairsConfig pairID).isNone =
        (GetTokenPairConfig w.tokenPairsConfig pairID).isNone := by
    intro pairID
    rw [h2 pairID]
    by_cases hm : pairID ∈ pairIDSlice E pairIDs w
    · rw [if_pos hm]
      cases GetTokenPairConfig w.tokenPairsConfig pairID <;> rfl
    · rw [if_neg hm]
  refine ⟨?_, ?_, ?_⟩
  · intro p
    simp only [pairIDSlice, h6]
  · intro ids
    unfold knownIDs
    exact List.filter_congr (fun pairID _ => hsome pairID)
  · intro ids
    unfold unknownIDs
    exact List.filter_congr (fun pairID _ => hnone pairID)

theorem maintain_twice_on_slice (E : External σ β τ) (m1 m2 pairIDs : String)
    (w : World σ β) :
    (maintain E ⟨m1, ["open", "both", pairIDs]⟩ w).1 = none ∧
    (maintain E ⟨m2, ["close", "both", pairIDs]⟩
      (maintain E ⟨m1, ["open", "both", pairIDs]⟩ w).2).1 = none ∧
    (∀ pairID ∈ pairIDSlice E pairIDs w, ∀ cfg,
      GetTokenPairConfig w.tokenPairsConfig pairID = some cfg →
      GetTokenPairConfig (maintain E ⟨m2, ["close", "both", pairIDs]⟩
          (maintain E ⟨m1, ["open", "both", pairIDs]⟩ w).2).2.tokenPairsConfig pairID =
        some (setDisableSwap true true true (setDisableSwap false true true cfg))) ∧
    (∀ pairID ∈ pairIDSlice E pairIDs w,
      GetTokenPairConfig w.tokenPairsConfig pairID = none →
      pairID ∈ unknownIDs w.tokenPairsConfig (pairIDSlice E pairIDs w) ∧
        (maintain E ⟨m1, ["open", "both", pairIDs]⟩ w).2.result =
          "success: " ++ spacedIDs (knownIDs w.tokenPairsConfig (pairIDSlice E pairIDs w)) ++
            ", failed: " ++
            spacedIDs (unknownIDs w.tokenPairsConfig (pairIDSlice E pairIDs w)) ∧
        (maintain E ⟨m2, ["close", "both", pairIDs]⟩
          (maintain E ⟨m1, ["open", "both", pairIDs]⟩ w).2).2.result =
          "success: " ++ spacedIDs (knownIDs w.tokenPairsConfig (pairIDSlice E pairIDs w)) ++
            ", failed: " ++
            spacedIDs (unknownIDs w.tokenPairsConfig (pairIDSlice E pairIDs w))) := by
  have hrun1 : maintain E ⟨m1, ["open", "both", pairIDs]⟩ w =
      maintainRun E false true true pairIDs w := by
    simp [maintain, maintainDirection, CallArgs.param]
  have hrun2 : ∀ w1 : World σ β, maintain E ⟨m2, ["close", "both", pairIDs]⟩ w1 =
      maintainRun E true true true pairIDs w1 := by
    intro w1
    simp [maintain, maintainDirection, CallArgs.param]
  rw [hrun1, hrun2]
  obtain ⟨a1, a2, _, a4, _, _⟩ := maintainRun_spec E false true true pairIDs w
  obtain ⟨b1, b2, _, b4, _, _⟩ :=
    maintainRun_spec E true true true pairIDs (maintainRun E false true true pairIDs w).2
  obtain ⟨p1, p2, p3⟩ := maintainRun_preserves E false true true pairIDs w
  rw [p1, p2, p3] at b4
  rw [p1] at b2
  refine ⟨a1, b1, ?_, ?_⟩
  · intro pairID hmem cfg hcfg
    rw [b2 pairID, if_pos hmem, a2 pairID, if_pos hmem, hcfg]
    rfl
  · intro pairID hmem hnone
    have hin : pairID ∈ unknownIDs w.tokenPairsConfig (pairIDSlice E pairIDs w) := by
      simp [unknownIDs, List.mem_filter, hmem, hnone]
    have hne : unknownIDs w.tokenPairsConfig (pairIDSlice E pairIDs w) ≠ [] :=
      List.ne_nil_of_mem hin
    exact ⟨hin, a4 hne, b4 hne⟩

theorem getTokenPairConfig_isSome_of_mem (tbl : PairTable) (pairID : String)
    (h : pairID ∈ GetAllPairIDs tbl) : (GetTokenPairConfig tbl pairID).isSome = true := by
  induction tbl with
  | nil => simp [GetAllPairIDs] at h
  | cons entry rest ih =>
    obtain ⟨k, c⟩ := entry
    by_cases hk : k = pairID
    · simp [GetTokenPairConfig, hk]
    · have hmem : pairID ∈ GetAllPairIDs rest := by
        simp only [GetAllPairIDs, List.map_cons, List.mem_cons] at h
        rcases h with h | h
        · exact absurd h.symm hk
        · exact h
      simp only [GetTokenPairConfig, if_neg hk]
      exact ih hmem

theorem mem_getAllPairIDs_of_some (tbl : PairTable) (pairID : String) (cfg : TokenPairConfig)
    (h : GetTokenPairConfig tbl pairID = some cfg) : pairID ∈ GetAllPairIDs tbl := by
  induction tbl with
  | nil => simp [GetTokenPairConfig] at h
  | cons entry rest ih =>
    obtain ⟨k, c⟩ := entry
    by_cases hk : k = pairID
    · simp [GetAllPairIDs, hk]
    · simp only [GetTokenPairConfig, if_neg hk] at h
      have := ih h
      simp only [GetAllPairIDs, List.map_cons, List.mem_cons] at this ⊢
      exact Or.inr this

theorem knownIDs_getAllPairIDs (tbl : PairTable) :
    knownIDs tbl (GetAllPairIDs tbl) = GetAllPairIDs tbl ∧
    unknownIDs tbl (GetAllPairIDs tbl) = [] := by
  refine ⟨?_, ?_⟩
  · unfold knownIDs
    rw [List.filter_eq_self]
    exact fun pairID h => getTokenPairConfig_isSome_of_mem tbl pairID h
  · unfold unknownIDs
    rw [List.filter_eq_nil_iff]
    intro pairID h
    have := getTokenPairConfig_isSome_of_mem tbl pairID h
    cases hc : GetTokenPairConfig tbl pairID with
    | none => rw [hc] at this; cases this
    | some c => simp

theorem pairIDSlice_all (E : External σ β τ) (pairIDs : String) (w : World σ β)
    (h : EqualFold E.simpleFold pairIDs "all" = true) :
    pairIDSlice E pairIDs w = GetAllPairIDs w.tokenPairsConfig := by
  simp [pairIDSlice, h]

theorem pairIDSlice_list (E : External σ β τ) (pairIDs : String) (w : World σ β)
    (h : EqualFold E.simpleFold pairIDs "all" = false) :
    pairIDSlice E pairIDs w = Split pairIDs := by
  simp [pairIDSlice, h]

theorem equalFold_all_of_lowerCased (fold : Char → Char)
    (hfold : ∀ c : Char, fold c.toUpper = fold c ∧ fold c.toLower = fold c)
    (pairIDs : String) (h : lowerCased pairIDs = "all") :
    EqualFold fold pairIDs "all" = true := by
  rw [← equalFold_lowerCased fold (fun c => (hfold c).2) pairIDs "all", h]
  simp [EqualFold]

theorem splitComma_ne_nil (cs : List Char) : splitComma cs ≠ [] := by
  cases cs with
  | nil => simp [splitComma]
  | cons c rest =>
    simp only [splitComma]
    split_ifs
    · simp
    · cases splitComma rest <;> simp

theorem joinComma_splitComma (cs : List Char) : joinComma (splitComma cs) = cs := by
  induction cs with
  | nil => rfl
  | cons c rest ih =>
    by_cases hc : c = ','
    · subst hc
      cases hs : splitComma rest with
      | nil => exact absurd hs (splitComma_ne_nil rest)
      | cons piece pieces =>
        rw [hs] at ih
        simp [splitComma, hs, joinComma, ih]
    · cases hs : splitComma rest with
      | nil => exact absurd hs (splitComma_ne_nil rest)
      | cons piece pieces =>
        rw [hs] at ih
        cases pieces with
        | nil =>
          simp only [joinComma] at ih
          simp [splitComma, hc, hs, joinComma, ih]
        | cons next more =>
          simp only [joinComma] at ih
          simp [splitComma, hc, hs, joinComma, ih]

theorem splitComma_no_comma (cs : List Char) : ∀ piece ∈ splitComma cs, ',' ∉ piece := by
  induction cs with
  | nil => simp [splitComma]
  | cons c rest ih =>
    by_cases hc : c = ','
    · subst hc
      intro piece hp
      simp only [splitComma, if_true, List.mem_cons] at hp
      rcases hp with hp | hp
      · subst hp
        simp
      · exact ih piece hp
    · cases hs : splitComma rest with
      | nil => exact absurd hs (splitComma_ne_nil rest)
      | cons first pieces =>
        rw [hs] at ih
        intro piece hp
        simp only [splitComma, if_neg hc, hs, List.mem_cons] at hp
        rcases hp with hp | hp
        · subst hp
          have h1 := ih first (List.mem_cons_self _ _)
          simp only [List.mem_cons, not_or]
          exact ⟨fun h => hc h.symm, h1⟩
        · exact ih piece (List.mem_cons_of_mem _ hp)

theorem split_spec (pairIDs : String) :
    joinComma ((Split pairIDs).map String.toList) = pairIDs.toList ∧
    ∀ piece ∈ Split pairIDs, ',' ∉ piece.toList := by
  refine ⟨?_, ?_⟩
  · have : (Split pairIDs).map String.toList = splitComma pairIDs.toList := by
      simp only [Split, List.map_map]
      exact (List.map_congr_left (fun a _ => rfl)).trans (List.map_id _)
    rw [this, joinComma_splitComma]
  · intro piece hp
    simp only [Split, List.mem_map] at hp
    obtain ⟨cs, hcs, rfl⟩ := hp
    exact splitComma_no_comma pairIDs.toList cs hcs

/-- C8: a maintain call with operation `open` or `close` and direction
`deposit`, `withdraw` or `both` returns no error and changes nothing but the
pair table and the result string. The pair-id parameter is the word `all`
in any letter case, and then names every configured pair, or else a list
whose ids are its pieces between the commas. Every named pair that exists
gets its source-token `DisableSwap` (direction deposit or both) and its
destination-token `DisableSwap` (direction withdraw or both) set to
`op = close`, nothing else of the pair changing; pairs that are not named
are unchanged. The result is `success: ` followed by the existing named ids
in input order, followed by `, failed: ` and the unknown named ids in input
order exactly when some named id is unknown (each id is preceded by a
space). -/
theorem maintain_sets_flags (E : External σ β τ) (method op direction pairIDs : String)
    (w : World σ β) (hop : op = "open" ∨ op = "close")
    (hdir : direction = "deposit" ∨ direction = "withdraw" ∨ direction = "both") :
    (maintain E ⟨method, [op, direction, pairIDs]⟩ w).1 = none ∧
    (maintain E ⟨method, [op, direction, pairIDs]⟩ w).2 =
      { w with
        tokenPairsConfig :=
          (maintain E ⟨method, [op, direction, pairIDs]⟩ w).2.tokenPairsConfig
        result := (maintain E ⟨method, [op, direction, pairIDs]⟩ w).2.result } ∧
    ((∀ c : Char, E.simpleFold c.toUpper = E.simpleFold c ∧
        E.simpleFold c.toLower = E.simpleFold c) →
      lowerCased pairIDs = "all" → EqualFold E.simpleFold pairIDs "all" = true) ∧
    (EqualFold E.simpleFold pairIDs "all" = true →
      (∀ pairID cfg, GetTokenPairConfig w.tokenPairsConfig pairID = some cfg →
        GetTokenPairConfig
            (maintain E ⟨method, [op, direction, pairIDs]⟩ w).2.tokenPairsConfig pairID =
          some { cfg with
            SrcToken := { cfg.SrcToken with
              DisableSwap := if direction = "deposit" ∨ direction = "both"
                then decide (op = "close") else cfg.SrcToken.DisableSwap }
            DestToken := { cfg.DestToken with
              DisableSwap := if direction = "withdraw" ∨ direction = "both"
                then decide (op = "close") else cfg.DestToken.DisableSwap } }) ∧
      (∀ pairID, GetTokenPairConfig w.tokenPairsConfig pairID = none →
        GetTokenPairConfig
            (maintain E ⟨method, [op, direction, pairIDs]⟩ w).2.tokenPairsConfig pairID =
          none) ∧
      (maintain E ⟨method, [op, direction, pairIDs]⟩ w).2.result =
        "success: " ++ spacedIDs (w.tokenPairsConfig.map Prod.fst)) ∧
    (joinComma ((Split pairIDs).map String.toList) = pairIDs.toList ∧
      ∀ piece ∈ Split pairIDs, ',' ∉ piece.toList) ∧
    (EqualFold E.simpleFold pairIDs "all" = false →
      (∀ pairID ∈ Split pairIDs, ∀ cfg,
        GetTokenPairConfig w.tokenPairsConfig pairID = some cfg →
        GetTokenPairConfig
            (maintain E ⟨method, [op, direction, pairIDs]⟩ w).2.tokenPairsConfig pairID =
          some { cfg with
            SrcToken := { cfg.SrcToken with
              DisableSwap := if direction = "deposit" ∨ direction = "both"
                then decide (op = "close") else cfg.SrcToken.DisableSwap }
            DestToken := { cfg.DestToken with
              DisableSwap := if direction = "withdraw" ∨ direction = "both"
                then decide (op = "close") else cfg.DestToken.DisableSwap } }) ∧
      (∀ pairID, pairID ∉ Split pairIDs →
        GetTokenPairConfig
            (maintain E ⟨method, [op, direction, pairIDs]⟩ w).2.tokenPairsConfig pairID =
          GetTokenPairConfig w.tokenPairsConfig pairID) ∧
      (unknownIDs w.tokenPairsConfig (Split pairIDs) = [] →
        (maintain E ⟨method, [op, direction, pairIDs]⟩ w).2.result =
          "success: " ++ spacedIDs (knownIDs w.tokenPairsConfig (Split pairIDs))) ∧
      (unknownIDs w.tokenPairsConfig (Split pairIDs) ≠ [] →
        (maintain E ⟨method, [op, direction, pairIDs]⟩ w).2.result =
          "success: " ++ spacedIDs (knownIDs w.tokenPairsConfig (Split pairIDs)) ++
            ", failed: " ++ spacedIDs (unknownIDs w.tokenPairsConfig (Split pairIDs)))) := by
  obtain ⟨h1, h2, h3, h4, h5, h6⟩ := maintain_on_slice E method op direction pairIDs w hop hdir
  refine ⟨h1, h6, ?_, ?_, split_spec pairIDs, ?_⟩
  · intro hfold hall
    exact equalFold_all_of_lowerCased E.simpleFold hfold pairIDs hall
  · intro hT
    rw [pairIDSlice_all E pairIDs w hT] at h2 h3 h4
    obtain ⟨hk, hu⟩ := knownIDs_getAllPairIDs w.tokenPairsConfig
    refine ⟨?_, ?_, ?_⟩
    · intro pairID cfg hcfg
      exact h2 pairID (mem_getAllPairIDs_of_some _ _ _ hcfg) cfg hcfg
    · intro pairID hnone
      have hnot : pairID ∉ GetAllPairIDs w.tokenPairsConfig := by
        intro hmem
        have := getTokenPairConfig_isSome_of_mem _ _ hmem
        rw [hnone] at this
        cases this
      rw [h3 pairID hnot, hnone]
    · rw [h4 hu, hk]
      rfl
  · intro hF
    rw [pairIDSlice_list E pairIDs w hF] at h2 h3 h4 h5
    exact ⟨h2, h3, h4, h5⟩

/-- Witness of C8: on the sample table, closing deposits of `btc,xrp`, where
`xrp` is not configured, reports both lists; closing deposits of `ALL` sets
the source flag of the pair `btc` and reports every configured pair. -/
theorem maintain_sets_flags_witness :
    (maintain (sampleExternal "0xabcd" ⟨"", []⟩) ⟨"maintain", ["close", "deposit", "btc,xrp"]⟩
      (sampleWorld ["0xAbCd"])).2.result = "success:  btc, failed:  xrp" ∧
    GetTokenPairConfig
      (maintain (sampleExternal "0xabcd" ⟨"", []⟩) ⟨"maintain", ["close", "deposit", "ALL"]⟩
        (sampleWorld ["0xAbCd"])).2.tokenPairsConfig "btc" =
      some { PairID := "btc", SrcToken := sampleToken "" true,
             DestToken := sampleToken "0xb1" true } ∧
    (maintain (sampleExternal "0xabcd" ⟨"", []⟩) ⟨"maintain", ["close", "deposit", "ALL"]⟩
      (sampleWorld ["0xAbCd"])).2.result = "success:  btc ltc" :=
  ⟨(((maintain_sets_flags (sampleExternal "0xabcd" ⟨"", []⟩) "maintain" "close" "deposit"
      "btc,xrp" (sampleWorld ["0xAbCd"]) (Or.inr rfl) (Or.inl rfl)).2.2.2.2.2
        (by decide)).2.2.2 (by decide)).trans (by decide),
    ((((maintain_sets_flags (sampleExternal "0xabcd" ⟨"", []⟩) "maintain" "close" "deposit"
      "ALL" (sampleWorld ["0xAbCd"]) (Or.inr rfl) (Or.inl rfl)).2.2.2.1
        ((maintain_sets_flags (sampleExternal "0xabcd" ⟨"", []⟩) "maintain" "close" "deposit"
          "ALL" (sampleWorld ["0xAbCd"]) (Or.inr rfl) (Or.inl rfl)).2.2.1 asciiFold_cases
            (by decide))).1 "btc"
        { PairID := "btc", SrcToken := sampleToken "" false,
          DestToken := sampleToken "0xb1" true } (by decide)).trans (by decide)),
    (((maintain_sets_flags (sampleExternal "0xabcd" ⟨"", []⟩) "maintain" "close" "deposit"
      "ALL" (sampleWorld ["0xAbCd"]) (Or.inr rfl) (Or.inl rfl)).2.2.2.1
        (by decide)).2.2).trans (by decide)⟩

/-- C9: for every pair table and every pair-id parameter `p`, that is the
word `all` in any letter case, naming every configured pair, or a comma
separated list, also one that holds unknown ids: `maintain open both p`
followed by `maintain close both p` returns no error twice, leaves
`DisableSwap = true` on the source and on the destination token of every
existing pair named by `p`, nothing else of the pair changing, and reports
every unknown id of `p` in the failed part of both results. -/
theorem maintain_open_then_close (E : External σ β τ) (m1 m2 pairIDs : String)
    (w : World σ β) :
    (maintain E ⟨m1, ["open", "both", pairIDs]⟩ w).1 = none ∧
    (maintain E ⟨m2, ["close", "both", pairIDs]⟩
      (maintain E ⟨m1, ["open", "both", pairIDs]⟩ w).2).1 = none ∧
    ((∀ c : Char, E.simpleFold c.toUpper = E.simpleFold c ∧
        E.simpleFold c.toLower = E.simpleFold c) →
      lowerCased pairIDs = "all" → EqualFold E.simpleFold pairIDs "all" = true) ∧
    (EqualFold E.simpleFold pairIDs "all" = true →
      ∀ pairID cfg, GetTokenPairConfig w.tokenPairsConfig pairID = some cfg →
        GetTokenPairConfig (maintain E ⟨m2, ["close", "both", pairIDs]⟩
            (maintain E ⟨m1, ["open", "both", pairIDs]⟩ w).2).2.tokenPairsConfig pairID =
          some { cfg with
            SrcToken := { cfg.SrcToken with DisableSwap := true }
            DestToken := { cfg.DestToken with DisableSwap := true } }) ∧
    (EqualFold E.simpleFold pairIDs "all" = false →
      (∀ pairID ∈ Split pairIDs, ∀ cfg,
        GetTokenPairConfig w.tokenPairsConfig pairID = some cfg →
        GetTokenPairConfig (maintain E ⟨m2, ["close", "both", pairIDs]⟩
            (maintain E ⟨m1, ["open", "both", pairIDs]⟩ w).2).2.tokenPairsConfig pairID =
          some { cfg with
            SrcToken := { cfg.SrcToken with DisableSwap := true }
            DestToken := { cfg.DestToken with DisableSwap := true } }) ∧
      (∀ pairID ∈ Split pairIDs,
        GetTokenPairConfig w.tokenPairsConfig pairID = none →
        pairID ∈ unknownIDs w.tokenPairsConfig (Split pairIDs) ∧
        (maintain E ⟨m1, ["open", "both", pairIDs]⟩ w).2.result =
          "success: " ++ spacedIDs (knownIDs w.tokenPairsConfig (Split pairIDs)) ++
            ", failed: " ++ spacedIDs (unknownIDs w.tokenPairsConfig (Split pairIDs)) ∧
        (maintain E ⟨m2, ["close", "both", pairIDs]⟩
          (maintain E ⟨m1, ["open", "both", pairIDs]⟩ w).2).2.result =
          "success: " ++ spacedIDs (knownIDs w.tokenPairsConfig (Split pairIDs)) ++
            ", failed: " ++ spacedIDs (unknownIDs w.tokenPairsConfig (Split pairIDs)))) := by
  obtain ⟨h1, h2, h3, h4⟩ := maintain_twice_on_slice E m1 m2 pairIDs w
  have hflags : ∀ cfg : TokenPairConfig,
      setDisableSwap true true true (setDisableSwap false true true cfg) =
        { cfg with
          SrcToken := { cfg.SrcToken with DisableSwap := true }
          DestToken := { cfg.DestToken with DisableSwap := true } } := by
    intro cfg
    simp [setDisableSwap]
  refine ⟨h1, h2, ?_, ?_, ?_⟩
  · intro hfold hall
    exact equalFold_all_of_lowerCased E.simpleFold hfold pairIDs hall
  · intro hT pairID cfg hcfg
    rw [pairIDSlice_all E pairIDs w hT] at h3
    rw [h3 pairID (mem_getAllPairIDs_of_some _ _ _ hcfg) cfg hcfg, hflags]
  · intro hF
    rw [pairIDSlice_list E pairIDs w hF] at h3 h4
    refine ⟨?_, ?_⟩
    · intro pairID hmem cfg hcfg
      rw [h3 pairID hmem cfg hcfg, hflags]
    · intro pairID hmem hnone
      exact h4 pairID hmem hnone

/-- Witness of C9: on the sample table, opening and then closing `All`
leaves both flags of the pair `ltc` set; opening and then closing
`btc,xrp,ltc` reports `xrp` as failed. -/
theorem maintain_open_then_close_witness :
    GetTokenPairConfig (maintain (sampleExternal "0xabcd" ⟨"", []⟩)
        ⟨"maintain", ["close", "both", "All"]⟩
        (maintain (sampleExternal "0xabcd" ⟨"", []⟩) ⟨"maintain", ["open", "both", "All"]⟩
          (sampleWorld ["0xAbCd"])).2).2.tokenPairsConfig "ltc" =
      some { PairID := "ltc", SrcToken := sampleToken "" true,
             DestToken := sampleToken "0xb2" true } ∧
    (maintain (sampleExternal "0xabcd" ⟨"", []⟩)
        ⟨"maintain", ["close", "both", "btc,xrp,ltc"]⟩
        (maintain (sampleExternal "0xabcd" ⟨"", []⟩)
          ⟨"maintain", ["open", "both", "btc,xrp,ltc"]⟩
          (sampleWorld ["0xAbCd"])).2).2.result = "success:  btc ltc, failed:  xrp" :=
  ⟨((maintain_open_then_close (sampleExternal "0xabcd" ⟨"", []⟩) "maintain" "maintain"
      "All" (sampleWorld ["0xAbCd"])).2.2.2.1
        ((maintain_open_then_close (sampleExternal "0xabcd" ⟨"", []⟩) "maintain" "maintain"
          "All" (sampleWorld ["0xAbCd"])).2.2.1 asciiFold_cases (by decide)) "ltc"
        { PairID := "ltc", SrcToken := sampleToken "" true,
          DestToken := sampleToken "0xb2" false } (by decide)).trans (by decide),
    ((((maintain_open_then_close (sampleExternal "0xabcd" ⟨"", []⟩) "maintain" "maintain"
      "btc,xrp,ltc" (sampleWorld ["0xAbCd"])).2.2.2.2 (by decide)).2 "xrp" (by decide)
        (by decide)).2.2).trans (by decide)⟩

/-! ### The setnonce command -/

/-- C10: a setnonce call with three parameters and a nonce that parses
selects the destination bridge for `swapin` and the source bridge for
`swapout`. If the selected bridge is not a nonce setter the call fails with
`nonce setter not supported`, `SetNonce` is called on neither bridge and the
result string and the state are unchanged. If it is, `SetNonce(pairID, nonce)`
is called exactly once, on the selected bridge only, and the result is
`Success`. -/
theorem setnonce_selected_bridge (E : External σ β τ) (method nonceStr pairID : String)
    (nonce : Nat) (w : World σ β) (hn : E.GetUint64FromStr nonceStr = Except.ok nonce) :
    (w.DstBridge.isNonceSetter = false →
      setnonce E ⟨method, ["swapin", nonceStr, pairID]⟩ w =
        (some "nonce setter not supported", w)) ∧
    (w.DstBridge.isNonceSetter = true →
      setnonce E ⟨method, ["swapin", nonceStr, pairID]⟩ w =
        (none, { w with
          DstBridge := { w.DstBridge with state := E.SetNonce pairID nonce w.DstBridge.state }
          trace := w.trace ++ [Call.SetNonce BridgeSide.Dst pairID nonce]
          result := "Success" })) ∧
    (w.SrcBridge.isNonceSetter = false →
      setnonce E ⟨method, ["swapout", nonceStr, pairID]⟩ w =
        (some "nonce setter not supported", w)) ∧
    (w.SrcBridge.isNonceSetter = true →
      setnonce E ⟨method, ["swapout", nonceStr, pairID]⟩ w =
        (none, { w with
          SrcBridge := { w.SrcBridge with state := E.SetNonce pairID nonce w.SrcBridge.state }
          trace := w.trace ++ [Call.SetNonce BridgeSide.Src pairID nonce]
          result := "Success" })) := by
  refine ⟨?_, ?_, ?_, ?_⟩
  · intro h
    simp [setnonce, setnonceOn, CallArgs.param, hn, swapinOp, World.bridge, h]
  · intro h
    simp [setnonce, setnonceOn, CallArgs.param, hn, swapinOp, World.bridge, h,
      World.setNonceOn, successReuslt]
  · intro h
    simp [setnonce, setnonceOn, CallArgs.param, hn, swapinOp, swapoutOp, World.bridge, h]
  · intro h
    simp [setnonce, setnonceOn, CallArgs.param, hn, swapinOp, swapoutOp, World.bridge, h,
      World.setNonceOn, successReuslt]

/-- Witness of C10: `setnonce swapout 42 btc` on the sample world, whose
source bridge is not a nonce setter, fails and changes nothing. -/
theorem setnonce_selected_bridge_witness :
    (sampleExternal "0xabcd" ⟨"", []⟩).GetUint64FromStr "42" = Except.ok 42 ∧
    (sampleWorld ["0xAbCd"]).SrcBridge.isNonceSetter = false ∧
    setnonce (sampleExternal "0xabcd" ⟨"", []⟩) ⟨"setnonce", ["swapout", "42", "btc"]⟩
      (sampleWorld ["0xAbCd"]) = (some "nonce setter not supported", sampleWorld ["0xAbCd"]) :=
  ⟨rfl, rfl,
    (setnonce_selected_bridge (sampleExternal "0xabcd" ⟨"", []⟩) "setnonce" "42" "btc" 42
      (sampleWorld ["0xAbCd"]) rfl).2.2.1 rfl⟩

/-! ### Projection of pending records -/

/-- C17: for every pending swap record, `ConvertMgoSwapToSwapInfo` returns a
`SwapInfo` with `Confirmations = 0` and the execution-outcome fields
`SwapTx`, `SwapHeight`, `SwapTime`, `SwapValue`, `SwapType`, `SwapNonce` at
their zero value, while the identity, transfer-shape, status, timestamp and
memo fields are those of the record. -/
theorem convertMgoSwap_pending (T : TokensEnv) (ms : MgoSwap) :
    (ConvertMgoSwapToSwapInfo T ms).Confirmations = 0 ∧
    (ConvertMgoSwapToSwapInfo T ms).SwapTx = "" ∧
    (ConvertMgoSwapToSwapInfo T ms).SwapHeight = 0 ∧
    (ConvertMgoSwapToSwapInfo T ms).SwapTime = 0 ∧
    (ConvertMgoSwapToSwapInfo T ms).SwapValue = "" ∧
    (ConvertMgoSwapToSwapInfo T ms).SwapType = 0 ∧
    (ConvertMgoSwapToSwapInfo T ms).SwapNonce = 0 ∧
    (ConvertMgoSwapToSwapInfo T ms).PairID = ms.PairID ∧
    (ConvertMgoSwapToSwapInfo T ms).TxID = ms.TxID ∧
    (ConvertMgoSwapToSwapInfo T ms).TxTo = ms.TxTo ∧
    (ConvertMgoSwapToSwapInfo T ms).Bind = ms.Bind ∧
    (ConvertMgoSwapToSwapInfo T ms).FromChainID = ms.FromChainID ∧
    (ConvertMgoSwapToSwapInfo T ms).ToChainID = ms.ToChainID ∧
    (ConvertMgoSwapToSwapInfo T ms).LogIndex = ms.LogIndex ∧
    (ConvertMgoSwapToSwapInfo T ms).ForNative = ms.ForNative ∧
    (ConvertMgoSwapToSwapInfo T ms).ForUnderlying = ms.ForUnderlying ∧
    (ConvertMgoSwapToSwapInfo T ms).Token = ms.Token ∧
    (ConvertMgoSwapToSwapInfo T ms).Path = ms.Path ∧
    (ConvertMgoSwapToSwapInfo T ms).AmountOutMin = ms.AmountOutMin ∧
    (ConvertMgoSwapToSwapInfo T ms).Status = ms.Status ∧
    (ConvertMgoSwapToSwapInfo T ms).Timestamp = ms.Timestamp ∧
    (ConvertMgoSwapToSwapInfo T ms).Memo = ms.Memo :=
  ⟨rfl, rfl, rfl, rfl, rfl, rfl, rfl, rfl, rfl, rfl, rfl, rfl, rfl, rfl, rfl, rfl, rfl, rfl,
    rfl, rfl, rfl, rfl⟩

theorem statusMsg_of_mem_swaps (T : TokensEnv) (msSlice : List MgoSwap) (si : SwapInfo)
    (h : si ∈ ConvertMgoSwapsToSwapInfos T msSlice) :
    si.StatusMsg = T.StatusString si.Status := by
  simp only [ConvertMgoSwapsToSwapInfos, List.mem_map] at h
  obtain ⟨ms, _, rfl⟩ := h
  rfl

theorem statusMsg_of_mem_results (T : TokensEnv) (mrSlice : List MgoSwapResult)
    (si : SwapInfo) (h : si ∈ ConvertMgoSwapResultsToSwapInfos T mrSlice) :
    si.StatusMsg = T.StatusString si.Status := by
  simp only [ConvertMgoSwapResultsToSwapInfos, List.mem_map] at h
  obtain ⟨mr, _, rfl⟩ := h
  rfl

/-- C18: every `SwapInfo` produced by one of the four projection functions
has `StatusMsg` equal to the string rendering of its `Status`, and `Status`
equal to that of the source record; the batch projections keep the length
and the order of their input. -/
theorem projections_statusMsg (T : TokensEnv) :
    (∀ ms : MgoSwap,
      (ConvertMgoSwapToSwapInfo T ms).StatusMsg =
        T.StatusString (ConvertMgoSwapToSwapInfo T ms).Status ∧
      (ConvertMgoSwapToSwapInfo T ms).Status = ms.Status) ∧
    (∀ mr : MgoSwapResult,
      (ConvertMgoSwapResultToSwapInfo T mr).StatusMsg =
        T.StatusString (ConvertMgoSwapResultToSwapInfo T mr).Status ∧
      (ConvertMgoSwapResultToSwapInfo T mr).Status = mr.Status) ∧
    (∀ msSlice : List MgoSwap,
      (ConvertMgoSwapsToSwapInfos T msSlice).length = msSlice.length ∧
      (∀ si ∈ ConvertMgoSwapsToSwapInfos T msSlice, si.StatusMsg = T.StatusString si.Status) ∧
      (∀ k : Nat, (ConvertMgoSwapsToSwapInfos T msSlice)[k]? =
        (msSlice[k]?).map (ConvertMgoSwapToSwapInfo T))) ∧
    (∀ mrSlice : List MgoSwapResult,
      (ConvertMgoSwapResultsToSwapInfos T mrSlice).length = mrSlice.length ∧
      (∀ si ∈ ConvertMgoSwapResultsToSwapInfos T mrSlice,
        si.StatusMsg = T.StatusString si.Status) ∧
      (∀ k : Nat, (ConvertMgoSwapResultsToSwapInfos T mrSlice)[k]? =
        (mrSlice[k]?).map (ConvertMgoSwapResultToSwapInfo T))) := by
  refine ⟨fun ms => ⟨rfl, rfl⟩, fun mr => ⟨rfl, rfl⟩, ?_, ?_⟩
  · intro msSlice
    refine ⟨?_, fun si h => statusMsg_of_mem_swaps T msSlice si h, ?_⟩
    · simp [ConvertMgoSwapsToSwapInfos]
    · intro k
      simp [ConvertMgoSwapsToSwapInfos]
  · intro mrSlice
    refine ⟨?_, fun si h => statusMsg_of_mem_results T mrSlice si h, ?_⟩
    · simp [ConvertMgoSwapResultsToSwapInfos]
    · intro k
      simp [ConvertMgoSwapResultsToSwapInfos]

/-- Witness of C18: in the batch projection of the sample pending and
resulted records every element carries the rendering of its own status. -/
theorem projections_statusMsg_witness :
    (ConvertMgoSwapToSwapInfo sampleTokensEnv sampleSwap).StatusMsg = "TxNotStable" ∧
    (ConvertMgoSwapResultToSwapInfo sampleTokensEnv sampleSwapResult).StatusMsg
      = sampleTokensEnv.StatusString sampleSwapResult.Status ∧
    (ConvertMgoSwapToSwapInfo sampleTokensEnv { sampleSwap with Status := 9 }).StatusMsg
      = sampleTokensEnv.StatusString
        (ConvertMgoSwapToSwapInfo sampleTokensEnv { sampleSwap with Status := 9 }).Status :=
  ⟨((projections_statusMsg sampleTokensEnv).1 sampleSwap).1.trans (by decide),
    ((projections_statusMsg sampleTokensEnv).2.1 sampleSwapResult).1,
    (projections_statusMsg sampleTokensEnv).2.2.1 [sampleSwap, { sampleSwap with Status := 9 }]
      |>.2.1 _ (by decide)⟩

/-! ### Swap-in transaction input -/

/-- C14: `buildSwapinTxInput` checks its preconditions in a fixed order. On
a source-side bridge it returns `ErrBuildSwapTxInWrongEndpoint` for every
request; otherwise, without a token configuration for the pair, it returns
`ErrUnknownPairID`; otherwise, when the bind string is not a valid hex
address or denotes the all-zero address, it returns the invalid-recipient
error (after a warning is logged). In the three cases `args` is unchanged,
so `Input` and `To` are, and neither the amount computation nor the balance
check is made. -/
theorem buildSwapinTxInput_rejects (b : EthBridge) (args : BuildTxArgs)
    (calls : List EthCall) :
    (b.IsSrc = true →
      buildSwapinTxInput b args calls =
        (some BuildError.ErrBuildSwapTxInWrongEndpoint, args, calls)) ∧
    (b.IsSrc = false → b.GetTokenConfig args.PairID = none →
      buildSwapinTxInput b args calls = (some BuildError.ErrUnknownPairID, args, calls)) ∧
    (b.IsSrc = false → ∀ token, b.GetTokenConfig args.PairID = some token →
      (b.IsHexAddress args.Bind = false ∨ b.HexToAddress args.Bind = zeroAddress) →
      buildSwapinTxInput b args calls =
        (some BuildError.emptyOrInvalidAddress, args,
          calls ++ [EthCall.logWarn "swapin to wrong address" args.Bind])) := by
  refine ⟨?_, ?_, ?_⟩
  · intro h
    simp [buildSwapinTxInput, h]
  · intro h hcfg
    simp [buildSwapinTxInput, h, hcfg]
  · intro h token hcfg hbad
    have hcond : b.HexToAddress args.Bind = zeroAddress ∨ ¬ b.IsHexAddress args.Bind = true := by
      rcases hbad with hbad | hbad
      · exact Or.inr (by simp [hbad])
      · exact Or.inl hbad
    simp only [buildSwapinTxInput, h, hcfg, Bool.false_eq_true, if_false]
    rw [if_pos hcond]

/-- Witness of C14: on the sample destination bridge a request for pair
`btc` bound to the all-zero address is refused and `args` is unchanged. -/
theorem buildSwapinTxInput_rejects_witness :
    buildSwapinTxInput (sampleEthBridge false)
      (sampleBuildTxArgs "btc" "0x0000000000000000000000000000000000000000") [] =
      (some BuildError.emptyOrInvalidAddress,
        sampleBuildTxArgs "btc" "0x0000000000000000000000000000000000000000",
        [EthCall.logWarn "swapin to wrong address"
          "0x0000000000000000000000000000000000000000"]) :=
  (buildSwapinTxInput_rejects (sampleEthBridge false)
    (sampleBuildTxArgs "btc" "0x0000000000000000000000000000000000000000") []).2.2 rfl
    { ContractAddress := "0xb1", IsDelegateContract := false, DelegateToken := "",
      DisableSwap := false } (by decide) (Or.inr (by decide))

/-- C19: for a request on a destination-side bridge with a known pair and
a valid non-zero bind address, `buildSwapinTxInput` sets `args.Input` to the
packing of the Swapin function selector, the hash of `args.SwapID`, the bind
address and `amount = CalcSwappedValue(pairID, OriginValue, true)`, and
`args.To` to the contract address of the token. It returns `nil` when the
token is not a delegate contract; otherwise it returns what the balance
check of the delegate token for the contract address and that amount
returns, `args.Input` and `args.To` being set in either case. -/
theorem buildSwapinTxInput_builds (b : EthBridge) (args : BuildTxArgs) (calls : List EthCall)
    (token : TokenConfig) (hdst : b.IsSrc = false)
    (hcfg : b.GetTokenConfig args.PairID = some token)
    (hhex : b.IsHexAddress args.Bind = true)
    (hnz : b.HexToAddress args.Bind ≠ zeroAddress) :
    (token.IsDelegateContract = false →
      buildSwapinTxInput b args calls =
        (none,
          { args with
            Input := some (b.PackDataWithFuncHash b.getSwapinFuncHash (b.HexToHash args.SwapID)
              (b.HexToAddress args.Bind) (b.CalcSwappedValue args.PairID args.OriginValue true))
            To := token.ContractAddress },
          calls ++ [EthCall.CalcSwappedValue args.PairID args.OriginValue true])) ∧
    (token.IsDelegateContract = true →
      buildSwapinTxInput b args calls =
        ((b.checkBalance token.DelegateToken token.ContractAddress
            (b.CalcSwappedValue args.PairID args.OriginValue true)).map BuildError.balance,
          { args with
            Input := some (b.PackDataWithFuncHash b.getSwapinFuncHash (b.HexToHash args.SwapID)
              (b.HexToAddress args.Bind) (b.CalcSwappedValue args.PairID args.OriginValue true))
            To := token.ContractAddress },
          calls ++ [EthCall.CalcSwappedValue args.PairID args.OriginValue true] ++
            [EthCall.checkBalance token.DelegateToken token.ContractAddress
              (b.CalcSwappedValue args.PairID args.OriginValue true)])) := by
  have hcond : ¬ (b.HexToAddress args.Bind = zeroAddress ∨ ¬ b.IsHexAddress args.Bind = true) := by
    rintro (h | h)
    · exact hnz h
    · exact h hhex
  refine ⟨?_, ?_⟩
  · intro hd
    simp only [buildSwapinTxInput, hdst, hcfg, Bool.false_eq_true, if_false]
    rw [if_neg hcond]
    simp [hd]
  · intro hd
    simp only [buildSwapinTxInput, hdst, hcfg, Bool.false_eq_true, if_false]
    rw [if_neg hcond]
    simp [hd]

/-- Witness of C19: for the delegate token `usdt` of the sample bridge the
balance check fails, and `Input` and `To` are set all the same. -/
theorem buildSwapinTxInput_builds_witness :
    buildSwapinTxInput (sampleEthBridge false)
      (sampleBuildTxArgs "usdt" "0x1111111111111111111111111111111111111111") [] =
      (some (BuildError.balance "not enough balance"),
        { sampleBuildTxArgs "usdt" "0x1111111111111111111111111111111111111111" with
          Input := some ([0xec, 0x12, 0x6c, 0x77] ++ [4] ++ List.replicate 20 1 ++ [999])
          To := "0xb2" },
        [EthCall.CalcSwappedValue "usdt" 1000 true, EthCall.checkBalance "0xd2" "0xb2" 999]) :=
  ((buildSwapinTxInput_builds (sampleEthBridge false)
    (sampleBuildTxArgs "usdt" "0x1111111111111111111111111111111111111111") []
    { ContractAddress := "0xb2", IsDelegateContract := true, DelegateToken := "0xd2",
      DisableSwap := false } rfl (by decide) (by decide) (by decide)).2 rfl).trans (by decide)

/-! ### The manual command -/

/-- C20, as stated, fails: the token `pass-swapin` with four parameters is
refused with the unknown-operation error on the sample world, the store is
not called and the result is not `Success`. -/
theorem manual_hyphen_token_counterexample :
    manual (sampleExternal "0xabcd" ⟨"", []⟩) ⟨"manual", ["pass-swapin", "0xaa", "btc", "0xcc"]⟩
      (sampleWorld ["0xAbCd"]) =
      (some "unknown operation 'pass-swapin'", sampleWorld ["0xAbCd"]) ∧
    (manual (sampleExternal "0xabcd" ⟨"", []⟩)
      ⟨"manual", ["pass-swapin", "0xaa", "btc", "0xcc"]⟩
      (sampleWorld ["0xAbCd"])).2.trace = [] ∧
    (manual (sampleExternal "0xabcd" ⟨"", []⟩)
      ⟨"manual", ["pass-swapin", "0xaa", "btc", "0xcc"]⟩
      (sampleWorld ["0xAbCd"])).2.result ≠ "Success" :=
  ⟨rfl, by decide, by decide⟩

theorem manual_eq_manualManage (E : External σ β τ) (method op txid pairID bind : String)
    (isSwapin isPass : Bool) (w : World σ β)
    (hop : (op, isSwapin, isPass) ∈
      [("passswapin", true, true), ("failswapin", true, false),
       ("passswapout", false, true), ("failswapout", false, false)]) :
    manual E ⟨method, [op, txid, pairID, bind]⟩ w =
      manualManage E txid pairID bind "" isSwapin isPass w ∧
    ∀ memo, manual E ⟨method, [op, txid, pairID, bind, memo]⟩ w =
      manualManage E txid pairID bind memo isSwapin isPass w := by
  simp only [List.mem_cons, List.mem_singleton, List.not_mem_nil, or_false, Prod.mk.injEq]
    at hop
  rcases hop with ⟨h1, h2, h3⟩ | ⟨h1, h2, h3⟩ | ⟨h1, h2, h3⟩ | ⟨h1, h2, h3⟩ <;>
    subst h1 h2 h3 <;>
    refine ⟨?_, fun memo => ?_⟩ <;>
    simp [manual, CallArgs.param, passSwapinOp, failSwapinOp, passSwapoutOp, failSwapoutOp]

theorem manualManage_outcome (E : External σ β τ) (txid pairID bind memo : String)
    (isSwapin isPass : Bool) (w : World σ β) :
    ((E.ManualManageSwap txid pairID bind memo isSwapin isPass w.ext).1 = none →
      manualManage E txid pairID bind memo isSwapin isPass w =
        (none, { w with
          ext := (E.ManualManageSwap txid pairID bind memo isSwapin isPass w.ext).2
          trace := w.trace ++ [Call.ManualManageSwap txid pairID bind memo isSwapin isPass]
          result := "Success" })) ∧
    (∀ err, (E.ManualManageSwap txid pairID bind memo isSwapin isPass w.ext).1 = some err →
      manualManage E txid pairID bind memo isSwapin isPass w =
        (some err, { w with
          ext := (E.ManualManageSwap txid pairID bind memo isSwapin isPass w.ext).2
          trace := w.trace ++
            [Call.ManualManageSwap txid pairID bind memo isSwapin isPass] })) := by
  refine ⟨?_, ?_⟩
  · intro h
    simp [manualManage, succeedOrFail, World.callExt, h, successReuslt]
  · intro err h
    simp [manualManage, succeedOrFail, World.callExt, h]

/-- C20, amended: the manual command accepts exactly the four operation
tokens `passswapin`, `failswapin`, `passswapout` and `failswapout`. With 4
or 5 parameters and one of these tokens it calls `ManualManageSwap` once on
`(txid, pairID, bind)` with the matching direction and outcome and with the
memo equal to the fifth parameter when present and empty otherwise; it
returns `Success` when the store returns no error and the error of the
store otherwise. Every other operation token fails with the
unknown-operation error and the store is not called. -/
theorem manual_operations (E : External σ β τ) (method op txid pairID bind memo : String)
    (w : World σ β) :
    (∀ isSwapin isPass, (op, isSwapin, isPass) ∈
        [("passswapin", true, true), ("failswapin", true, false),
         ("passswapout", false, true), ("failswapout", false, false)] →
      ((E.ManualManageSwap txid pairID bind "" isSwapin isPass w.ext).1 = none →
        manual E ⟨method, [op, txid, pairID, bind]⟩ w =
          (none, { w with
            ext := (E.ManualManageSwap txid pairID bind "" isSwapin isPass w.ext).2
            trace := w.trace ++ [Call.ManualManageSwap txid pairID bind "" isSwapin isPass]
            result := "Success" })) ∧
      (∀ err, (E.ManualManageSwap txid pairID bind "" isSwapin isPass w.ext).1 = some err →
        manual E ⟨method, [op, txid, pairID, bind]⟩ w =
          (some err, { w with
            ext := (E.ManualManageSwap txid pairID bind "" isSwapin isPass w.ext).2
            trace := w.trace ++
              [Call.ManualManageSwap txid pairID bind "" isSwapin isPass] })) ∧
      ((E.ManualManageSwap txid pairID bind memo isSwapin isPass w.ext).1 = none →
        manual E ⟨method, [op, txid, pairID, bind, memo]⟩ w =
          (none, { w with
            ext := (E.ManualManageSwap txid pairID bind memo isSwapin isPass w.ext).2
            trace := w.trace ++ [Call.ManualManageSwap txid pairID bind memo isSwapin isPass]
            result := "Success" })) ∧
      (∀ err, (E.ManualManageSwap txid pairID bind memo isSwapin isPass w.ext).1 = some err →
        manual E ⟨method, [op, txid, pairID, bind, memo]⟩ w =
          (some err, { w with
            ext := (E.ManualManageSwap txid pairID bind memo isSwapin isPass w.ext).2
            trace := w.trace ++
              [Call.ManualManageSwap txid pairID bind memo isSwapin isPass] }))) ∧
    (op ∉ ["passswapin", "failswapin", "passswapout", "failswapout"] →
      manual E ⟨method, [op, txid, pairID, bind]⟩ w =
        (some ("unknown operation '" ++ op ++ "'"), w) ∧
      manual E ⟨method, [op, txid, pairID, bind, memo]⟩ w =
        (some ("unknown operation '" ++ op ++ "'"), w)) := by
  refine ⟨?_, ?_⟩
  · intro isSwapin isPass hop
    obtain ⟨h4, h5⟩ := manual_eq_manualManage E method op txid pairID bind isSwapin isPass w hop
    rw [h4, h5 memo]
    exact ⟨(manualManage_outcome E txid pairID bind "" isSwapin isPass w).1,
      (manualManage_outcome E txid pairID bind "" isSwapin isPass w).2,
      (manualManage_outcome E txid pairID bind memo isSwapin isPass w).1,
      (manualManage_outcome E txid pairID bind memo isSwapin isPass w).2⟩
  · intro h
    simp only [List.mem_cons, List.mem_singleton, List.not_mem_nil, or_false, not_or] at h
    constructor <;>
      simp [manual, CallArgs.param, unknownOperation, passSwapinOp, passSwapoutOp,
        failSwapinOp, failSwapoutOp, h]

/-- Witness of C20 amended: `manual failswapout` with a memo calls the store
once with direction swap-out, outcome fail and that memo. -/
theorem manual_operations_witness :
    manual (sampleExternal "0xabcd" ⟨"", []⟩)
      ⟨"manual", ["failswapout", "0xaa", "btc", "0xcc", "fraud"]⟩ (sampleWorld ["0xAbCd"]) =
      (none, { sampleWorld ["0xAbCd"] with
        trace := [Call.ManualManageSwap "0xaa" "btc" "0xcc" "fraud" false false]
        result := "Success" }) :=
  ((manual_operations (sampleExternal "0xabcd" ⟨"", []⟩) "manual" "failswapout" "0xaa" "btc"
    "0xcc" "fraud" (sampleWorld ["0xAbCd"])).1 false false (by decide)).2.2.1 rfl

/-! ### The result string -/

theorem successOrUnchanged_fail (w : World σ β) (err : Error) :
    successOrUnchanged w (some err, w) := by
  simp [successOrUnchanged]

theorem successOrUnchanged_call (w : World σ β) (c : Call) (op : σ → Option Error × σ) :
    successOrUnchanged w (succeedOrFail (w.callExt c op)) := by
  cases h : (op w.ext).1 <;> simp [successOrUnchanged, succeedOrFail, World.callExt, h,
    successReuslt]

theorem bigvalue_result (E : External σ β τ) (args : CallArgs) (w : World σ β) :
    successOrUnchanged w (bigvalue E args w) := by
  simp only [bigvalue]
  split_ifs <;>
    first
      | exact successOrUnchanged_fail w _
      | exact successOrUnchanged_call w _ _

theorem reverify_result (E : External σ β τ) (args : CallArgs) (w : World σ β) :
    successOrUnchanged w (reverify E args w) := by
  simp only [reverify]
  cases getOpTxAndPairID args with
  | error err => exact successOrUnchanged_fail w _
  | ok a =>
    simp only []
    split_ifs <;>
      first
        | exact successOrUnchanged_fail w _
        | exact successOrUnchanged_call w _ _

theorem reswap_result (E : External σ β τ) (args : CallArgs) (w : World σ β) :
    successOrUnchanged w (reswap E args w) := by
  simp only [reswap]
  cases getOpTxAndPairID args with
  | error err => exact successOrUnchanged_fail w _
  | ok a =>
    simp only []
    split_ifs <;>
      first
        | exact successOrUnchanged_fail w _
        | exact successOrUnchanged_call w _ _

theorem replaceswap_result (E : External σ β τ) (args : CallArgs) (w : World σ β) :
    successOrUnchanged w (replaceswap E args w) := by
  simp only [replaceswap]
  split_ifs <;>
    first
      | exact successOrUnchanged_fail w _
      | exact successOrUnchanged_call w _ _

theorem manual_result (E : External σ β τ) (args : CallArgs) (w : World σ β) :
    successOrUnchanged w (manual E args w) := by
  simp only [manual, manualManage]
  split_ifs <;>
    first
      | exact successOrUnchanged_fail w _
      | exact successOrUnchanged_call w _ _

theorem setnonceOn_result (E : External σ β τ) (side : BridgeSide) (pairID : String)
    (nonce : Nat) (w : World σ β) :
    successOrUnchanged w (setnonceOn E side pairID nonce w) := by
  simp only [setnonceOn]
  split_ifs <;>
    first
      | exact successOrUnchanged_fail w _
      | (cases side <;> simp [successOrUnchanged, successReuslt])

theorem setnonce_result (E : External σ β τ) (args : CallArgs) (w : World σ β) :
    successOrUnchanged w (setnonce E args w) := by
  simp only [setnonce]
  split_ifs <;>
    first
      | exact successOrUnchanged_fail w _
      | (cases E.GetUint64FromStr (args.param 1) <;>
          first
            | exact successOrUnchanged_fail w _
            | exact setnonceOn_result E _ _ _ w)

theorem addpair_result (E : External σ β τ) (args : CallArgs) (w : World σ β) :
    successOrUnchanged w (addpair E args w) := by
  simp only [addpair]
  split_ifs
  · exact successOrUnchanged_fail w _
  · cases h : (E.AddPairConfig (args.param 0) w.tokenPairsConfig w.ext).1 <;>
      simp [successOrUnchanged, successReuslt]

theorem blacklistFinish_result (err : Option Error) (isQuery isBlacked : Bool)
    (w w1 : World σ β) (hw : w1.result = w.result) :
    ((blacklistFinish err isQuery isBlacked w1).1 ≠ none →
      (blacklistFinish err isQuery isBlacked w1).2.result = w.result) ∧
    ((blacklistFinish err isQuery isBlacked w1).1 = none →
      (blacklistFinish err isQuery isBlacked w1).2.result =
        if isQuery = true then
          (if isBlacked = true then "is in blacklist" else "is not in blacklist")
        else "Success") := by
  cases err <;> cases isQuery <;> cases isBlacked <;>
    simp [blacklistFinish, hw, successReuslt]

theorem blacklist_result (E : External σ β τ) (args : CallArgs) (w : World σ β) :
    ((blacklist E args w).1 ≠ none → (blacklist E args w).2.result = w.result) ∧
    ((blacklist E args w).1 = none →
      (args.param 0 = "query" →
        (blacklist E args w).2.result =
          if (E.QueryBlacklist (args.param 1) (args.param 2) w.ext).1.1 = true
          then "is in blacklist" else "is not in blacklist") ∧
      (args.param 0 ≠ "query" → (blacklist E args w).2.result = "Success")) := by
  by_cases hlen : args.Params.length ≠ 3
  · have hb : blacklist E args w = (some (wrongNumberOfParams args.Params.length "3"), w) := by
      simp only [blacklist]
      rw [if_pos hlen]
    rw [hb]
    simp
  by_cases hadd : args.param 0 = "add"
  · have hb : blacklist E args w = blacklistFinish
        (w.callExt (Call.AddToBlacklist (args.param 1) (args.param 2))
          (E.AddToBlacklist (args.param 1) (args.param 2))).1 false false
        (w.callExt (Call.AddToBlacklist (args.param 1) (args.param 2))
          (E.AddToBlacklist (args.param 1) (args.param 2))).2 := by
      simp only [blacklist]
      rw [if_neg hlen, if_pos hadd]
    obtain ⟨h1, h2⟩ := blacklistFinish_result
      (w.callExt (Call.AddToBlacklist (args.param 1) (args.param 2))
        (E.AddToBlacklist (args.param 1) (args.param 2))).1 false false w
      (w.callExt (Call.AddToBlacklist (args.param 1) (args.param 2))
        (E.AddToBlacklist (args.param 1) (args.param 2))).2 rfl
    rw [hb]
    refine ⟨h1, fun hn => ⟨fun hqq => ?_, fun _ => ?_⟩⟩
    · rw [hadd] at hqq
      exact absurd hqq (by decide)
    · simpa using h2 hn
  by_cases hrem : args.param 0 = "remove"
  · have hb : blacklist E args w = blacklistFinish
        (w.callExt (Call.RemoveFromBlacklist (args.param 1) (args.param 2))
          (E.RemoveFromBlacklist (args.param 1) (args.param 2))).1 false false
        (w.callExt (Call.RemoveFromBlacklist (args.param 1) (args.param 2))
          (E.RemoveFromBlacklist (args.param 1) (args.param 2))).2 := by
      simp only [blacklist]
      rw [if_neg hlen, if_neg hadd, if_pos hrem]
    obtain ⟨h1, h2⟩ := blacklistFinish_result
      (w.callExt (Call.RemoveFromBlacklist (args.param 1) (args.param 2))
        (E.RemoveFromBlacklist (args.param 1) (args.param 2))).1 false false w
      (w.callExt (Call.RemoveFromBlacklist (args.param 1) (args.param 2))
        (E.RemoveFromBlacklist (args.param 1) (args.param 2))).2 rfl
    rw [hb]
    refine ⟨h1, fun hn => ⟨fun hqq => ?_, fun _ => ?_⟩⟩
    · rw [hrem] at hqq
      exact absurd hqq (by decide)
    · simpa using h2 hn
  by_cases hq : args.param 0 = "query"
  · have hb : blacklist E args w = blacklistFinish
        (E.QueryBlacklist (args.param 1) (args.param 2) w.ext).1.2 true
        (E.QueryBlacklist (args.param 1) (args.param 2) w.ext).1.1
        { w with ext := (E.QueryBlacklist (args.param 1) (args.param 2) w.ext).2,
                 trace := w.trace ++ [Call.QueryBlacklist (args.param 1) (args.param 2)] } := by
      simp only [blacklist]
      rw [if_neg hlen, if_neg hadd, if_neg hrem, if_pos hq]
    obtain ⟨h1, h2⟩ := blacklistFinish_result
      (E.QueryBlacklist (args.param 1) (args.param 2) w.ext).1.2 true
      (E.QueryBlacklist (args.param 1) (args.param 2) w.ext).1.1 w
      { w with ext := (E.QueryBlacklist (args.param 1) (args.param 2) w.ext).2,
               trace := w.trace ++ [Call.QueryBlacklist (args.param 1) (args.param 2)] } rfl
    rw [hb]
    refine ⟨h1, fun hn => ⟨fun _ => ?_, fun hnq => absurd hq hnq⟩⟩
    simpa using h2 hn
  · have hb : blacklist E args w = (some (unknownOperation (args.param 0)), w) := by
      simp only [blacklist]
      rw [if_neg hlen, if_neg hadd, if_neg hrem, if_neg hq]
    rw [hb]
    simp

theorem maintainRun_result (E : External σ β τ) (f d wd : Bool) (pairIDs : String)
    (w : World σ β) :
    ∃ summary, (maintainRun E f d wd pairIDs w).2.result = "success: " ++ summary := by
  simp only [maintainRun]
  split_ifs
  · exact ⟨_, String.append_assoc _ _ _⟩
  · exact ⟨_, rfl⟩

theorem maintainDirection_result (E : External σ β τ) (f : Bool) (direction pairIDs : String)
    (w : World σ β) :
    ((maintainDirection E f direction pairIDs w).1 ≠ none →
      (maintainDirection E f direction pairIDs w).2.result = w.result) ∧
    ((maintainDirection E f direction pairIDs w).1 = none →
      ∃ summary, (maintainDirection E f direction pairIDs w).2.result =
        "success: " ++ summary) := by
  simp only [maintainDirection]
  split_ifs
  · exact ⟨fun h => absurd rfl h, fun _ => maintainRun_result E f true false pairIDs w⟩
  · exact ⟨fun h => absurd rfl h, fun _ => maintainRun_result E f false true pairIDs w⟩
  · exact ⟨fun h => absurd rfl h, fun _ => maintainRun_result E f true true pairIDs w⟩
  · simp

theorem maintain_result (E : External σ β τ) (args : CallArgs) (w : World σ β) :
    ((maintain E args w).1 ≠ none → (maintain E args w).2.result = w.result) ∧
    ((maintain E args w).1 = none →
      ∃ summary, (maintain E args w).2.result = "success: " ++ summary) := by
  simp only [maintain]
  split_ifs
  · simp
  · exact maintainDirection_result E false _ _ w
  · exact maintainDirection_result E true _ _ w
  · simp

/-- C16: when `doCall` returns no error the result string is `Success` for
blacklist add and remove, bigvalue, reverify, reswap, replaceswap, manual,
setnonce and addpair; it is `is in blacklist` or `is not in blacklist`,
according to the answer of the store, for blacklist query; and it begins
with `success: ` for maintain. When `doCall` returns an error the result
string is unchanged. -/
theorem doCall_result (E : External σ β τ) (args : CallArgs) (w : World σ β) :
    ((doCall E args w).1 ≠ none → (doCall E args w).2.result = w.result) ∧
    ((doCall E args w).1 = none →
      (args.Method = "maintain" →
        ∃ summary, (doCall E args w).2.result = "success: " ++ summary) ∧
      (args.Method = "blacklist" → args.param 0 = "query" →
        (doCall E args w).2.result =
          if (E.QueryBlacklist (args.param 1) (args.param 2) w.ext).1.1 = true
          then "is in blacklist" else "is not in blacklist") ∧
      (args.Method = "blacklist" → args.param 0 ≠ "query" →
        (doCall E args w).2.result = "Success") ∧
      (args.Method ∈ ["bigvalue", "reverify", "reswap", "replaceswap", "manual", "setnonce",
          "addpair"] →
        (doCall E args w).2.result = "Success")) := by
  have hgen : ∀ (h : CallArgs → World σ β → Option Error × World σ β),
      successOrUnchanged w (h args w) → doCall E args w = h args w →
      args.Method ≠ "maintain" → args.Method ≠ "blacklist" →
      ((doCall E args w).1 ≠ none → (doCall E args w).2.result = w.result) ∧
      ((doCall E args w).1 = none →
        (args.Method = "maintain" →
          ∃ summary, (doCall E args w).2.result = "success: " ++ summary) ∧
        (args.Method = "blacklist" → args.param 0 = "query" →
          (doCall E args w).2.result =
            if (E.QueryBlacklist (args.param 1) (args.param 2) w.ext).1.1 = true
            then "is in blacklist" else "is not in blacklist") ∧
        (args.Method = "blacklist" → args.param 0 ≠ "query" →
          (doCall E args w).2.result = "Success") ∧
        (args.Method ∈ ["bigvalue", "reverify", "reswap", "replaceswap", "manual", "setnonce",
            "addpair"] →
          (doCall E args w).2.result = "Success")) := by
    intro h hs heq hm hb
    rw [heq]
    exact ⟨hs.2, fun hn => ⟨fun hm' => absurd hm' hm, fun hb' => absurd hb' hb,
      fun hb' => absurd hb' hb, fun _ => hs.1 hn⟩⟩
  by_cases h1 : args.Method = "blacklist"
  · have heq : doCall E args w = blacklist E args w := by
      simp [doCall, blacklistCmd, h1]
    obtain ⟨b1, b2⟩ := blacklist_result E args w
    rw [heq]
    refine ⟨b1, fun hn => ⟨fun hm => ?_, fun _ => (b2 hn).1, fun _ => (b2 hn).2, fun hm => ?_⟩⟩
    · rw [h1] at hm
      exact absurd hm (by decide)
    · rw [h1] at hm
      exact absurd hm (by decide)
  by_cases h2 : args.Method = "bigvalue"
  · exact hgen (bigvalue E) (bigvalue_result E args w)
      (by simp [doCall, blacklistCmd, bigvalueCmd, h2]) (by rw [h2]; decide) h1
  by_cases h3 : args.Method = "maintain"
  · have heq : doCall E args w = maintain E args w := by
      simp [doCall, blacklistCmd, bigvalueCmd, maintainCmd, h3]
    obtain ⟨m1, m2⟩ := maintain_result E args w
    rw [heq]
    refine ⟨m1, fun hn => ⟨fun _ => m2 hn, fun hb => absurd hb h1, fun hb => absurd hb h1,
      fun hm => ?_⟩⟩
    rw [h3] at hm
    exact absurd hm (by decide)
  by_cases h4 : args.Method = "reverify"
  · exact hgen (reverify E) (reverify_result E args w)
      (by simp [doCall, blacklistCmd, bigvalueCmd, maintainCmd, reverifyCmd, h4]) h3 h1
  by_cases h5 : args.Method = "reswap"
  · exact hgen (reswap E) (reswap_result E args w)
      (by simp [doCall, blacklistCmd, bigvalueCmd, maintainCmd, reverifyCmd, reswapCmd, h5])
      h3 h1
  by_cases h6 : args.Method = "replaceswap"
  · exact hgen (replaceswap E) (replaceswap_result E args w)
      (by simp [doCall, blacklistCmd, bigvalueCmd, maintainCmd, reverifyCmd, reswapCmd,
        replaceswapCmd, h6]) h3 h1
  by_cases h7 : args.Method = "manual"
  · exact hgen (manual E) (manual_result E args w)
      (by simp [doCall, blacklistCmd, bigvalueCmd, maintainCmd, reverifyCmd, reswapCmd,
        replaceswapCmd, manualCmd, h7]) h3 h1
  by_cases h8 : args.Method = "setnonce"
  · exact hgen (setnonce E) (setnonce_result E args w)
      (by simp [doCall, blacklistCmd, bigvalueCmd, maintainCmd, reverifyCmd, reswapCmd,
        replaceswapCmd, manualCmd, setnonceCmd, h8]) h3 h1
  by_cases h9 : args.Method = "addpair"
  · exact hgen (addpair E) (addpair_result E args w)
      (by simp [doCall, blacklistCmd, bigvalueCmd, maintainCmd, reverifyCmd, reswapCmd,
        replaceswapCmd, manualCmd, setnonceCmd, addpairCmd, h9]) h3 h1
  · exact hgen (fun a w0 => (some (unknownAdminMethod a.Method), w0))
      (successOrUnchanged_fail w _)
      (by simp [doCall, blacklistCmd, bigvalueCmd, maintainCmd, reverifyCmd, reswapCmd,
        replaceswapCmd, manualCmd, setnonceCmd, addpairCmd, h1, h2, h3, h4, h5, h6, h7, h8, h9])
      h3 h1

/-- Witness of C16: a blacklist query on the sample world, whose store holds
no key, succeeds with the line `is not in blacklist`. -/
theorem doCall_result_witness :
    (doCall (sampleExternal "0xabcd" ⟨"", []⟩) ⟨"blacklist", ["query", "0xcc", "btc"]⟩
      (sampleWorld ["0xAbCd"])).1 = none ∧
    (doCall (sampleExternal "0xabcd" ⟨"", []⟩) ⟨"blacklist", ["query", "0xcc", "btc"]⟩
      (sampleWorld ["0xAbCd"])).2.result = "is not in blacklist" :=
  ⟨by decide,
    (((doCall_result (sampleExternal "0xabcd" ⟨"", []⟩) ⟨"blacklist", ["query", "0xcc", "btc"]⟩
      (sampleWorld ["0xAbCd"])).2 (by decide)).2.1 rfl (by decide)).trans (by decide)⟩

/-! ### The blacklist round trip -/

theorem runBlacklist_query (E : External BlacklistStore β τ) (hE : E.hasSetBlacklist)
    (address pairID : String) (w : World BlacklistStore β) :
    runBlacklist E "query" address pairID w =
      (none, { w with
        trace := w.trace ++ [Call.QueryBlacklist address pairID]
        result := if (address, pairID) ∈ w.ext then "is in blacklist"
          else "is not in blacklist" }) := by
  obtain ⟨_, _, hQ⟩ := hE
  by_cases hmem : (address, pairID) ∈ w.ext <;>
    simp [runBlacklist, doCall, blacklistCmd, blacklist, CallArgs.param, blacklistFinish, hQ,
      QueryBlacklist, hmem]

theorem runBlacklist_add (E : External BlacklistStore β τ) (hE : E.hasSetBlacklist)
    (address pairID : String) (w : World BlacklistStore β) :
    runBlacklist E "add" address pairID w =
      (none, { w with
        ext := (address, pairID) :: w.ext
        trace := w.trace ++ [Call.AddToBlacklist address pairID]
        result := "Success" }) := by
  obtain ⟨hA, _, _⟩ := hE
  simp [runBlacklist, doCall, blacklistCmd, blacklist, CallArgs.param, blacklistFinish, hA,
    AddToBlacklist, World.callExt, successReuslt]

theorem runBlacklist_remove (E : External BlacklistStore β τ) (hE : E.hasSetBlacklist)
    (address pairID : String) (w : World BlacklistStore β) :
    runBlacklist E "remove" address pairID w =
      (none, { w with
        ext := w.ext.filter (fun k => k ≠ (address, pairID))
        trace := w.trace ++ [Call.RemoveFromBlacklist address pairID]
        result := "Success" }) := by
  obtain ⟨_, hR, _⟩ := hE
  simp [runBlacklist, doCall, blacklistCmd, blacklist, CallArgs.param, blacklistFinish, hR,
    RemoveFromBlacklist, World.callExt, successReuslt]

/-- C15: with the blacklist store a set of `(address, pairID)` keys, for an
address and pair that are not in the store the command `blacklist query`
yields `is not in blacklist`; after `blacklist add` it yields
`is in blacklist`; after a following `blacklist remove` it yields
`is not in blacklist` again; add and remove yield `Success`; none of the five
commands returns an error. -/
theorem blacklist_round_trip (E : External BlacklistStore β τ) (hE : E.hasSetBlacklist)
    (address pairID : String) (w : World BlacklistStore β)
    (hnot : (address, pairID) ∉ w.ext) :
    let q0 := runBlacklist E "query" address pairID w
    let ad := runBlacklist E "add" address pairID q0.2
    let q1 := runBlacklist E "query" address pairID ad.2
    let rm := runBlacklist E "remove" address pairID q1.2
    let q2 := runBlacklist E "query" address pairID rm.2
    (q0.1 = none ∧ q0.2.result = "is not in blacklist") ∧
    (ad.1 = none ∧ ad.2.result = "Success") ∧
    (q1.1 = none ∧ q1.2.result = "is in blacklist") ∧
    (rm.1 = none ∧ rm.2.result = "Success") ∧
    (q2.1 = none ∧ q2.2.result = "is not in blacklist") := by
  intro q0 ad q1 rm q2
  have h0 : q0 = _ := runBlacklist_query E hE address pairID w
  have h1 : ad = _ := runBlacklist_add E hE address pairID q0.2
  have h2 : q1 = _ := runBlacklist_query E hE address pairID ad.2
  have h3 : rm = _ := runBlacklist_remove E hE address pairID q1.2
  have h4 : q2 = _ := runBlacklist_query E hE address pairID rm.2
  refine ⟨?_, ?_, ?_, ?_, ?_⟩
  · rw [h0]
    simp [hnot]
  · rw [h1]
    simp
  · rw [h2, h1]
    simp
  · rw [h3]
    simp
  · rw [h4, h3, h2, h1]
    simp

theorem sampleExternal_hasSetBlacklist (sender : String) (args : CallArgs) :
    (sampleExternal sender args).hasSetBlacklist := by
  refine ⟨rfl, rfl, ?_⟩
  funext a p st
  simp [sampleExternal, QueryBlacklist]

/-- Witness of C15: the round trip for the key `(0xcc, btc)` on the sample
world, whose store holds no key. -/
theorem blacklist_round_trip_witness :
    (sampleExternal "0xabcd" ⟨"", []⟩).hasSetBlacklist ∧
    ("0xcc", "btc") ∉ (sampleWorld ["0xAbCd"]).ext ∧
    (runBlacklist (sampleExternal "0xabcd" ⟨"", []⟩) "query" "0xcc" "btc"
      (runBlacklist (sampleExternal "0xabcd" ⟨"", []⟩) "add" "0xcc" "btc"
        (runBlacklist (sampleExternal "0xabcd" ⟨"", []⟩) "query" "0xcc" "btc"
          (sampleWorld ["0xAbCd"])).2).2).2.result = "is in blacklist" :=
  ⟨sampleExternal_hasSetBlacklist _ _, by decide,
    (blacklist_round_trip (sampleExternal "0xabcd" ⟨"", []⟩)
      (sampleExternal_hasSetBlacklist _ _) "0xcc" "btc"
      (sampleWorld ["0xAbCd"]) (by decide)).2.2.1.2⟩

/-! ### Address conversion -/

theorem convertCOLXAddress_base58_branch (L : ColxLibs) (cchainConfig : ChainParams)
    (addr net : String)
    (hlen : ¬ ((utf8Bytes addr).length = 130 ∨ (utf8Bytes addr).length = 66)) :
    ConvertCOLXAddress L cchainConfig addr net =
      match L.CheckDecode addr with
      | none => none
      | some (Except.error err) =>
        if err = Base58Error.ErrChecksum then
          some (Except.error ConvertError.ErrChecksumMismatch)
        else some (Except.error ConvertError.unknownFormat)
      | some (Except.ok (decoded, netID)) =>
        if decoded.length = 20 then
          if netID = cchainConfig.PubKeyHashAddrID ∧ netID = cchainConfig.ScriptHashAddrID then
            some (Except.error ConvertError.ErrAddressCollision)
          else if netID = cchainConfig.PubKeyHashAddrID then
            some (returnAddress (NewAddressPubKeyHash decoded MainNetParams))
          else if netID = cchainConfig.ScriptHashAddrID then
            some (returnAddress (NewAddressScriptHashFromHash decoded MainNetParams))
          else some (Except.error ConvertError.ErrUnknownAddressType)
        else some (Except.error ConvertError.unknownSize) := by
  simp only [ConvertCOLXAddress]
  rw [if_neg hlen]

theorem convertCOLXAddress_hex_branch (L : ColxLibs) (cchainConfig : ChainParams)
    (addr net : String)
    (hlen : (utf8Bytes addr).length = 130 ∨ (utf8Bytes addr).length = 66) :
    ConvertCOLXAddress L cchainConfig addr net =
      match L.DecodeString addr with
      | Except.error errf => some (Except.error (ConvertError.hexDecode errf))
      | Except.ok serializedPubKey =>
        some (returnAddress (L.NewAddressPubKey serializedPubKey MainNetParams)) := by
  simp only [ConvertCOLXAddress]
  rw [if_pos hlen]

theorem returnAddress_pubKeyHash (payload : List Nat) (net : ChainParams)
    (h20 : payload.length = 20) :
    returnAddress (NewAddressPubKeyHash payload net) =
      Except.ok (Address.PubKeyHash payload net.PubKeyHashAddrID) := by
  simp [returnAddress, NewAddressPubKeyHash, h20]

theorem returnAddress_scriptHash (payload : List Nat) (net : ChainParams)
    (h20 : payload.length = 20) :
    returnAddress (NewAddressScriptHashFromHash payload net) =
      Except.ok (Address.ScriptHash payload net.ScriptHashAddrID) := by
  simp [returnAddress, NewAddressScriptHashFromHash, h20]

/-- The decoder on strings with runes outside ASCII: `é` (U+00E9) is a rune
of the table that is not a digit, and the decoding fails with
`ErrInvalidFormat`; `€` (U+20AC) indexes outside the table, the decoder
panics, and so does `ConvertCOLXAddress`; so does `é` after nine digits,
where the chunk of ten bytes cuts its encoding. -/
theorem base58CheckDecode_non_ascii :
    base58CheckDecode "é" = some (Except.error Base58Error.ErrInvalidFormat) ∧
    base58CheckDecode "€" = none ∧
    ConvertCOLXAddress stdColxLibs sampleColxParams "€" "mainnet" = none ∧
    base58CheckDecode "D5ERdEN1gé" = none := by
  refine ⟨?_, ?_, ?_, ?_⟩ <;> decide

set_option maxRecDepth 100000 in
/-- C11, as stated, fails: the string `sampleLongAddress`, 66 bytes long,
base58Check-decodes to version byte 30 and a payload of 43 bytes, and
`ConvertCOLXAddress` returns the error of the hex decoder on its byte `q`,
not the unknown-size error. -/
theorem convertCOLXAddress_long_input_counterexample :
    (utf8Bytes sampleLongAddress).length = 66 ∧
    base58CheckDecode sampleLongAddress = some (Except.ok (samplePayload43, 30)) ∧
    samplePayload43.length ≠ 20 ∧
    ConvertCOLXAddress stdColxLibs sampleColxParams sampleLongAddress "mainnet" =
      some (Except.error (ConvertError.hexDecode (HexError.InvalidByteError 113))) ∧
    ConvertCOLXAddress stdColxLibs sampleColxParams sampleLongAddress "mainnet" ≠
      some (Except.error ConvertError.unknownSize) := by
  refine ⟨?_, ?_, ?_, ?_, ?_⟩ <;> decide

/-- C11, amended: for every input whose byte length is neither 130 nor 66
and that base58Check-decodes to a payload and a version byte: with a
payload of 20 bytes `ConvertCOLXAddress` returns `ErrAddressCollision` when
the version byte equals both the `PubKeyHashAddrID` and the
`ScriptHashAddrID` of the chain, a pay-to-pubkey-hash address over the
payload when it equals only the first, a pay-to-script-hash address over the
payload when it equals only the second, and `ErrUnknownAddressType` when it
equals neither; with a payload of any other length it returns the
unknown-size error. -/
theorem convertCOLXAddress_decoded (L : ColxLibs) (cchainConfig : ChainParams)
    (addr net : String) (payload : List Nat) (versionByte : Nat)
    (hlen : ¬ ((utf8Bytes addr).length = 130 ∨ (utf8Bytes addr).length = 66))
    (hdec : L.CheckDecode addr = some (Except.ok (payload, versionByte))) :
    (payload.length = 20 →
      (versionByte = cchainConfig.PubKeyHashAddrID ∧
        versionByte = cchainConfig.ScriptHashAddrID →
        ConvertCOLXAddress L cchainConfig addr net =
          some (Except.error ConvertError.ErrAddressCollision)) ∧
      (versionByte = cchainConfig.PubKeyHashAddrID ∧
        versionByte ≠ cchainConfig.ScriptHashAddrID →
        ∃ netID, ConvertCOLXAddress L cchainConfig addr net =
          some (Except.ok (Address.PubKeyHash payload netID))) ∧
      (versionByte ≠ cchainConfig.PubKeyHashAddrID ∧
        versionByte = cchainConfig.ScriptHashAddrID →
        ∃ netID, ConvertCOLXAddress L cchainConfig addr net =
          some (Except.ok (Address.ScriptHash payload netID))) ∧
      (versionByte ≠ cchainConfig.PubKeyHashAddrID ∧
        versionByte ≠ cchainConfig.ScriptHashAddrID →
        ConvertCOLXAddress L cchainConfig addr net =
          some (Except.error ConvertError.ErrUnknownAddressType))) ∧
    (payload.length ≠ 20 →
      ConvertCOLXAddress L cchainConfig addr net =
        some (Except.error ConvertError.unknownSize)) := by
  rw [convertCOLXAddress_base58_branch L cchainConfig addr net hlen, hdec]
  refine ⟨fun h20 => ⟨?_, ?_, ?_, ?_⟩, ?_⟩
  · intro hboth
    simp only [if_pos h20, if_pos hboth]
  · rintro ⟨h1, h2⟩
    refine ⟨MainNetParams.PubKeyHashAddrID, ?_⟩
    simp only [if_pos h20]
    rw [if_neg (fun h => h2 h.2), if_pos h1, returnAddress_pubKeyHash _ _ h20]
  · rintro ⟨h1, h2⟩
    refine ⟨MainNetParams.ScriptHashAddrID, ?_⟩
    simp only [if_pos h20]
    rw [if_neg (fun h => h1 h.1), if_neg h1, if_pos h2, returnAddress_scriptHash _ _ h20]
  · rintro ⟨h1, h2⟩
    simp only [if_pos h20]
    rw [if_neg (fun h => h1 h.1), if_neg h1, if_neg h2]
  · intro hne
    simp only [if_neg hne]

set_option maxRecDepth 100000 in
/-- Witness of C11 amended: `sampleColxAddress`, 34 bytes long, decodes to
version byte 30 and twenty bytes, and is converted to a pay-to-pubkey-hash
address over these bytes. -/
theorem convertCOLXAddress_decoded_witness :
    ¬ ((utf8Bytes sampleColxAddress).length = 130 ∨ (utf8Bytes sampleColxAddress).length = 66) ∧
    stdColxLibs.CheckDecode sampleColxAddress = some (Except.ok (samplePayload20, 30)) ∧
    ∃ netID, ConvertCOLXAddress stdColxLibs sampleColxParams sampleColxAddress "mainnet" =
      some (Except.ok (Address.PubKeyHash samplePayload20 netID)) :=
  ⟨by decide, by decide,
    ((convertCOLXAddress_decoded stdColxLibs sampleColxParams sampleColxAddress "mainnet"
      samplePayload20 30 (by decide) (by decide)).1 (by decide)).2.1 ⟨by decide, by decide⟩⟩

set_option maxRecDepth 100000 in
/-- C12, as stated, fails: `sampleBadChecksum`, 66 bytes long, fails the
base58Check decoding on its checksum, and `ConvertCOLXAddress` returns the
error of the hex decoder, not `ErrChecksumMismatch`; `sampleNotBase58`, 66
bytes long, fails the decoding for another reason, and `ConvertCOLXAddress`
returns the error of the hex decoder, not the unknown-format error. -/
theorem convertCOLXAddress_decode_failure_counterexample :
    ((utf8Bytes sampleBadChecksum).length = 66 ∧
      base58CheckDecode sampleBadChecksum = some (Except.error Base58Error.ErrChecksum) ∧
      ConvertCOLXAddress stdColxLibs sampleColxParams sampleBadChecksum "mainnet" =
        some (Except.error (ConvertError.hexDecode (HexError.InvalidByteError 122))) ∧
      ConvertCOLXAddress stdColxLibs sampleColxParams sampleBadChecksum "mainnet" ≠
        some (Except.error ConvertError.ErrChecksumMismatch)) ∧
    ((utf8Bytes sampleNotBase58).length = 66 ∧
      base58CheckDecode sampleNotBase58 = some (Except.error Base58Error.ErrInvalidFormat) ∧
      ConvertCOLXAddress stdColxLibs sampleColxParams sampleNotBase58 "mainnet" =
        some (Except.error (ConvertError.hexDecode (HexError.InvalidByteError 79))) ∧
      ConvertCOLXAddress stdColxLibs sampleColxParams sampleNotBase58 "mainnet" ≠
        some (Except.error ConvertError.unknownFormat)) := by
  refine ⟨⟨?_, ?_, ?_, ?_⟩, ⟨?_, ?_, ?_, ?_⟩⟩ <;> decide

/-- C12, amended: for every input string whose byte length is neither 130
nor 66 and on which the base58Check decoder returns an error,
`ConvertCOLXAddress` returns `ErrChecksumMismatch`, and no other error, when
that error is the checksum mismatch, and the unknown-format error when it is
any other error. -/
theorem convertCOLXAddress_decode_failure (L : ColxLibs) (cchainConfig : ChainParams)
    (addr net : String)
    (hlen : ¬ ((utf8Bytes addr).length = 130 ∨ (utf8Bytes addr).length = 66)) :
    (L.CheckDecode addr = some (Except.error Base58Error.ErrChecksum) →
      ConvertCOLXAddress L cchainConfig addr net =
        some (Except.error ConvertError.ErrChecksumMismatch)) ∧
    (∀ err, L.CheckDecode addr = some (Except.error err) → err ≠ Base58Error.ErrChecksum →
      ConvertCOLXAddress L cchainConfig addr net =
        some (Except.error ConvertError.unknownFormat)) := by
  rw [convertCOLXAddress_base58_branch L cchainConfig addr net hlen]
  refine ⟨?_, ?_⟩
  · intro h
    rw [h]
    simp
  · intro err h hne
    rw [h]
    simp only [if_neg hne]

set_option maxRecDepth 100000 in
/-- Witness of C12 amended: `sampleColxAddress` with its last character
changed fails on its checksum and is refused with `ErrChecksumMismatch`;
the string `é` fails as not being base58 and is refused with the
unknown-format error. -/
theorem convertCOLXAddress_decode_failure_witness :
    (¬ ((utf8Bytes "D5ERdEN1gsouFSs7zsq7VYJxyWP6dP28H2").length = 130 ∨
      (utf8Bytes "D5ERdEN1gsouFSs7zsq7VYJxyWP6dP28H2").length = 66) ∧
    stdColxLibs.CheckDecode "D5ERdEN1gsouFSs7zsq7VYJxyWP6dP28H2" =
      some (Except.error Base58Error.ErrChecksum) ∧
    ConvertCOLXAddress stdColxLibs sampleColxParams "D5ERdEN1gsouFSs7zsq7VYJxyWP6dP28H2"
      "mainnet" = some (Except.error ConvertError.ErrChecksumMismatch)) ∧
    (stdColxLibs.CheckDecode "é" = some (Except.error Base58Error.ErrInvalidFormat) ∧
    ConvertCOLXAddress stdColxLibs sampleColxParams "é" "mainnet" =
      some (Except.error ConvertError.unknownFormat)) :=
  ⟨⟨by decide, by decide,
    (convertCOLXAddress_decode_failure stdColxLibs sampleColxParams
      "D5ERdEN1gsouFSs7zsq7VYJxyWP6dP28H2" "mainnet" (by decide)).1 (by decide)⟩,
   ⟨by decide,
    (convertCOLXAddress_decode_failure stdColxLibs sampleColxParams "é" "mainnet"
      (by decide)).2 Base58Error.ErrInvalidFormat (by decide) (by decide)⟩⟩

set_option maxRecDepth 100000 in
/-- C13, as stated, fails: for `sampleColxAddress`, whose version byte 30 is
the pay-to-pubkey-hash id of the chain only, the address returned for the
target network `testnet3` is the one returned for `mainnet`; it carries the
id 0 of the main network parameters and is not the address over the payload
on the parameters that `testnet3` designates. -/
theorem convertCOLXAddress_target_network_counterexample :
    base58CheckDecode sampleColxAddress = some (Except.ok (samplePayload20, 30)) ∧
    chainParamsNamed "testnet3" = some TestNet3Params ∧
    ConvertCOLXAddress stdColxLibs sampleColxParams sampleColxAddress "testnet3" =
      some (Except.ok (Address.PubKeyHash samplePayload20 0)) ∧
    ConvertCOLXAddress stdColxLibs sampleColxParams sampleColxAddress "testnet3" =
      ConvertCOLXAddress stdColxLibs sampleColxParams sampleColxAddress "mainnet" ∧
    ConvertCOLXAddress stdColxLibs sampleColxParams sampleColxAddress "testnet3" ≠
      some (returnAddress (NewAddressPubKeyHash samplePayload20 TestNet3Params)) := by
  refine ⟨?_, ?_, ?_, ?_, ?_⟩ <;> decide

/-- C13, amended: for every base58Check input (its byte length neither 130
nor 66) with a payload of 20 bytes whose version byte matches exactly one of
the pay-to-pubkey-hash and pay-to-script-hash ids of the chain, the address
returned by `ConvertCOLXAddress(addr, net)` is constructed on the main
network parameters `chaincfg.MainNetParams` whatever the target-network
argument `net` is, so that two target networks yield the same address. -/
theorem convertCOLXAddress_on_mainnet (L : ColxLibs) (cchainConfig : ChainParams)
    (addr : String) (payload : List Nat) (versionByte : Nat)
    (hlen : ¬ ((utf8Bytes addr).length = 130 ∨ (utf8Bytes addr).length = 66))
    (hdec : L.CheckDecode addr = some (Except.ok (payload, versionByte)))
    (h20 : payload.length = 20) :
    (versionByte = cchainConfig.PubKeyHashAddrID ∧
      versionByte ≠ cchainConfig.ScriptHashAddrID →
      ∀ net, ConvertCOLXAddress L cchainConfig addr net =
          some (returnAddress (NewAddressPubKeyHash payload MainNetParams)) ∧
        ConvertCOLXAddress L cchainConfig addr net =
          some (Except.ok (Address.PubKeyHash payload MainNetParams.PubKeyHashAddrID))) ∧
    (versionByte ≠ cchainConfig.PubKeyHashAddrID ∧
      versionByte = cchainConfig.ScriptHashAddrID →
      ∀ net, ConvertCOLXAddress L cchainConfig addr net =
          some (returnAddress (NewAddressScriptHashFromHash payload MainNetParams)) ∧
        ConvertCOLXAddress L cchainConfig addr net =
          some (Except.ok (Address.ScriptHash payload MainNetParams.ScriptHashAddrID))) ∧
    (∀ net1 net2, ConvertCOLXAddress L cchainConfig addr net1 =
      ConvertCOLXAddress L cchainConfig addr net2) := by
  refine ⟨?_, ?_, ?_⟩
  · rintro ⟨h1, h2⟩ net
    rw [convertCOLXAddress_base58_branch L cchainConfig addr net hlen, hdec]
    simp only [if_pos h20]
    rw [if_neg (fun h => h2 h.2), if_pos h1]
    exact ⟨rfl, by rw [returnAddress_pubKeyHash _ _ h20]⟩
  · rintro ⟨h1, h2⟩ net
    rw [convertCOLXAddress_base58_branch L cchainConfig addr net hlen, hdec]
    simp only [if_pos h20]
    rw [if_neg (fun h => h1 h.1), if_neg h1, if_pos h2]
    exact ⟨rfl, by rw [returnAddress_scriptHash _ _ h20]⟩
  · intro net1 net2
    rw [convertCOLXAddress_base58_branch L cchainConfig addr net1 hlen,
      convertCOLXAddress_base58_branch L cchainConfig addr net2 hlen]

set_option maxRecDepth 100000 in
/-- Witness of C13 amended: the pay-to-script-hash address
`6EVAtPJ7cow1M5VeakAhFQgbGw14ZjbzDa` of the sample chain (version byte 13) is
converted, for the target network `testnet3`, to the script-hash address on
the main network parameters, whose id is 5. -/
theorem convertCOLXAddress_on_mainnet_witness :
    stdColxLibs.CheckDecode "6EVAtPJ7cow1M5VeakAhFQgbGw14ZjbzDa" =
      some (Except.ok (samplePayload20, 13)) ∧
    ConvertCOLXAddress stdColxLibs sampleColxParams "6EVAtPJ7cow1M5VeakAhFQgbGw14ZjbzDa"
      "testnet3" = some (Except.ok (Address.ScriptHash samplePayload20 5)) :=
  ⟨by decide,
    (((convertCOLXAddress_on_mainnet stdColxLibs sampleColxParams
      "6EVAtPJ7cow1M5VeakAhFQgbGw14ZjbzDa" samplePayload20 13 (by decide) (by decide)
      (by decide)).2.1 ⟨by decide, by decide⟩) "testnet3").2⟩

/-! ### The reswap command -/

theorem wrongForceFlag_eq (forceOpt : String) :
    wrongForceFlag forceOpt = "wrong force flag " ++ forceOpt ++ ", must be --force" := by
  simp only [wrongForceFlag, forceFlag]
  rw [String.append_assoc ("wrong force flag " ++ forceOpt)]
  rfl

theorem succeedOrFail_callExt (w : World σ β) (c : Call) (op : σ → Option Error × σ) :
    ((op w.ext).1 = none →
      succeedOrFail (w.callExt c op) =
        (none, { w with ext := (op w.ext).2, trace := w.trace ++ [c], result := "Success" })) ∧
    (∀ err, (op w.ext).1 = some err →
      succeedOrFail (w.callExt c op) =
        (some err, { w with ext := (op w.ext).2, trace := w.trace ++ [c] })) := by
  refine ⟨?_, ?_⟩
  · intro h
    simp [succeedOrFail, World.callExt, h, successReuslt]
  · intro err h
    simp [succeedOrFail, World.callExt, h]

theorem reswap_eq_call (E : External σ β τ) (method txid pairID bind : String)
    (w : World σ β) :
    reswap E ⟨method, ["swapin", txid, pairID, bind]⟩ w =
      succeedOrFail (w.callExt (Call.Reswapin txid pairID bind "")
        (E.Reswapin txid pairID bind "")) ∧
    reswap E ⟨method, ["swapin", txid, pairID, bind, "--force"]⟩ w =
      succeedOrFail (w.callExt (Call.Reswapin txid pairID bind "--force")
        (E.Reswapin txid pairID bind "--force")) ∧
    reswap E ⟨method, ["swapout", txid, pairID, bind]⟩ w =
      succeedOrFail (w.callExt (Call.Reswapout txid pairID bind "")
        (E.Reswapout txid pairID bind "")) ∧
    reswap E ⟨method, ["swapout", txid, pairID, bind, "--force"]⟩ w =
      succeedOrFail (w.callExt (Call.Reswapout txid pairID bind "--force")
        (E.Reswapout txid pairID bind "--force")) := by
  refine ⟨?_, ?_, ?_, ?_⟩ <;>
    simp [reswap, getOpTxAndPairID, CallArgs.param, swapinOp, swapoutOp, forceFlag]

/-- C21: a reswap call with five parameters whose fifth is not exactly
`--force` fails with the error `wrong force flag <flag>, must be --force`
and the re-swap operation of the store is not called. With four parameters
and the operation `swapin` or `swapout`, the store operation of that
direction is called once on `(txid, pairID, bind)` with the empty force
option; with the fifth parameter `--force` it is called once with that
force option. In these two cases the call returns `Success` when the store
returns no error, and otherwise the error of the store as it is, the result
string being left alone. -/
theorem reswap_force_flag (E : External σ β τ) (method txid pairID bind : String)
    (w : World σ β) :
    (∀ op flag, flag ≠ "--force" →
      reswap E ⟨method, [op, txid, pairID, bind, flag]⟩ w =
        (some ("wrong force flag " ++ flag ++ ", must be --force"), w)) ∧
    (∀ forceOpt params,
      (forceOpt = "" ∧ params = ["swapin", txid, pairID, bind] ∨
        forceOpt = "--force" ∧ params = ["swapin", txid, pairID, bind, "--force"]) →
      ((E.Reswapin txid pairID bind forceOpt w.ext).1 = none →
        reswap E ⟨method, params⟩ w =
          (none, { w with
            ext := (E.Reswapin txid pairID bind forceOpt w.ext).2
            trace := w.trace ++ [Call.Reswapin txid pairID bind forceOpt]
            result := "Success" })) ∧
      (∀ err, (E.Reswapin txid pairID bind forceOpt w.ext).1 = some err →
        reswap E ⟨method, params⟩ w =
          (some err, { w with
            ext := (E.Reswapin txid pairID bind forceOpt w.ext).2
            trace := w.trace ++ [Call.Reswapin txid pairID bind forceOpt] }))) ∧
    (∀ forceOpt params,
      (forceOpt = "" ∧ params = ["swapout", txid, pairID, bind] ∨
        forceOpt = "--force" ∧ params = ["swapout", txid, pairID, bind, "--force"]) →
      ((E.Reswapout txid pairID bind forceOpt w.ext).1 = none →
        reswap E ⟨method, params⟩ w =
          (none, { w with
            ext := (E.Reswapout txid pairID bind forceOpt w.ext).2
            trace := w.trace ++ [Call.Reswapout txid pairID bind forceOpt]
            result := "Success" })) ∧
      (∀ err, (E.Reswapout txid pairID bind forceOpt w.ext).1 = some err →
        reswap E ⟨method, params⟩ w =
          (some err, { w with
            ext := (E.Reswapout txid pairID bind forceOpt w.ext).2
            trace := w.trace ++ [Call.Reswapout txid pairID bind forceOpt] }))) := by
  obtain ⟨e1, e2, e3, e4⟩ := reswap_eq_call E method txid pairID bind w
  refine ⟨?_, ?_, ?_⟩
  · intro op flag hflag
    have hget : getOpTxAndPairID ⟨method, [op, txid, pairID, bind, flag]⟩ =
        Except.error (wrongForceFlag flag) := by
      simp [getOpTxAndPairID, CallArgs.param, forceFlag, hflag]
    simp only [reswap, hget]
    rw [wrongForceFlag_eq]
  · rintro forceOpt params (⟨hf, hp⟩ | ⟨hf, hp⟩) <;> subst hf hp
    · rw [e1]
      exact succeedOrFail_callExt w _ _
    · rw [e2]
      exact succeedOrFail_callExt w _ _
  · rintro forceOpt params (⟨hf, hp⟩ | ⟨hf, hp⟩) <;> subst hf hp
    · rw [e3]
      exact succeedOrFail_callExt w _ _
    · rw [e4]
      exact succeedOrFail_callExt w _ _

/-- Witness of C21: on the sample world `reswap swapin` with the flag
`-force` is refused and nothing is called, and with the flag `--force` the
store is called once with that flag and the result is `Success`. -/
theorem reswap_force_flag_witness :
    reswap (sampleExternal "0xabcd" ⟨"", []⟩)
      ⟨"reswap", ["swapin", "0xaa", "btc", "0xcc", "-force"]⟩ (sampleWorld ["0xAbCd"]) =
      (some "wrong force flag -force, must be --force", sampleWorld ["0xAbCd"]) ∧
    reswap (sampleExternal "0xabcd" ⟨"", []⟩)
      ⟨"reswap", ["swapin", "0xaa", "btc", "0xcc", "--force"]⟩ (sampleWorld ["0xAbCd"]) =
      (none, { sampleWorld ["0xAbCd"] with
        trace := [Call.Reswapin "0xaa" "btc" "0xcc" "--force"]
        result := "Success" }) :=
  ⟨(reswap_force_flag (sampleExternal "0xabcd" ⟨"", []⟩) "reswap" "0xaa" "btc" "0xcc"
      (sampleWorld ["0xAbCd"])).1 "swapin" "-force" (by decide),
    ((reswap_force_flag (sampleExternal "0xabcd" ⟨"", []⟩) "reswap" "0xaa" "btc" "0xcc"
      (sampleWorld ["0xAbCd"])).2.1 "--force" ["swapin", "0xaa", "btc", "0xcc", "--force"]
      (Or.inr ⟨rfl, rfl⟩)).1 rfl⟩

end CrossChain
